import Mathlib

/-!
# Relational store facade: transaction and connection discipline

A shallow embedding of `frameworks/native/rdb/src/rdb_store_impl.cpp`.

The facade (`RdbStoreImpl`) talks to two collaborators whose code is not part
of the sources at hand: the connection pool (`SqliteConnectionPool`) and the
connections it hands out (`SqliteConnection`).  Their answers are therefore
inputs of the model: an environment `Env` holds one function per pool or
connection method, and each function receives the trace of every interaction
made so far, so an answer may depend on the whole history.  Every interaction
is appended to the trace `log` kept in the facade state, which is what the
release/acquire pairing properties are stated on.
-/

namespace NativeRdb

/-! ## Error codes (`rdb_errno.h`) -/

def E_OK : Int := 0
def E_BASE : Int := 14800000
def E_ERROR : Int := E_BASE
def E_EMPTY_TABLE_NAME : Int := E_BASE + 5
def E_EMPTY_VALUES_BUCKET : Int := E_BASE + 6
def E_INVALID_FILE_PATH : Int := E_BASE + 11
def E_TRANSACTION_IN_EXECUTE : Int := E_BASE + 12
def E_EXECUTE_WRITE_IN_READ_CONNECTION : Int := E_BASE + 14
def E_NO_TRANSACTION_IN_SESSION : Int := E_BASE + 16
def E_NOT_SUPPORTED_ATTACH_IN_WAL_MODE : Int := E_BASE + 36
def E_STORE_SESSION_NOT_GIVE_CONNECTION_TEMPORARILY : Int := E_BASE + 39
def E_CON_OVER_LIMIT : Int := E_BASE + 48

/-! ## Data model -/

/-- Modelled from the spec: a typed scalar or blob value bound to a `?`
placeholder (`value_object.h` is not among the sources). -/
inductive ValueObject where
  | null
  | int (v : Int)
  | str (v : String)
  | bool (v : Bool)
  | blob (v : List Nat)
  deriving DecidableEq, Repr

/-- The column-to-value mapping `values_` of a `ValuesBucket`, a
`std::map<std::string, ValueObject>`: the list is the map in iteration order,
that is, in key order. -/
structure ValuesBucket where
  values_ : List (String × ValueObject)
  deriving DecidableEq, Repr

/-- The method `ValuesBucket::IsEmpty`. -/
def ValuesBucket.IsEmpty (b : ValuesBucket) : Bool := b.values_.isEmpty

/-- The method `ValuesBucket::Size`. -/
def ValuesBucket.Size (b : ValuesBucket) : Nat := b.values_.length

/-- The method `ValuesBucket::GetAll`. -/
def ValuesBucket.GetAll (b : ValuesBucket) : List (String × ValueObject) := b.values_

/-- Modelled from the spec: the type tag of a transaction descriptor
(`TransType`, declared in a header that is not among the sources).  The facade
only ever compares it with `ROLLBACK_SELF`. -/
inductive TransType where
  | EXCLUSIVE_BEGIN
  | SAVEPOINT_BEGIN
  | ROLLBACK_SELF
  deriving DecidableEq, Repr

/-- Modelled from the spec: one nesting level of the transaction stack
(`BaseTransaction`, declared in a header that is not among the sources), with
the attributes the spec lists: `depth` (the constructor argument, kept as
`id`), `type` and `childFailure`. -/
structure BaseTransaction where
  type : TransType
  id : Nat
  childFailure : Bool
  deriving DecidableEq, Repr

/-- Modelled from the spec: the getter of the descriptor's `type` attribute. -/
def BaseTransaction.GetType (t : BaseTransaction) : TransType := t.type

/-- Modelled from the spec: the setter of the descriptor's `childFailure`
attribute; the other attributes are left as they are. -/
def BaseTransaction.SetChildFailure (t : BaseTransaction) (failureFlag : Bool) : BaseTransaction :=
  { t with childFailure := failureFlag }

/-- A connection handed out by the pool.  The pool owns the object; the facade
holds a pointer, here the identity `id` together with the capability fixed at
creation.  The mutable `inTransaction` flag lives in the facade state. -/
structure SqliteConnection where
  id : Nat
  isWriteConnection : Bool
  deriving DecidableEq, Repr

/-- The getter `connection->IsWriteConnection()` of the capability fixed at creation. -/
def SqliteConnection.IsWriteConnection (c : SqliteConnection) : Bool := c.isWriteConnection

/-- The methods of a connection that run a statement on the engine. -/
inductive ConnOp where
  | ExecuteSql
  | ExecuteForLastInsertedRowId
  | ExecuteForChangedRowCount
  | ExecuteGetLong
  | ExecuteGetString
  | Prepare
  deriving DecidableEq, Repr

/-- One interaction of the facade with the pool, with a connection, with the
task executor, or a call of `DoCloudSync`. -/
inductive Event where
  | acquireTransaction (errCode : Int)
  | releaseTransaction
  | acquireConnection (isReadOnly : Bool) (result : Option SqliteConnection)
  | releaseConnection (c : SqliteConnection)
  | exec (op : ConnOp) (c : SqliteConnection) (sql : String) (bindArgs : List ValueObject) (errCode : Int)
  | doCloudSync (table : String)
  | schedule
  | reOpenAvailableReadConnections (errCode : Int)
  | getRdbPassword (key : List Nat)
  deriving DecidableEq, Repr

/-- The file system as a finite map from paths to contents: an association
list in which the first entry of a path is the file at that path. -/
abbrev FileSystem := List (String × List Nat)

/-- The file at a path, if there is one. -/
def FileSystem.lookup : FileSystem → String → Option (List Nat)
  | [], _ => none
  | (p, content) :: rest, path => if p = path then some content else FileSystem.lookup rest path

/-- The test `access(path, F_OK) == 0`: the path exists. -/
def FileSystem.access (fs : FileSystem) (path : String) : Bool := (fs.lookup path).isSome

/-- Modelled from the spec: the function `SqliteUtils::RenameFile(srcFile, destFile)`, a rename
that succeeds: afterwards `destFile` holds what `srcFile` held and `srcFile` is
gone.  Without a file at `srcFile` nothing changes. -/
def FileSystem.RenameFile (fs : FileSystem) (srcFile destFile : String) : FileSystem :=
  match fs.lookup srcFile with
  | none => fs
  | some content =>
    (destFile, content) :: fs.filter (fun entry => entry.1 ≠ srcFile ∧ entry.1 ≠ destFile)

/-- Modelled from the spec: the function `SqliteUtils::DeleteFile(fileName)`, a delete that
succeeds: afterwards there is no file at `fileName`. -/
def FileSystem.DeleteFile (fs : FileSystem) (fileName : String) : FileSystem :=
  fs.filter (fun entry => entry.1 ≠ fileName)

/-- The collaborators of the facade.  The pool and the engine answer as a
function of the trace so far; the remaining fields stand for declarations of
headers that are not among the sources (`SqliteUtils`, `BaseTransaction`,
`ConflictResolution`). -/
structure Env where
  /-- Result of `SqliteConnectionPool::AcquireTransaction`. -/
  acquireTransaction : List Event → Int
  /-- Result of `SqliteConnectionPool::AcquireConnection(isReadOnly)`; `none` is `nullptr`. -/
  acquireConnection : List Event → Bool → Option SqliteConnection
  /-- Result of `SqliteConnection::ExecuteSql(sql, bindArgs)`. -/
  executeSql : List Event → SqliteConnection → String → List ValueObject → Int
  /-- Result of `SqliteConnection::ExecuteForLastInsertedRowId`: error code and the value left
  in the output variable, given the value it held. -/
  executeForLastInsertedRowId : List Event → SqliteConnection → Int → String → List ValueObject → Int × Int
  /-- Result of `SqliteConnection::ExecuteForChangedRowCount`: error code and output value. -/
  executeForChangedRowCount : List Event → SqliteConnection → Int → String → List ValueObject → Int × Int
  /-- Result of `SqliteConnection::ExecuteGetLong`: error code and output value. -/
  executeGetLong : List Event → SqliteConnection → Int → String → List ValueObject → Int × Int
  /-- Result of `SqliteConnection::ExecuteGetString`: error code and output value. -/
  executeGetString : List Event → SqliteConnection → String → String → List ValueObject → Int × String
  /-- Result of `SqliteConnection::Prepare(sql, isReadOnly)`: error code and the value left in
  `isReadOnly`, given the value it held. -/
  prepare : List Event → SqliteConnection → String → Bool → Int × Bool
  /-- Result of `SqliteUtils::GetConflictClause`: error code and the clause. -/
  getConflictClause : Int → Int × String
  /-- The integer value of `ConflictResolution::ON_CONFLICT_NONE`. -/
  ON_CONFLICT_NONE : Int
  /-- The integer value of `ConflictResolution::ON_CONFLICT_REPLACE`. -/
  ON_CONFLICT_REPLACE : Int
  /-- The function `SqliteUtils::GetSqlStatementType`. -/
  getSqlStatementType : String → Int
  /-- The function `SqliteUtils::IsSpecial`. -/
  isSpecial : Int → Bool
  /-- The function `SqliteUtils::IsSqlReadOnly`. -/
  isSqlReadOnly : Int → Bool
  /-- The type tag the constructor `BaseTransaction(depth)` gives a descriptor. -/
  transactionType : Nat → TransType
  /-- The method `BaseTransaction::GetTransactionStr`. -/
  transactionStr : BaseTransaction → String
  /-- The method `BaseTransaction::GetCommitStr`. -/
  commitStr : BaseTransaction → String
  /-- The method `BaseTransaction::GetRollbackStr`. -/
  rollbackStr : BaseTransaction → String
  /-- The function `SqliteUtils::StrToUpper`. -/
  strToUpper : String → String
  /-- The constant `SqliteUtils::STATEMENT_DDL`. -/
  STATEMENT_DDL : Int
  /-- Result of `SqliteConnectionPool::ReOpenAvailableReadConnections`. -/
  reOpenAvailableReadConnections : List Event → Int
  /-- The bytes of the password returned by
  `RdbSecurityManager::GetInstance().GetRdbPassword(PUB_KEY_FILE)`. -/
  getRdbPassword : List Event → List Nat
  /-- The constant `GlobalExpr::PRAGMA_JOUR_MODE_EXP`. -/
  PRAGMA_JOUR_MODE_EXP : String
  /-- The constant `GlobalExpr::DEFAULT_JOURNAL_MODE`. -/
  DEFAULT_JOURNAL_MODE : String
  /-- The constant `GlobalExpr::ATTACH_SQL`. -/
  ATTACH_SQL : String
  /-- The constant `GlobalExpr::CIPHER_DEFAULT_ATTACH_HMAC_ALGO`. -/
  CIPHER_DEFAULT_ATTACH_HMAC_ALGO : String
  /-- The constant `GlobalExpr::ATTACH_BACKUP_SQL`. -/
  ATTACH_BACKUP_SQL : String
  /-- The constant `GlobalExpr::EXPORT_SQL`. -/
  EXPORT_SQL : String
  /-- The constant `GlobalExpr::DETACH_BACKUP_SQL`. -/
  DETACH_BACKUP_SQL : String
  /-- The function `ExtractFilePath` of the platform's file utilities. -/
  extractFilePath : String → String
  /-- Result of `PathToRealPath(path, realPath)`: success and the value left in
  `realPath`, given the value it held. -/
  pathToRealPath : String → String → Bool × String
  /-- The files after the engine has run the statements of the trace on the
  files given: what attaching, exporting and detaching did to the disk. -/
  engineFiles : List Event → FileSystem → FileSystem

/-- Modelled from the spec: the constructor `BaseTransaction(depth)`.  The new
descriptor records the depth it was built with and has no child failure yet. -/
def Env.newTransaction (env : Env) (depth : Nat) : BaseTransaction :=
  { type := env.transactionType depth, id := depth, childFailure := false }

/-- The mutable state reachable from an `RdbStoreImpl`: the pool's transaction
stack (top first), the `inTransaction` flag of every connection, the cloud-sync
bookkeeping, and the trace of interactions. -/
structure RdbStoreImpl where
  /-- The stack `connectionPool->getTransactionStack()`, top of the stack first. -/
  transactionStack : List BaseTransaction
  /-- The `inTransaction` flag of the connection with the given id. -/
  inTransaction : Nat → Bool
  /-- Whether `pool_` (the task executor) is non-null. -/
  pool_ : Bool
  /-- The tables registered for cloud sync. -/
  cloudTables_ : Finset String
  /-- The pending set of tables to sync; `none` is the null pointer. -/
  syncTables_ : Option (Finset String)
  /-- Every interaction so far, oldest first. -/
  log : List Event
  /-- The field `isEncrypt_`, from the configuration. -/
  isEncrypt_ : Bool
  /-- The field `path`, the database file. -/
  path : String

/-! ## Pool and connection primitives

Each primitive asks the environment for the answer and records the
interaction in the trace. -/

/-- The call `connectionPool->AcquireTransaction()`. -/
def SqliteConnectionPool.AcquireTransaction (env : Env) (s : RdbStoreImpl) : Int × RdbStoreImpl :=
  let errCode := env.acquireTransaction s.log
  (errCode, { s with log := s.log ++ [Event.acquireTransaction errCode] })

/-- The call `connectionPool->ReleaseTransaction()`. -/
def SqliteConnectionPool.ReleaseTransaction (s : RdbStoreImpl) : RdbStoreImpl :=
  { s with log := s.log ++ [Event.releaseTransaction] }

/-- The call `connectionPool->AcquireConnection(isReadOnly)`. -/
def SqliteConnectionPool.AcquireConnection (env : Env) (isReadOnly : Bool) (s : RdbStoreImpl) :
    Option SqliteConnection × RdbStoreImpl :=
  let connection := env.acquireConnection s.log isReadOnly
  (connection, { s with log := s.log ++ [Event.acquireConnection isReadOnly connection] })

/-- The call `connectionPool->ReleaseConnection(connection)`. -/
def SqliteConnectionPool.ReleaseConnection (connection : SqliteConnection) (s : RdbStoreImpl) :
    RdbStoreImpl :=
  { s with log := s.log ++ [Event.releaseConnection connection] }

/-- The call `connectionPool->getTransactionStack().pop()`. -/
def SqliteConnectionPool.popTransaction (s : RdbStoreImpl) : RdbStoreImpl :=
  { s with transactionStack := s.transactionStack.tail }

/-- The call `connectionPool->getTransactionStack().push(transaction)`. -/
def SqliteConnectionPool.pushTransaction (transaction : BaseTransaction) (s : RdbStoreImpl) :
    RdbStoreImpl :=
  { s with transactionStack := transaction :: s.transactionStack }

/-- The call `connectionPool->getTransactionStack().top().SetChildFailure(flag)`. -/
def SqliteConnectionPool.setTopChildFailure (failureFlag : Bool) (s : RdbStoreImpl) : RdbStoreImpl :=
  match s.transactionStack with
  | [] => s
  | top :: rest => { s with transactionStack := top.SetChildFailure failureFlag :: rest }

/-- Modelled from the spec: the getter `connection->IsInTransaction()` of the
bookkeeping flag. -/
def SqliteConnection.IsInTransaction (connection : SqliteConnection) (s : RdbStoreImpl) : Bool :=
  s.inTransaction connection.id

/-- Modelled from the spec: the setter `connection->SetInTransaction(flag)` of
the bookkeeping flag; it changes nothing else. -/
def SqliteConnection.SetInTransaction (connection : SqliteConnection) (flag : Bool)
    (s : RdbStoreImpl) : RdbStoreImpl :=
  { s with inTransaction := Function.update s.inTransaction connection.id flag }

/-- The call `connection->ExecuteSql(sql, bindArgs)`. -/
def SqliteConnection.ExecuteSql (env : Env) (connection : SqliteConnection) (sql : String)
    (bindArgs : List ValueObject) (s : RdbStoreImpl) : Int × RdbStoreImpl :=
  let errCode := env.executeSql s.log connection sql bindArgs
  (errCode, { s with log := s.log ++ [Event.exec ConnOp.ExecuteSql connection sql bindArgs errCode] })

/-- The call `connection->ExecuteForLastInsertedRowId(outRowId, sql, bindArgs)`. -/
def SqliteConnection.ExecuteForLastInsertedRowId (env : Env) (connection : SqliteConnection)
    (outRowId : Int) (sql : String) (bindArgs : List ValueObject) (s : RdbStoreImpl) :
    Int × Int × RdbStoreImpl :=
  let r := env.executeForLastInsertedRowId s.log connection outRowId sql bindArgs
  (r.1, r.2, { s with log := s.log ++
    [Event.exec ConnOp.ExecuteForLastInsertedRowId connection sql bindArgs r.1] })

/-- The call `connection->ExecuteForChangedRowCount(changedRows, sql, bindArgs)`. -/
def SqliteConnection.ExecuteForChangedRowCount (env : Env) (connection : SqliteConnection)
    (changedRows : Int) (sql : String) (bindArgs : List ValueObject) (s : RdbStoreImpl) :
    Int × Int × RdbStoreImpl :=
  let r := env.executeForChangedRowCount s.log connection changedRows sql bindArgs
  (r.1, r.2, { s with log := s.log ++
    [Event.exec ConnOp.ExecuteForChangedRowCount connection sql bindArgs r.1] })

/-- The call `connection->ExecuteGetLong(outValue, sql, bindArgs)`. -/
def SqliteConnection.ExecuteGetLong (env : Env) (connection : SqliteConnection)
    (outValue : Int) (sql : String) (bindArgs : List ValueObject) (s : RdbStoreImpl) :
    Int × Int × RdbStoreImpl :=
  let r := env.executeGetLong s.log connection outValue sql bindArgs
  (r.1, r.2, { s with log := s.log ++ [Event.exec ConnOp.ExecuteGetLong connection sql bindArgs r.1] })

/-- The call `connection->ExecuteGetString(outValue, sql, bindArgs)`. -/
def SqliteConnection.ExecuteGetString (env : Env) (connection : SqliteConnection)
    (outValue : String) (sql : String) (bindArgs : List ValueObject) (s : RdbStoreImpl) :
    Int × String × RdbStoreImpl :=
  let r := env.executeGetString s.log connection outValue sql bindArgs
  (r.1, r.2, { s with log := s.log ++ [Event.exec ConnOp.ExecuteGetString connection sql bindArgs r.1] })

/-- The call `connection->Prepare(sql, isReadOnly)`. -/
def SqliteConnection.Prepare (env : Env) (connection : SqliteConnection) (sql : String)
    (isReadOnly : Bool) (s : RdbStoreImpl) : Int × Bool × RdbStoreImpl :=
  let r := env.prepare s.log connection sql isReadOnly
  (r.1, r.2, { s with log := s.log ++ [Event.exec ConnOp.Prepare connection sql [] r.1] })

/-! ## Counting interactions in a trace -/

def Event.isAcquiredTransaction : Event → Bool
  | Event.acquireTransaction errCode => decide (errCode = E_OK)
  | _ => false

def Event.isReleaseTransaction : Event → Bool
  | Event.releaseTransaction => true
  | _ => false

def Event.isAcquiredConnection : Event → Bool
  | Event.acquireConnection _ (some _) => true
  | _ => false

def Event.isAcquireConnection : Event → Bool
  | Event.acquireConnection _ _ => true
  | _ => false

def Event.isAcquireTransaction : Event → Bool
  | Event.acquireTransaction _ => true
  | _ => false

def Event.isReleaseConnection : Event → Bool
  | Event.releaseConnection _ => true
  | _ => false

def Event.isExec : Event → Bool
  | Event.exec _ _ _ _ _ => true
  | _ => false

def Event.isDoCloudSync : Event → Bool
  | Event.doCloudSync _ => true
  | _ => false

/-- Number of `AcquireTransaction` calls in the trace that returned `E_OK`. -/
def acquiredTransactions (log : List Event) : Nat := log.countP Event.isAcquiredTransaction

/-- Number of `ReleaseTransaction` calls in the trace. -/
def releasedTransactions (log : List Event) : Nat := log.countP Event.isReleaseTransaction

/-- Number of `AcquireConnection` calls in the trace that returned a connection. -/
def acquiredConnections (log : List Event) : Nat := log.countP Event.isAcquiredConnection

/-- Number of `ReleaseConnection` calls in the trace. -/
def releasedConnections (log : List Event) : Nat := log.countP Event.isReleaseConnection

/-! ## The facade (`rdb_store_impl.cpp`) -/

/-- The source's `RdbStoreImpl::DoCloudSync` (lines 1052-1095), on the platform where its body is
compiled in.  Scheduling the delayed task is recorded as `Event.schedule`; the
call itself is recorded as `Event.doCloudSync`. -/
def RdbStoreImpl.DoCloudSync (table : String) (s0 : RdbStoreImpl) : RdbStoreImpl :=
  let s := { s0 with log := s0.log ++ [Event.doCloudSync table] }
  if s.pool_ = false then s
  else if s.cloudTables_ = ∅ ∨ (table ≠ "" ∧ table ∉ s.cloudTables_) then s
  else
    let syncTables : Finset String := s.syncTables_.getD ∅
    let empty : Bool := decide (syncTables = ∅)
    let syncTables := if table = "" then syncTables ∪ s.cloudTables_ else insert table syncTables
    let s := { s with syncTables_ := some syncTables }
    if empty = false then s
    else { s with log := s.log ++ [Event.schedule] }

/-- The source's `RdbStoreImpl::FreeTransaction` (lines 917-928). -/
def RdbStoreImpl.FreeTransaction (env : Env) (connection : SqliteConnection) (sql : String)
    (s : RdbStoreImpl) : Int × RdbStoreImpl :=
  let (errCode, s) := connection.ExecuteSql env sql [] s
  let s :=
    if errCode = E_OK then
      SqliteConnectionPool.ReleaseTransaction (connection.SetInTransaction false s)
    else s
  (errCode, SqliteConnectionPool.ReleaseConnection connection s)

/-- The column loop of `GetInsertParams` (lines 226-230): `first` tells whether
the iterator is at `valuesMap.begin()`. -/
def RdbStoreImpl.GetInsertParams.columns :
    List (String × ValueObject) → Bool → String → List ValueObject → String × List ValueObject
  | [], _, sql, bindArgs => (sql, bindArgs)
  | (key, val) :: rest, first, sql, bindArgs =>
    RdbStoreImpl.GetInsertParams.columns rest false
      (sql ++ (if first then "" else ",") ++ key) (bindArgs ++ [val])

/-- The placeholder loop `for (i = 0; i < size; i++) sql << ((i == 0) ? "?" : ",?")`:
the first argument is the number of iterations left, the second is `i`. -/
def RdbStoreImpl.placeholders : Nat → Nat → String → String
  | 0, _, sql => sql
  | n + 1, i, sql => RdbStoreImpl.placeholders n (i + 1) (sql ++ (if i = 0 then "?" else ",?"))

/-- The source's `RdbStoreImpl::GetInsertParams` (lines 219-240). -/
def RdbStoreImpl.GetInsertParams (valuesMap : List (String × ValueObject)) (table : String) :
    String × List ValueObject :=
  let sql := "INSERT INTO " ++ table ++ "("
  let (sql, bindArgs) := RdbStoreImpl.GetInsertParams.columns valuesMap true sql []
  let sql := sql ++ ") VALUES ("
  let sql := RdbStoreImpl.placeholders valuesMap.length 0 sql
  (sql ++ ")", bindArgs)

/-- The insert loop of `BatchInsert` (lines 203-211).  Returns `some status` when
the loop left the function through `return FreeTransaction(..)`, and `none`
when it ran to its end; with it the value of `outInsertNum`. -/
def RdbStoreImpl.BatchInsert.rows (env : Env) (connection : SqliteConnection)
    (transaction : BaseTransaction) :
    List (String × List ValueObject) → Int → RdbStoreImpl → Option Int × Int × RdbStoreImpl
  | [], outInsertNum, s => (none, outInsertNum, s)
  | (sql, bindArgs) :: rest, outInsertNum, s =>
    let outInsertNum := outInsertNum + 1
    let (errCode, s) := connection.ExecuteSql env sql bindArgs s
    if errCode ≠ E_OK then
      let outInsertNum := -1
      let (status, s) := RdbStoreImpl.FreeTransaction env connection (env.rollbackStr transaction) s
      (some status, outInsertNum, s)
    else
      RdbStoreImpl.BatchInsert.rows env connection transaction rest outInsertNum s

/-- The source's `RdbStoreImpl::BatchInsert` (lines 160-217).  The result is the status, the value
of the output variable `outInsertNum` (given the value it held), and the state. -/
def RdbStoreImpl.BatchInsert (env : Env) (s : RdbStoreImpl) (outInsertNum : Int) (table : String)
    (initialBatchValues : List ValuesBucket) : Int × Int × RdbStoreImpl :=
  if initialBatchValues.isEmpty then (E_OK, 0, s)
  else
    let vecVectorObj := initialBatchValues.map
      (fun values => RdbStoreImpl.GetInsertParams values.GetAll table)
    let (errCode, s) := SqliteConnectionPool.AcquireTransaction env s
    if errCode ≠ E_OK then (errCode, outInsertNum, s)
    else
      match SqliteConnectionPool.AcquireConnection env false s with
      | (none, s) => (E_CON_OVER_LIMIT, outInsertNum, s)
      | (some connection, s) =>
        if connection.IsInTransaction s then
          let s := SqliteConnectionPool.ReleaseTransaction s
          let s := SqliteConnectionPool.ReleaseConnection connection s
          (E_TRANSACTION_IN_EXECUTE, outInsertNum, s)
        else
          let transaction := env.newTransaction 0
          let s := connection.SetInTransaction true s
          let (errCode, s) := connection.ExecuteSql env (env.transactionStr transaction) [] s
          if errCode ≠ E_OK then
            let s := connection.SetInTransaction false s
            let s := SqliteConnectionPool.ReleaseConnection connection s
            let s := SqliteConnectionPool.ReleaseTransaction s
            (errCode, outInsertNum, s)
          else
            match RdbStoreImpl.BatchInsert.rows env connection transaction vecVectorObj
                outInsertNum s with
            | (some status, outInsertNum, s) => (status, outInsertNum, s)
            | (none, outInsertNum, s) =>
              let (status, s) :=
                RdbStoreImpl.FreeTransaction env connection (env.commitStr transaction) s
              let s := if status = E_OK then RdbStoreImpl.DoCloudSync table s else s
              (status, outInsertNum, s)

/-- The column loop of `InsertWithConflictResolution` (lines 268-274); the second
argument is the variable `split`. -/
def RdbStoreImpl.InsertWithConflictResolution.columns :
    List (String × ValueObject) → String → String → List ValueObject → String × List ValueObject
  | [], _, sql, bindArgs => (sql, bindArgs)
  | (key, val) :: rest, split, sql, bindArgs =>
    RdbStoreImpl.InsertWithConflictResolution.columns rest "," (sql ++ split ++ key)
      (bindArgs ++ [val])

/-- The source's `RdbStoreImpl::InsertWithConflictResolution` (lines 247-293).  The result is the
status, the value of `outRowId`, and the state. -/
def RdbStoreImpl.InsertWithConflictResolution (env : Env) (s : RdbStoreImpl) (outRowId : Int)
    (table : String) (initialValues : ValuesBucket) (conflictResolution : Int) :
    Int × Int × RdbStoreImpl :=
  if table = "" then (E_EMPTY_TABLE_NAME, outRowId, s)
  else if initialValues.IsEmpty then (E_EMPTY_VALUES_BUCKET, outRowId, s)
  else
    let (errCode, conflictClause) := env.getConflictClause conflictResolution
    if errCode ≠ E_OK then (errCode, outRowId, s)
    else
      let sql := "INSERT" ++ conflictClause ++ " INTO " ++ table ++ "("
      let (sql, bindArgs) :=
        RdbStoreImpl.InsertWithConflictResolution.columns initialValues.values_ "" sql []
      let sql := sql ++ ") VALUES ("
      let sql := RdbStoreImpl.placeholders initialValues.Size 0 sql
      let sql := sql ++ ")"
      match SqliteConnectionPool.AcquireConnection env false s with
      | (none, s) => (E_CON_OVER_LIMIT, outRowId, s)
      | (some connection, s) =>
        let (errCode, outRowId, s) :=
          connection.ExecuteForLastInsertedRowId env outRowId sql bindArgs s
        let s := SqliteConnectionPool.ReleaseConnection connection s
        let s := if errCode = E_OK then RdbStoreImpl.DoCloudSync table s else s
        (errCode, outRowId, s)

/-- The source's `RdbStoreImpl::Insert` (lines 154-158). -/
def RdbStoreImpl.Insert (env : Env) (s : RdbStoreImpl) (outRowId : Int) (table : String)
    (initialValues : ValuesBucket) : Int × Int × RdbStoreImpl :=
  RdbStoreImpl.InsertWithConflictResolution env s outRowId table initialValues env.ON_CONFLICT_NONE

/-- The source's `RdbStoreImpl::Replace` (lines 242-245). -/
def RdbStoreImpl.Replace (env : Env) (s : RdbStoreImpl) (outRowId : Int) (table : String)
    (initialValues : ValuesBucket) : Int × Int × RdbStoreImpl :=
  RdbStoreImpl.InsertWithConflictResolution env s outRowId table initialValues
    env.ON_CONFLICT_REPLACE

/-- The column loop of `UpdateWithConflictResolution` (lines 330-336); the second
argument is the variable `split`. -/
def RdbStoreImpl.UpdateWithConflictResolution.columns :
    List (String × ValueObject) → String → String → List ValueObject → String × List ValueObject
  | [], _, sql, bindArgs => (sql, bindArgs)
  | (key, val) :: rest, split, sql, bindArgs =>
    RdbStoreImpl.UpdateWithConflictResolution.columns rest "," (sql ++ split ++ key ++ "=?")
      (bindArgs ++ [val])

/-- The loop `for (auto &iter : whereArgs) bindArgs.push_back(ValueObject(iter))`. -/
def RdbStoreImpl.pushWhereArgs : List String → List ValueObject → List ValueObject
  | [], bindArgs => bindArgs
  | iter :: rest, bindArgs => RdbStoreImpl.pushWhereArgs rest (bindArgs ++ [ValueObject.str iter])

/-- The source's `RdbStoreImpl::UpdateWithConflictResolution` (lines 309-357).  The result is the
status, the value of `changedRows`, and the state. -/
def RdbStoreImpl.UpdateWithConflictResolution (env : Env) (s : RdbStoreImpl) (changedRows : Int)
    (table : String) (values : ValuesBucket) (whereClause : String) (whereArgs : List String)
    (conflictResolution : Int) : Int × Int × RdbStoreImpl :=
  if table = "" then (E_EMPTY_TABLE_NAME, changedRows, s)
  else if values.IsEmpty then (E_EMPTY_VALUES_BUCKET, changedRows, s)
  else
    let (errCode, conflictClause) := env.getConflictClause conflictResolution
    if errCode ≠ E_OK then (errCode, changedRows, s)
    else
      let sql := "UPDATE" ++ conflictClause ++ " " ++ table ++ " SET "
      let (sql, bindArgs) :=
        RdbStoreImpl.UpdateWithConflictResolution.columns values.values_ "" sql []
      let sql := if whereClause ≠ "" then sql ++ " WHERE " ++ whereClause else sql
      let bindArgs := RdbStoreImpl.pushWhereArgs whereArgs bindArgs
      match SqliteConnectionPool.AcquireConnection env false s with
      | (none, s) => (E_CON_OVER_LIMIT, changedRows, s)
      | (some connection, s) =>
        let (errCode, changedRows, s) :=
          connection.ExecuteForChangedRowCount env changedRows sql bindArgs s
        let s := SqliteConnectionPool.ReleaseConnection connection s
        let s := if errCode = E_OK then RdbStoreImpl.DoCloudSync table s else s
        (errCode, changedRows, s)

/-- The source's `RdbStoreImpl::Update` (lines 295-301). -/
def RdbStoreImpl.Update (env : Env) (s : RdbStoreImpl) (changedRows : Int) (table : String)
    (values : ValuesBucket) (whereClause : String) (whereArgs : List String) :
    Int × Int × RdbStoreImpl :=
  RdbStoreImpl.UpdateWithConflictResolution env s changedRows table values whereClause whereArgs
    env.ON_CONFLICT_NONE

/-- The source's `RdbStoreImpl::BeginExecuteSql` (lines 692-727).  The second argument is the value
`*connection` held before the call; the result is the status, the value of
`*connection` afterwards, and the state. -/
def RdbStoreImpl.BeginExecuteSql (env : Env) (sql : String) (connection : Option SqliteConnection)
    (s : RdbStoreImpl) : Int × Option SqliteConnection × RdbStoreImpl :=
  let type := env.getSqlStatementType sql
  if env.isSpecial type then (E_TRANSACTION_IN_EXECUTE, connection, s)
  else
    let assumeReadOnly := env.isSqlReadOnly type
    let isReadOnly := false
    match SqliteConnectionPool.AcquireConnection env assumeReadOnly s with
    | (none, s) => (E_CON_OVER_LIMIT, none, s)
    | (some c, s) =>
      let (errCode, isReadOnly, s) := c.Prepare env sql isReadOnly s
      if errCode ≠ 0 then
        (errCode, some c, SqliteConnectionPool.ReleaseConnection c s)
      else if isReadOnly = c.IsWriteConnection then
        let s := SqliteConnectionPool.ReleaseConnection c s
        match SqliteConnectionPool.AcquireConnection env isReadOnly s with
        | (none, s) => (E_CON_OVER_LIMIT, none, s)
        | (some c2, s) =>
          if !isReadOnly && !c2.IsWriteConnection then
            (E_EXECUTE_WRITE_IN_READ_CONNECTION, some c2,
              SqliteConnectionPool.ReleaseConnection c2 s)
          else (E_OK, some c2, s)
      else (E_OK, some c, s)

/-- The source's `RdbStoreImpl::ExecuteAndGetLong` (lines 518-531).  The result is the status, the
value of `outValue`, and the state.  The local pointer `connection` starts
uninitialised (here `none`); `BeginExecuteSql` returns `E_OK` only with a
connection in it, so the `none` branch is never taken with `E_OK`. -/
def RdbStoreImpl.ExecuteAndGetLong (env : Env) (s : RdbStoreImpl) (outValue : Int) (sql : String)
    (bindArgs : List ValueObject) : Int × Int × RdbStoreImpl :=
  match RdbStoreImpl.BeginExecuteSql env sql none s with
  | (errCode, none, s) => (errCode, outValue, s)
  | (errCode, some connection, s) =>
    if errCode ≠ E_OK then (errCode, outValue, s)
    else
      let (errCode, outValue, s) := connection.ExecuteGetLong env outValue sql bindArgs s
      let s := SqliteConnectionPool.ReleaseConnection connection s
      (errCode, outValue, s)

/-- The source's `RdbStoreImpl::ExecuteAndGetString` (lines 533-544).  The result is the status,
the value of `outValue`, and the state. -/
def RdbStoreImpl.ExecuteAndGetString (env : Env) (s : RdbStoreImpl) (outValue : String)
    (sql : String) (bindArgs : List ValueObject) : Int × String × RdbStoreImpl :=
  match RdbStoreImpl.BeginExecuteSql env sql none s with
  | (errCode, none, s) => (errCode, outValue, s)
  | (errCode, some connection, s) =>
    if errCode ≠ E_OK then (errCode, outValue, s)
    else
      let (_, outValue, s) := connection.ExecuteGetString env outValue sql bindArgs s
      let s := SqliteConnectionPool.ReleaseConnection connection s
      (errCode, outValue, s)

/-- The source's `RdbStoreImpl::BeginTransaction` (lines 833-852). -/
def RdbStoreImpl.BeginTransaction (env : Env) (s : RdbStoreImpl) : Int × RdbStoreImpl :=
  let transaction := env.newTransaction s.transactionStack.length
  match SqliteConnectionPool.AcquireConnection env false s with
  | (none, s) => (E_CON_OVER_LIMIT, s)
  | (some connection, s) =>
    let (errCode, s) := connection.ExecuteSql env (env.transactionStr transaction) [] s
    let s := SqliteConnectionPool.ReleaseConnection connection s
    if errCode ≠ E_OK then (errCode, s)
    else
      let s := connection.SetInTransaction true s
      let s := SqliteConnectionPool.pushTransaction transaction s
      (E_OK, s)

/-- The source's `RdbStoreImpl::RollBack` (lines 857-883). -/
def RdbStoreImpl.RollBack (env : Env) (s : RdbStoreImpl) : Int × RdbStoreImpl :=
  match s.transactionStack with
  | [] => (E_NO_TRANSACTION_IN_SESSION, s)
  | transaction :: _ =>
    let s := SqliteConnectionPool.popTransaction s
    let s :=
      if transaction.GetType ≠ TransType.ROLLBACK_SELF ∧ s.transactionStack ≠ [] then
        SqliteConnectionPool.setTopChildFailure true s
      else s
    match SqliteConnectionPool.AcquireConnection env false s with
    | (none, s) => (E_CON_OVER_LIMIT, s)
    | (some connection, s) =>
      let (_, s) := connection.ExecuteSql env (env.rollbackStr transaction) [] s
      let s := SqliteConnectionPool.ReleaseConnection connection s
      let s := if s.transactionStack = [] then connection.SetInTransaction false s else s
      (E_OK, s)

/-- The source's `RdbStoreImpl::Commit` (lines 888-915). -/
def RdbStoreImpl.Commit (env : Env) (s : RdbStoreImpl) : Int × RdbStoreImpl :=
  match s.transactionStack with
  | [] => (E_OK, s)
  | transaction :: _ =>
    let sqlStr := env.commitStr transaction
    if sqlStr.utf8ByteSize ≤ 1 then (E_OK, SqliteConnectionPool.popTransaction s)
    else
      match SqliteConnectionPool.AcquireConnection env false s with
      | (none, s) => (E_CON_OVER_LIMIT, s)
      | (some connection, s) =>
        let (_, s) := connection.ExecuteSql env sqlStr [] s
        let s := SqliteConnectionPool.ReleaseConnection connection s
        let s := connection.SetInTransaction false s
        let s := SqliteConnectionPool.popTransaction s
        (E_OK, s)

/-- The source's `RdbStoreImpl::GiveConnectionTemporarily` (lines 734-755).  The sleep of
`milliseconds` between `BeginTransaction` and `RollBack` changes no state. -/
def RdbStoreImpl.GiveConnectionTemporarily (env : Env) (s : RdbStoreImpl) (_milliseconds : Int) :
    Int × RdbStoreImpl :=
  match SqliteConnectionPool.AcquireConnection env false s with
  | (none, s) => (E_CON_OVER_LIMIT, s)
  | (some connection, s) =>
    if connection.IsInTransaction s then (E_STORE_SESSION_NOT_GIVE_CONNECTION_TEMPORARILY, s)
    else
      let (errCode, s) := RdbStoreImpl.BeginTransaction env s
      if errCode ≠ E_OK then (errCode, s)
      else
        let (errCode, s) := RdbStoreImpl.RollBack env s
        if errCode ≠ E_OK then (errCode, s)
        else (errCode, s)

/-! ## Concrete environments and states

Used to run the facade on explicit inputs. -/

/-- An environment in which the pool always grants the token and the writable
connection 0, and every statement succeeds. -/
def Env.allOk : Env where
  acquireTransaction := fun _ => E_OK
  acquireConnection := fun _ _ => some { id := 0, isWriteConnection := true }
  executeSql := fun _ _ _ _ => E_OK
  executeForLastInsertedRowId := fun _ _ _ _ _ => (E_OK, 1)
  executeForChangedRowCount := fun _ _ _ _ _ => (E_OK, 1)
  executeGetLong := fun _ _ _ _ _ => (E_OK, 0)
  executeGetString := fun _ _ _ _ _ => (E_OK, "")
  prepare := fun _ _ _ _ => (E_OK, false)
  getConflictClause := fun _ => (E_OK, "")
  ON_CONFLICT_NONE := 0
  ON_CONFLICT_REPLACE := 5
  getSqlStatementType := fun _ => 0
  isSpecial := fun _ => false
  isSqlReadOnly := fun _ => false
  transactionType := fun _ => TransType.ROLLBACK_SELF
  transactionStr := fun t => if t.id = 0 then "BEGIN EXCLUSIVE;" else "SAVEPOINT sp;"
  commitStr := fun t => if t.id = 0 then "COMMIT;" else "RELEASE sp;"
  rollbackStr := fun t => if t.id = 0 then "ROLLBACK;" else "ROLLBACK TO sp;"
  strToUpper := fun str => String.mk (str.toList.map Char.toUpper)
  STATEMENT_DDL := 3
  reOpenAvailableReadConnections := fun _ => E_OK
  getRdbPassword := fun _ => [1, 2, 3]
  PRAGMA_JOUR_MODE_EXP := "PRAGMA journal_mode"
  DEFAULT_JOURNAL_MODE := "WAL"
  ATTACH_SQL := "ATTACH DATABASE ? AS ? KEY ?"
  CIPHER_DEFAULT_ATTACH_HMAC_ALGO := "PRAGMA cipher_default_attach_hmac_algo=sha256"
  ATTACH_BACKUP_SQL := "ATTACH ? AS backup KEY ?"
  EXPORT_SQL := "SELECT export_database(?)"
  DETACH_BACKUP_SQL := "DETACH backup"
  extractFilePath := fun _ => "/data/"
  pathToRealPath := fun path _ => (true, path)
  engineFiles := fun _ fs => fs

/-- As `Env.allOk`, but the pool has no connection to give. -/
def Env.noConnection : Env :=
  { Env.allOk with acquireConnection := fun _ _ => none }

/-- As `Env.allOk`, but the engine fails every `COMMIT;` with code 1. -/
def Env.commitFails : Env :=
  { Env.allOk with executeSql := fun _ _ sql _ => if sql = "COMMIT;" then 1 else E_OK }

/-- As `Env.allOk`, but the engine fails every statement that has bind arguments
(here: the row inserts) with code 19, while `BEGIN` and `ROLLBACK` succeed. -/
def Env.insertFails : Env :=
  { Env.allOk with executeSql := fun _ _ _ bindArgs => if bindArgs = [] then E_OK else 19 }

/-- As `Env.allOk`, but both scalar queries fail with code 1. -/
def Env.scalarFails : Env :=
  { Env.allOk with
    executeGetLong := fun _ _ outValue _ _ => (1, outValue)
    executeGetString := fun _ _ outValue _ _ => (1, outValue) }

/-- A freshly opened store: empty transaction stack, no connection in a
transaction, no table registered for cloud sync, empty trace. -/
def RdbStoreImpl.idle : RdbStoreImpl where
  transactionStack := []
  inTransaction := fun _ => false
  pool_ := true
  cloudTables_ := ∅
  syncTables_ := none
  log := []
  isEncrypt_ := false
  path := "/data/rdb.db"

/-- The store after one successful `BeginTransaction` on a fresh store, with
the trace cleared: one descriptor on the stack, connection 0 in a transaction. -/
def RdbStoreImpl.inOneTransaction : RdbStoreImpl :=
  { (RdbStoreImpl.BeginTransaction Env.allOk RdbStoreImpl.idle).2 with log := [] }

/-- As `Env.allOk`, but the descriptor of depth 0 is tagged `EXCLUSIVE_BEGIN` and
every deeper one `SAVEPOINT_BEGIN`. -/
def Env.tagged : Env :=
  { Env.allOk with
    transactionType := fun depth =>
      if depth = 0 then TransType.EXCLUSIVE_BEGIN else TransType.SAVEPOINT_BEGIN }

/-- The store after two successful `BeginTransaction` calls under `Env.tagged`
on a fresh store: a savepoint descriptor of depth 1 on top of the outer
descriptor of depth 0. -/
def RdbStoreImpl.nested : RdbStoreImpl :=
  (RdbStoreImpl.BeginTransaction Env.tagged
    (RdbStoreImpl.BeginTransaction Env.tagged RdbStoreImpl.idle).2).2

/-- A row with the single column `id` holding 1. -/
def rowId1 : ValuesBucket := { values_ := [("id", ValueObject.int 1)] }

/-- A values bucket without entries. -/
def emptyBucket : ValuesBucket := { values_ := [] }

/-! ## Sequences of transaction calls -/

/-- One call of a transaction operation of the facade. -/
inductive TransactionCall where
  | BeginTransaction
  | Commit
  | RollBack
  deriving DecidableEq, Repr

/-- Runs one transaction call: its status and the state after it. -/
def RdbStoreImpl.call (env : Env) : TransactionCall → RdbStoreImpl → Int × RdbStoreImpl
  | TransactionCall.BeginTransaction, s => RdbStoreImpl.BeginTransaction env s
  | TransactionCall.Commit, s => RdbStoreImpl.Commit env s
  | TransactionCall.RollBack, s => RdbStoreImpl.RollBack env s

/-- Runs the calls in order.  The result lists, for each call, its status and the
size of the transaction stack right after it; with it the final state. -/
def RdbStoreImpl.calls (env : Env) :
    List TransactionCall → RdbStoreImpl → List (Int × Nat) × RdbStoreImpl
  | [], s => ([], s)
  | c :: rest, s =>
    let r := RdbStoreImpl.call env c s
    let rs := RdbStoreImpl.calls env rest r.2
    ((r.1, r.2.transactionStack.length) :: rs.1, rs.2)

/-- The statement that the descriptor at position `i` of the stack counted from
the bottom was constructed with depth `i`; the stack is given top first. -/
def depthsMatch (stack : List BaseTransaction) : Prop :=
  stack.map BaseTransaction.id = (List.range stack.length).reverse

/-- The stack with `childFailure` set to `flag` on its top descriptor, if it has one. -/
def setTopFlag (flag : Bool) : List BaseTransaction → List BaseTransaction
  | [] => []
  | top :: rest => top.SetChildFailure flag :: rest

/-! ## The facade, continued: `ExecuteSql`, `Attach`, `Backup` -/

/-- The call `connectionPool->ReOpenAvailableReadConnections()`. -/
def SqliteConnectionPool.ReOpenAvailableReadConnections (env : Env) (s : RdbStoreImpl) :
    Int × RdbStoreImpl :=
  let errCode := env.reOpenAvailableReadConnections s.log
  (errCode, { s with log := s.log ++ [Event.reOpenAvailableReadConnections errCode] })

/-- The call `RdbSecurityManager::GetInstance().GetRdbPassword(PUB_KEY_FILE)` followed by the
copy of the password bytes into `key`. -/
def RdbSecurityManager.GetRdbPassword (env : Env) (s : RdbStoreImpl) : List Nat × RdbStoreImpl :=
  let key := env.getRdbPassword s.log
  (key, { s with log := s.log ++ [Event.getRdbPassword key] })

/-- The source's `RdbStoreImpl::CheckAttach` (lines 941-976).  The characters of a string stand
for the bytes of the `std::string`. -/
def RdbStoreImpl.CheckAttach (env : Env) (sql : String) (s : RdbStoreImpl) : Int × RdbStoreImpl :=
  let fromIndex := sql.toList.dropWhile (fun ch => ch = ' ')
  if fromIndex = [] then (E_OK, s)
  else
    let sqlType := env.strToUpper (String.mk (fromIndex.take 3))
    if sqlType ≠ "ATT" then (E_OK, s)
    else
      match SqliteConnectionPool.AcquireConnection env false s with
      | (none, s) => (E_CON_OVER_LIMIT, s)
      | (some connection, s) =>
        let (errCode, journalMode, s) :=
          connection.ExecuteGetString env "" env.PRAGMA_JOUR_MODE_EXP [] s
        let s := SqliteConnectionPool.ReleaseConnection connection s
        if errCode ≠ E_OK then (errCode, s)
        else
          let journalMode := env.strToUpper journalMode
          if journalMode = env.DEFAULT_JOURNAL_MODE then (E_NOT_SUPPORTED_ATTACH_IN_WAL_MODE, s)
          else (E_OK, s)

/-- The source's `RdbStoreImpl::ExecuteSql` (lines 487-516).  The local pointer `connection`
starts uninitialised (here `none`); `BeginExecuteSql` returns `E_OK` only with
a connection in it. -/
def RdbStoreImpl.ExecuteSql (env : Env) (s : RdbStoreImpl) (sql : String)
    (bindArgs : List ValueObject) : Int × RdbStoreImpl :=
  let (errCode, s) := RdbStoreImpl.CheckAttach env sql s
  if errCode ≠ E_OK then (errCode, s)
  else
    match RdbStoreImpl.BeginExecuteSql env sql none s with
    | (errCode, none, s) => (errCode, s)
    | (errCode, some connection, s) =>
      if errCode ≠ E_OK then (errCode, s)
      else
        let (errCode, s) := connection.ExecuteSql env sql bindArgs s
        let s := SqliteConnectionPool.ReleaseConnection connection s
        if errCode ≠ E_OK then (errCode, s)
        else
          let sqlType := env.getSqlStatementType sql
          let (errCode, s) :=
            if sqlType = env.STATEMENT_DDL then
              SqliteConnectionPool.ReOpenAvailableReadConnections env s
            else (errCode, s)
          let s := if errCode = E_OK then RdbStoreImpl.DoCloudSync "" s else s
          (errCode, s)

/-- The key argument that `Attach` (lines 786-800) and `InnerBackup` (lines 665-678) append to
`bindArgs`, on the platform where the branch for an encrypted store is compiled
in: the given key, the store's own password, or the empty string. -/
def RdbStoreImpl.pushKeyArg (env : Env) (s : RdbStoreImpl) (bindArgs : List ValueObject)
    (destEncryptKey : List Nat) : List ValueObject × RdbStoreImpl :=
  if destEncryptKey.length ≠ 0 ∧ s.isEncrypt_ = false then
    let bindArgs := bindArgs ++ [ValueObject.blob destEncryptKey]
    (bindArgs, (RdbStoreImpl.ExecuteSql env s env.CIPHER_DEFAULT_ATTACH_HMAC_ALGO []).2)
  else if s.isEncrypt_ then
    let (key, s) := RdbSecurityManager.GetRdbPassword env s
    let bindArgs := bindArgs ++ [ValueObject.blob key]
    (bindArgs, (RdbStoreImpl.ExecuteSql env s env.CIPHER_DEFAULT_ATTACH_HMAC_ALGO []).2)
  else
    (bindArgs ++ [ValueObject.str ""], s)

/-- The source's `RdbStoreImpl::Attach` (lines 760-809); `alias_` is the parameter `alias`. -/
def RdbStoreImpl.Attach (env : Env) (s : RdbStoreImpl) (alias_ pathName : String)
    (destEncryptKey : List Nat) : Int × RdbStoreImpl :=
  let sql := env.PRAGMA_JOUR_MODE_EXP
  match RdbStoreImpl.BeginExecuteSql env sql none s with
  | (errCode, none, s) => (errCode, s)
  | (errCode, some connection, s) =>
    if errCode ≠ 0 then (errCode, s)
    else
      let (errCode, journalMode, s) := connection.ExecuteGetString env "" sql [] s
      if errCode ≠ E_OK then (errCode, SqliteConnectionPool.ReleaseConnection connection s)
      else
        let journalMode := env.strToUpper journalMode
        if journalMode = env.DEFAULT_JOURNAL_MODE then
          (E_NOT_SUPPORTED_ATTACH_IN_WAL_MODE, SqliteConnectionPool.ReleaseConnection connection s)
        else
          let bindArgs := [ValueObject.str pathName, ValueObject.str alias_]
          let (bindArgs, s) := RdbStoreImpl.pushKeyArg env s bindArgs destEncryptKey
          let sql := env.ATTACH_SQL
          let (errCode, s) := connection.ExecuteSql env sql bindArgs s
          let s := SqliteConnectionPool.ReleaseConnection connection s
          (errCode, s)

/-- The source's `RdbStoreImpl::ExecuteSqlInner` (lines 596-611). -/
def RdbStoreImpl.ExecuteSqlInner (env : Env) (s : RdbStoreImpl) (sql : String)
    (bindArgs : List ValueObject) : Int × RdbStoreImpl :=
  match RdbStoreImpl.BeginExecuteSql env sql none s with
  | (errCode, none, s) => (errCode, s)
  | (errCode, some connection, s) =>
    if errCode ≠ 0 then (errCode, s)
    else
      let (errCode, s) := connection.ExecuteSql env sql bindArgs s
      let s := SqliteConnectionPool.ReleaseConnection connection s
      (errCode, s)

/-- The source's `RdbStoreImpl::ExecuteGetLongInner` (lines 613-628). -/
def RdbStoreImpl.ExecuteGetLongInner (env : Env) (s : RdbStoreImpl) (sql : String)
    (bindArgs : List ValueObject) : Int × RdbStoreImpl :=
  match RdbStoreImpl.BeginExecuteSql env sql none s with
  | (errCode, none, s) => (errCode, s)
  | (errCode, some connection, s) =>
    if errCode ≠ 0 then (errCode, s)
    else
      let (errCode, _, s) := connection.ExecuteGetLong env 0 sql bindArgs s
      let s := SqliteConnectionPool.ReleaseConnection connection s
      (errCode, s)

/-- The source's `RdbStoreImpl::InnerBackup` (lines 661-690). -/
def RdbStoreImpl.InnerBackup (env : Env) (s : RdbStoreImpl) (databasePath : String)
    (destEncryptKey : List Nat) : Int × RdbStoreImpl :=
  let bindArgs := [ValueObject.str databasePath]
  let (bindArgs, s) := RdbStoreImpl.pushKeyArg env s bindArgs destEncryptKey
  let (ret, s) := RdbStoreImpl.ExecuteSqlInner env s env.ATTACH_BACKUP_SQL bindArgs
  if ret ≠ E_OK then (ret, s)
  else
    let (ret, s) := RdbStoreImpl.ExecuteGetLongInner env s env.EXPORT_SQL []
    let (res, s) := RdbStoreImpl.ExecuteSqlInner env s env.DETACH_BACKUP_SQL []
    (if res = E_OK then ret else res, s)

/-- The source's `RdbStoreImpl::GetDataBasePath` (lines 574-594), off Windows.  The result is the
status and the value of `backupFilePath`, given the value it held.  The last
test of line 585 compares a substring of two characters with a string of one
character, and is reached only for a path of at least two characters. -/
def RdbStoreImpl.GetDataBasePath (env : Env) (s : RdbStoreImpl) (databasePath : String)
    (backupFilePath : String) : Int × String :=
  if databasePath = "" then (E_INVALID_FILE_PATH, backupFilePath)
  else if '/' ∉ databasePath.toList then
    (E_OK, env.extractFilePath s.path ++ databasePath)
  else
    let real := env.pathToRealPath (env.extractFilePath databasePath) backupFilePath
    if real.1 = false ∨ databasePath.toList.getLast? = some '/'
        ∨ (databasePath.toList.drop (databasePath.length - 2)).take 2 = [Char.ofNat 92] then
      (E_INVALID_FILE_PATH, real.2)
    else (E_OK, databasePath)

/-- The loop `while (access(tempPath.c_str(), F_OK) == E_OK) tempPath += "temp"` of `Backup`
(lines 641-643), run for at most `fuel` tests; `none` when the fuel is used up. -/
def RdbStoreImpl.Backup.tempPath (fs : FileSystem) : Nat → String → Option String
  | 0, _ => none
  | fuel + 1, tempPath =>
    if fs.access tempPath then RdbStoreImpl.Backup.tempPath fs fuel (tempPath ++ "temp")
    else some tempPath

/-- The source's `RdbStoreImpl::Backup` (lines 633-656) on the file system `fs`.  The result is the
status, the state and the file system afterwards.  The loop that looks for a
free temporary path gets one test more than there are files, which always
suffices (`Backup_tempPath_found`). -/
def RdbStoreImpl.Backup (env : Env) (s : RdbStoreImpl) (fs : FileSystem) (databasePath : String)
    (destEncryptKey : List Nat) : Option (Int × RdbStoreImpl × FileSystem) :=
  let (ret, backupFilePath) := RdbStoreImpl.GetDataBasePath env s databasePath ""
  if ret ≠ E_OK then some (ret, s, fs)
  else
    match RdbStoreImpl.Backup.tempPath fs (fs.length + 1) (backupFilePath ++ "temp") with
    | none => none
    | some tempPath =>
      if fs.access backupFilePath then
        let fs := fs.RenameFile backupFilePath tempPath
        let (ret, s) := RdbStoreImpl.InnerBackup env s backupFilePath destEncryptKey
        let fs := env.engineFiles s.log fs
        let fs :=
          if ret = E_OK then fs.DeleteFile tempPath else fs.RenameFile tempPath backupFilePath
        some (ret, s, fs)
      else
        let (ret, s) := RdbStoreImpl.InnerBackup env s backupFilePath destEncryptKey
        some (ret, s, env.engineFiles s.log fs)

/-- The path followed by `k` copies of `temp`. -/
def appendTemp (path : String) : Nat → String
  | 0 => path
  | k + 1 => appendTemp path k ++ "temp"

/-- Whether the event is a call of `SqliteConnection::ExecuteSql`. -/
def Event.isExecuteSql : Event → Bool
  | Event.exec ConnOp.ExecuteSql _ _ _ _ => true
  | _ => false

/-- As `Env.allOk`, but the engine reports the journal mode `wal`. -/
def Env.walMode : Env :=
  { Env.allOk with executeGetString := fun _ _ _ _ _ => (E_OK, "wal") }

/-- As `Env.allOk`, but the engine fails the statement that attaches the backup
target with code 14, after having created an empty file at the target path
`/data/backup.db`. -/
def Env.attachFails : Env :=
  { Env.allOk with
    executeSql := fun _ _ sql _ => if sql = "ATTACH ? AS backup KEY ?" then 14 else E_OK
    engineFiles := fun _ fs => ("/data/backup.db", []) :: fs }

/-- A disk holding an earlier backup at `/data/backup.db` and a stale file at
`/data/backup.dbtemp`. -/
def diskWithBackup : FileSystem :=
  [("/data/backup.db", [1, 2, 3]), ("/data/backup.dbtemp", [9])]

/-- Whether the event is the scheduling of the delayed sync task. -/
def Event.isSchedule : Event → Bool
  | Event.schedule => true
  | _ => false

/-- Number of delayed sync tasks scheduled in the trace. -/
def scheduledTasks (log : List Event) : Nat := log.countP Event.isSchedule

/-- A store with an executor, the tables `a` and the empty name registered for
cloud sync, and no pending sync tables. -/
def RdbStoreImpl.cloudWithEmptyName : RdbStoreImpl :=
  { RdbStoreImpl.idle with cloudTables_ := {"", "a"} }

/-- A store with an executor, the table `a` registered for cloud sync, and no
pending sync tables. -/
def RdbStoreImpl.cloudA : RdbStoreImpl :=
  { RdbStoreImpl.idle with cloudTables_ := {"a"} }

/-- A values bucket with the columns `age` and `name`, in key order. -/
def bucketAgeName : ValuesBucket :=
  { values_ := [("age", ValueObject.int 30), ("name", ValueObject.str "li")] }

/-! ## The password buffer and the key file (`rdb_security_manager.cpp`) -/

/-- The constant `UCHAR_MAX`. -/
def UCHAR_MAX : Nat := 255

/-- Modelled from the spec: the fields of an `RdbPassword` (its declaration is
in a header that is not among the sources): the number of bytes held, `size_`,
and the buffer `data_` of `MAX_PASSWORD_SIZE` bytes. -/
structure RdbPassword where
  size_ : Nat
  data_ : List Nat
  deriving DecidableEq, Repr

/-- The source's `RdbPassword::GetSize` (lines 62-65). -/
def RdbPassword.GetSize (p : RdbPassword) : Nat := p.size_

/-- The source's `RdbPassword::GetData` (lines 67-70). -/
def RdbPassword.GetData (p : RdbPassword) : List Nat := p.data_

/-- The call `std::copy(inputData, inputData + inputSize, data_)`: the first
`inputSize` bytes of the buffer become the first `inputSize` bytes at
`inputData`. -/
def RdbPassword.copy (inputData : List Nat) (inputSize : Nat) (data : List Nat) : List Nat :=
  inputData.take inputSize ++ data.drop inputSize

/-- The call `std::fill(data_ + first, data_ + last, value)`: the bytes at the
indices from `first` up to but not including `last` become `value`. -/
def RdbPassword.fill (data : List Nat) (first last value : Nat) : List Nat :=
  data.take first ++ List.replicate (last - first) value ++ data.drop last

/-- The source's `RdbPassword::SetValue` (lines 72-92); `MAX_PASSWORD_SIZE` is a constant of the
missing header, and `inputData` is `none` for the null pointer, else the bytes
at the pointer.  The result is the status and the password afterwards. -/
def RdbPassword.SetValue (MAX_PASSWORD_SIZE : Nat) (p : RdbPassword)
    (inputData : Option (List Nat)) (inputSize : Nat) : Int × RdbPassword :=
  if inputSize > MAX_PASSWORD_SIZE then (E_ERROR, p)
  else if inputSize ≠ 0 ∧ inputData = none then (E_ERROR, p)
  else
    let data :=
      if inputSize ≠ 0 then RdbPassword.copy (inputData.getD []) inputSize p.data_
      else p.data_
    let filledSize := min p.size_ MAX_PASSWORD_SIZE
    let data :=
      if inputSize < filledSize then RdbPassword.fill data inputSize filledSize UCHAR_MAX
      else data
    (E_OK, { size_ := inputSize, data_ := data })

/-- The source's `RdbPassword::Clear` (lines 94-97). -/
def RdbPassword.Clear (MAX_PASSWORD_SIZE : Nat) (p : RdbPassword) : Int × RdbPassword :=
  RdbPassword.SetValue MAX_PASSWORD_SIZE p none 0

/-- One call on an `RdbPassword`. -/
inductive RdbPassword.Call where
  | SetValue (inputData : Option (List Nat)) (inputSize : Nat)
  | Clear
  deriving DecidableEq, Repr

/-- Runs the calls in order on the password. -/
def RdbPassword.run (MAX_PASSWORD_SIZE : Nat) : List RdbPassword.Call → RdbPassword → RdbPassword
  | [], p => p
  | RdbPassword.Call.SetValue inputData inputSize :: rest, p =>
    RdbPassword.run MAX_PASSWORD_SIZE rest
      (RdbPassword.SetValue MAX_PASSWORD_SIZE p inputData inputSize).2
  | RdbPassword.Call.Clear :: rest, p =>
    RdbPassword.run MAX_PASSWORD_SIZE rest (RdbPassword.Clear MAX_PASSWORD_SIZE p).2

/-- Whether the bytes at the pointer cover `inputSize` bytes: a null pointer
covers none, a pointer to `bytes` covers up to their number. -/
def coversInput (inputData : Option (List Nat)) (inputSize : Nat) : Prop :=
  match inputData with
  | none => inputSize = 0
  | some bytes => inputSize ≤ bytes.length

/-- A password of 8 bytes at most, holding the 4 bytes `1, 2, 3, 4`. -/
def passwordOf4 : RdbPassword := { size_ := 4, data_ := [1, 2, 3, 4, 0, 0, 0, 0] }

/-- A default-constructed password of 8 bytes at most: no byte held. -/
def passwordEmpty : RdbPassword := { size_ := 0, data_ := [255, 0, 0, 0, 0, 0, 0, 0] }

/-- The record `RdbSecretKeyData`, as the sources use it: the distributed flag
(a `uint8_t`), the creation time (a `time_t`) and the encrypted key bytes. -/
structure RdbSecretKeyData where
  distributed : Nat
  timeValue : Int
  secretKey : List Nat
  deriving DecidableEq, Repr

/-- The byte representation of a `time_t`, which the templates
`TransferTypeToByteArray<time_t>` and `TransferByteArrayToType<time_t>` of the
missing header read and write: its size and the two conversions. -/
structure TimeBytes where
  /-- The value of `sizeof(time_t)`. -/
  sizeofTimeT : Nat
  /-- The bytes of the object representation of a `time_t`. -/
  toBytes : Int → List Nat
  /-- The `time_t` whose object representation starts the bytes. -/
  ofBytes : List Nat → Int

/-- Modelled from the spec: the template `TransferTypeToByteArray<uint8_t>`: one
byte holding the value. -/
def TransferTypeToByteArray_uint8 (t : Nat) : List Nat := [t]

/-- Modelled from the spec: the template `TransferByteArrayToType<uint8_t>`: the
value of the first byte. -/
def TransferByteArrayToType_uint8 (data : List Nat) : Nat := data.headD 0

/-- The buffer `secretKeyInChar` that `SaveSecretKeyToDisk` builds (lines 252-257). -/
def RdbSecurityManager.SaveSecretKeyToDisk.buffer (tb : TimeBytes) (keyData : RdbSecretKeyData) :
    List Nat :=
  let distributedInByte := TransferTypeToByteArray_uint8 keyData.distributed
  let timeInByte := tb.toBytes keyData.timeValue
  let secretKeyInChar : List Nat := []
  let secretKeyInChar := secretKeyInChar ++ distributedInByte
  let secretKeyInChar := secretKeyInChar ++ timeInByte
  secretKeyInChar ++ keyData.secretKey

/-- The source's `RdbSecurityManager::SaveSecretKeyToDisk` (lines 249-267); `saveBufferToFile` is
the file utility `SaveBufferToFile`, which gets the path and the buffer. -/
def RdbSecurityManager.SaveSecretKeyToDisk (tb : TimeBytes)
    (saveBufferToFile : String → List Nat → Bool) (path : String)
    (keyData : RdbSecretKeyData) : Bool :=
  let secretKeyInChar := RdbSecurityManager.SaveSecretKeyToDisk.buffer tb keyData
  let ret := saveBufferToFile path secretKeyInChar
  if !ret then false else true

/-- The loop of `LoadSecretKeyFromDisk` (lines 556-559) that reads `sizeof(time_t)` bytes
through the iterator: the first argument is the number of iterations left,
the second the position of the iterator, the third `createTime`.  The result
is `none` when the iterator is dereferenced at or past the end. -/
def RdbSecurityManager.LoadSecretKeyFromDisk.createTime (content : List Nat) :
    Nat → Nat → List Nat → Option (List Nat × Nat)
  | 0, iter, createTime => some (createTime, iter)
  | k + 1, iter, createTime =>
    match content[iter]? with
    | none => none
    | some byte =>
      RdbSecurityManager.LoadSecretKeyFromDisk.createTime content k (iter + 1)
        (createTime ++ [byte])

/-- The source's `RdbSecurityManager::LoadSecretKeyFromDisk` (lines 537-566); `loadBufferFromFile`
is the file utility `LoadBufferFromFile`, giving success and the content.  The
result is `none` when the function reads past the end of the content, else the
returned flag and the record afterwards. -/
def RdbSecurityManager.LoadSecretKeyFromDisk (tb : TimeBytes)
    (loadBufferFromFile : String → Bool × List Nat) (keyPath : String)
    (keyData : RdbSecretKeyData) : Option (Bool × RdbSecretKeyData) :=
  let loaded := loadBufferFromFile keyPath
  let content := loaded.2
  if loaded.1 = false ∨ content = [] then some (false, keyData)
  else
    match content[0]? with
    | none => none
    | some first =>
      let distribute := [first]
      let distributeStatus := TransferByteArrayToType_uint8 distribute
      match RdbSecurityManager.LoadSecretKeyFromDisk.createTime content tb.sizeofTimeT 1 [] with
      | none => none
      | some (createTime, iter) =>
        some (true,
          { distributed := distributeStatus
            timeValue := tb.ofBytes createTime
            secretKey := keyData.secretKey ++ content.drop iter })

/-- A `time_t` of 8 bytes, least significant byte first. -/
def TimeBytes.littleEndian8 : TimeBytes where
  sizeofTimeT := 8
  toBytes := fun t => (List.range 8).map (fun i => (t.toNat / 256 ^ i) % 256)
  ofBytes := fun data => Int.ofNat ((data.take 8).foldr (fun byte acc => byte + 256 * acc) 0)

/-- A key record: not distributed, created at second 1700000000, with the four
encrypted key bytes `10, 20, 30, 40`. -/
def keyRecord : RdbSecretKeyData :=
  { distributed := 0, timeValue := 1700000000, secretKey := [10, 20, 30, 40] }

/-- A fresh key record. -/
def freshKeyRecord : RdbSecretKeyData := { distributed := 0, timeValue := 0, secretKey := [] }

/-- The connections held after the events of a trace, given those held before:
an acquisition that returned a connection adds it, a release removes it. -/
def heldConnections : List Event → List SqliteConnection → List SqliteConnection
  | [], held => held
  | Event.acquireConnection _ (some c) :: rest, held => heldConnections rest (c :: held)
  | Event.releaseConnection c :: rest, held => heldConnections rest (held.erase c)
  | _ :: rest, held => heldConnections rest held

/-- As `Env.allOk`, but the statement type is assumed read-only, so the pool
first hands out the read connection 1 (and the write connection 0 afterwards),
while `Prepare` classifies the statement as not read-only. -/
def Env.readFirst : Env :=
  { Env.allOk with
    isSqlReadOnly := fun _ => true
    acquireConnection := fun log _ =>
      if log = [] then some { id := 1, isWriteConnection := false }
      else some { id := 0, isWriteConnection := true } }

/-- As `Env.readFirst`, but the pool only ever hands out the read connection 1. -/
def Env.readOnlyPool : Env :=
  { Env.allOk with
    isSqlReadOnly := fun _ => true
    acquireConnection := fun _ _ => some { id := 1, isWriteConnection := false } }

/-! ## The bounds-checked copy `memcpy_s`

The sources call `memcpy_s` of the platform's bounds-checked C library, which
is not part of this repository.  The definition follows that library's
published contract. -/

/-- The status `EOK` of the bounds-checked C library. -/
def EOK : Int := 0

/-- The status `ERANGE` of the bounds-checked C library. -/
def ERANGE : Int := 34

/-- The status `ERANGE_AND_RESET` of the bounds-checked C library. -/
def ERANGE_AND_RESET : Int := 162

/-- The largest `destMax` the bounds-checked C library accepts. -/
def SECUREC_MEM_MAX_LEN : Nat := 0x7fffffff

/-- The call `memcpy_s(dest, destMax, src, count)` for non-null, non-overlapping
`dest` and `src`.  The lists are the bytes of the objects the two pointers point
into, from the pointer to the end of the object.  A `destMax` of 0 or above
`SECUREC_MEM_MAX_LEN` gives `ERANGE`; a `count` above `destMax` zeroes the first
`destMax` bytes of `dest` and gives `ERANGE_AND_RESET`; a `count` of 0 gives
`EOK`; otherwise exactly `count` bytes are copied and every other byte of `dest`
keeps its value.  The result is `none` when the call would read or write a byte
outside the objects. -/
def memcpy_s (dest : List Nat) (destMax : Nat) (src : List Nat) (count : Nat) :
    Option (Int × List Nat) :=
  if destMax = 0 ∨ destMax > SECUREC_MEM_MAX_LEN then some (ERANGE, dest)
  else if count > destMax then
    if destMax ≤ dest.length then
      some (ERANGE_AND_RESET, List.replicate destMax 0 ++ dest.drop destMax)
    else none
  else if count = 0 then some (EOK, dest)
  else if count ≤ src.length ∧ count ≤ dest.length then
    some (EOK, src.take count ++ dest.drop count)
  else none

/-- The conversion of an `int` argument to the `size_t` parameter of `memcpy_s`
(64 bits). -/
def size_t_of_int (n : Int) : Nat := (n % 2 ^ 64).toNat

/-! ## The key store calls of `rdb_security_manager.cpp` -/

/-- The key store library and the constants of its headers, none of which is
under src/.  Every call of the library is given by what it returns:
`HksInitParamSet`, `HksAddParams`, `HksBuildParamSet` and `HksKeyExist` by their
status, `paramTags` is the list of the tags `params->params[i].tag` of the
parameter set after `HksBuildParamSet`.  The two wrappers
`HksEncryptThreeStage` and `HksDecryptThreeStage` of the sources (lines 177-201)
pass their blobs to `HksInit`, `HksUpdate` and `HksFinish` and write only to
their out blob; they are given by the status they return and the bytes of the
out blob: `HksEncryptThreeStage` from the plain key, `HksDecryptThreeStage` from
the bytes of the cipher blob and the authentication tag in the parameter set. -/
structure Hks where
  HKS_SUCCESS : Int
  AEAD_LEN : Nat
  HKS_TAG_AE_TAG : Nat
  HksInitParamSet : Int
  HksAddParams : Int
  HksBuildParamSet : Int
  paramTags : List Nat
  HksEncryptThreeStage : List Nat → Int × List Nat
  HksDecryptThreeStage : List Nat → List Nat → Int × List Nat
  HksKeyExist : Int

/-- The source's `RdbSecurityManager::EncryptWorkKey` (lines 312-360): the returned vector. -/
def RdbSecurityManager.EncryptWorkKey (hks : Hks) (key : List Nat) : List Nat :=
  let ret := hks.HksInitParamSet
  if ret ≠ hks.HKS_SUCCESS then []
  else
    let ret := hks.HksAddParams
    if ret ≠ hks.HKS_SUCCESS then []
    else
      let ret := hks.HksBuildParamSet
      if ret ≠ hks.HKS_SUCCESS then []
      else
        let (ret, cipherText) := hks.HksEncryptThreeStage key
        if ret ≠ hks.HKS_SUCCESS then []
        else cipherText

/-- The field `encryptedKeyBlob.size` of `DecryptWorkKey` after line 401: the
`uint32_t` conversion of `source.size()` minus `AEAD_LEN`, in 32-bit unsigned
arithmetic. -/
def RdbSecurityManager.DecryptWorkKey.size (hks : Hks) (source : List Nat) : Nat :=
  (source.length % 2 ^ 32 + 2 ^ 32 - hks.AEAD_LEN % 2 ^ 32) % 2 ^ 32

/-- The loop of `DecryptWorkKey` (lines 402-412) over the parameter set: at the
first parameter with the tag `HKS_TAG_AE_TAG`, `AEAD_LEN` bytes are copied from
`tempPtr + encryptedKeyBlob.size` into the blob of the parameter (`AEAD_LEN`
bytes, zero so far).  The result is `none` when the copy reads outside
`source`, else whether the copy succeeded and the tag in the parameter set. -/
def RdbSecurityManager.DecryptWorkKey.copyTag (hks : Hks) (source : List Nat) :
    Option (Bool × List Nat) :=
  if hks.paramTags.contains hks.HKS_TAG_AE_TAG then
    match memcpy_s (List.replicate hks.AEAD_LEN 0) hks.AEAD_LEN
        (source.drop (RdbSecurityManager.DecryptWorkKey.size hks source)) hks.AEAD_LEN with
    | none => none
    | some (result, tag) => if result ≠ 0 then some (false, tag) else some (true, tag)
  else some (true, List.replicate hks.AEAD_LEN 0)

/-- The source's `RdbSecurityManager::DecryptWorkKey` (lines 362-426).  The result is `none`
when the function reads outside `source` (the tag copy, or a cipher blob longer
than `source`), else the returned flag and the vector `key` afterwards. -/
def RdbSecurityManager.DecryptWorkKey (hks : Hks) (source key : List Nat) :
    Option (Bool × List Nat) :=
  let ret := hks.HksInitParamSet
  if ret ≠ hks.HKS_SUCCESS then some (false, key)
  else
    let ret := hks.HksAddParams
    if ret ≠ hks.HKS_SUCCESS then some (false, key)
    else
      let ret := hks.HksBuildParamSet
      if ret ≠ hks.HKS_SUCCESS then some (false, key)
      else
        let size := RdbSecurityManager.DecryptWorkKey.size hks source
        match RdbSecurityManager.DecryptWorkKey.copyTag hks source with
        | none => none
        | some (false, _) => some (false, key)
        | some (true, tag) =>
          if size > source.length then none
          else
            let (ret, plainKeyBlob) := hks.HksDecryptThreeStage (source.take size) tag
            if ret ≠ hks.HKS_SUCCESS then some (false, key)
            else some (true, plainKeyBlob)

/-- The source's `RdbSecurityManager::CheckRootKeyExists` (lines 453-493).  The function
returns `bool`; `return ret;` converts the `int32_t` status to `true` exactly
when it is not 0. -/
def RdbSecurityManager.CheckRootKeyExists (hks : Hks) : Bool :=
  let ret := hks.HksInitParamSet
  if ret ≠ hks.HKS_SUCCESS then decide (ret ≠ 0)
  else
    let ret := hks.HksAddParams
    if ret ≠ hks.HKS_SUCCESS then decide (ret ≠ 0)
    else
      let ret := hks.HksBuildParamSet
      if ret ≠ hks.HKS_SUCCESS then decide (ret ≠ 0)
      else
        let ret := hks.HksKeyExist
        decide (ret = hks.HKS_SUCCESS)

/-- A key store in which every call succeeds: `HKS_SUCCESS` is 0, the tag is 16
bytes long, the built parameter set holds the tag parameter, encryption appends
a tag of sixteen bytes 7 to the plain key, and decryption returns the cipher
bytes. -/
def Hks.allOk : Hks where
  HKS_SUCCESS := 0
  AEAD_LEN := 16
  HKS_TAG_AE_TAG := 10009
  HksInitParamSet := 0
  HksAddParams := 0
  HksBuildParamSet := 0
  paramTags := [1, 2, 3, 4, 5, 10008, 10004, 10009]
  HksEncryptThreeStage := fun key => (0, key ++ List.replicate 16 7)
  HksDecryptThreeStage := fun cipher _ => (0, cipher)
  HksKeyExist := 0

/-- As `Hks.allOk`, but `HksInitParamSet` fails with status -1. -/
def Hks.initFails : Hks := { Hks.allOk with HksInitParamSet := -1 }

/-- As `Hks.allOk`, but `HksBuildParamSet` fails with status -13. -/
def Hks.buildFails : Hks := { Hks.allOk with HksBuildParamSet := -13 }

/-- As `Hks.allOk`, but the decryption in the key store fails with status -31. -/
def Hks.decryptFails : Hks :=
  { Hks.allOk with HksDecryptThreeStage := fun _ _ => (-31, [9, 9]) }

/-- As `Hks.allOk`, but the encryption in the key store fails with status -31. -/
def Hks.encryptFails : Hks :=
  { Hks.allOk with HksEncryptThreeStage := fun _ => (-31, [9, 9]) }

/-- An encrypted work key of twenty bytes: the four cipher bytes `10, 20, 30, 40`
followed by a tag of sixteen bytes 7. -/
def wrappedKey : List Nat := [10, 20, 30, 40] ++ List.replicate 16 7

/-! ## The NDK entry points (`relational_cursor.cpp`, `relational_predicates.cpp`) -/

/-- The constants of the NDK and configuration headers, which are not under
src/. -/
structure NdkConstants where
  RDB_PREDICATES_CID : Int
  RDB_CURSOR_CID : Int
  RDB_E_INVALID_ARGS : Int
  RDB_ERR : Int
  SQLITE_MAX_COLUMN : Nat

/-- The object behind an `OH_Cursor *`: its field `id`, and the answer of
`GetResultSet()->GetString(columnIndex, str)`: the status and the bytes of `str`. -/
structure OH_Cursor where
  id : Int
  GetString : Int → Int × List Nat

/-- The source's `Rdb_GetText` (lines 118-137).  A null pointer is `none`; `value` is
the caller's buffer, from the pointer to its end.  The result is `none` when
the copy writes outside the buffer, else the returned code and the buffer
afterwards. -/
def Rdb_GetText (k : NdkConstants) (cursor : Option OH_Cursor) (columnIndex : Int)
    (value : Option (List Nat)) (length : Int) : Option (Int × Option (List Nat)) :=
  match cursor, value with
  | some tempCursor, some buffer =>
    if tempCursor.id ≠ k.RDB_CURSOR_CID then some (k.RDB_E_INVALID_ARGS, value)
    else
      let (errCode, str) := tempCursor.GetString columnIndex
      if errCode ≠ E_OK then some (errCode, value)
      else
        match memcpy_s buffer (size_t_of_int length) str str.length with
        | none => none
        | some (result, buffer) =>
          if result ≠ EOK then some (k.RDB_ERR, some buffer)
          else some (errCode, some buffer)
  | _, _ => some (k.RDB_E_INVALID_ARGS, value)

/-- The enumeration `OH_OrderType` of the NDK header. -/
inductive OH_OrderType
  | ASC
  | DESC
  deriving DecidableEq, Repr

/-- The member calls that the builders make on the `RdbPredicates` object of a
`PredicateImpl`, with their arguments.  The class `RdbPredicates` is not under
src/; the model records the calls made on it. -/
inductive PredicateCall
  | EqualTo (field value : String)
  | NotEqualTo (field value : String)
  | BeginWrap
  | EndWrap
  | Or
  | And
  | IsNull (field : String)
  | IsNotNull (field : String)
  | Like (field value : String)
  | Between (field low high : String)
  | NotBetween (field low high : String)
  | GreaterThan (field value : String)
  | LessThan (field value : String)
  | GreaterThanOrEqualTo (field value : String)
  | LessThanOrEqualTo (field value : String)
  | OrderByDesc (field : String)
  | OrderByAsc (field : String)
  | Distinct
  | Limit (value : Nat)
  | Offset (rowOffset : Nat)
  | GroupBy (fields : List String)
  | In (field : Option String) (values : List String)
  | NotIn (field : Option String) (values : List String)
  | Clear
  deriving DecidableEq, Repr

/-- The object behind an `OH_Predicates *`: its field `id`, and the calls made so
far on its member `predicates_`, in order. -/
structure PredicateImpl where
  id : Int
  predicates_ : List PredicateCall
  deriving DecidableEq, Repr

/-- A member call on `GetPredicates()`. -/
def PredicateImpl.call (p : PredicateImpl) (c : PredicateCall) : PredicateImpl :=
  { p with predicates_ := p.predicates_ ++ [c] }

/-- The source's `OH_Rdb_CreatePredicates` (lines 31-37); `newPredicateImpl` is the
constructor `PredicateImpl(table)`, which is not under src/.  A null pointer is
`none`. -/
def OH_Rdb_CreatePredicates (newPredicateImpl : String → PredicateImpl)
    (table : Option String) : Option PredicateImpl :=
  match table with
  | none => none
  | some table => some (newPredicateImpl table)

/-! The builders `Rdb_Predicates_*`.  A null pointer is `none`.  The result of a
builder is `none` when the call dereferences the null handle, reads outside a
vector or an array, or reserves a vector of negative length; else it is the
object behind the handle after the call, which is also the object returned. -/

/-- The source's `Rdb_Predicates_EqualTo` (lines 50-63); `valueObject` is given by
the vector that `getValue()` returns. -/
def Rdb_Predicates_EqualTo (k : NdkConstants) (predicates : Option PredicateImpl)
    (field : Option String) (valueObject : Option (List String)) : Option PredicateImpl :=
  match predicates, field, valueObject with
  | none, _, _ => none
  | some tempPredicates, some field, some tempValue =>
    if tempPredicates.id ≠ k.RDB_PREDICATES_CID then some tempPredicates
    else
      match tempValue[0]? with
      | none => none
      | some value => some (tempPredicates.call (PredicateCall.EqualTo field value))
  | some tempPredicates, _, _ => some tempPredicates

/-- The source's `Rdb_Predicates_NotEqualTo` (lines 65-78); `valueObject` is given by
the vector that `getValue()` returns. -/
def Rdb_Predicates_NotEqualTo (k : NdkConstants) (predicates : Option PredicateImpl)
    (field : Option String) (valueObject : Option (List String)) : Option PredicateImpl :=
  match predicates, field, valueObject with
  | none, _, _ => none
  | some tempPredicates, some field, some tempValue =>
    if tempPredicates.id ≠ k.RDB_PREDICATES_CID then some tempPredicates
    else
      match tempValue[0]? with
      | none => none
      | some value => some (tempPredicates.call (PredicateCall.NotEqualTo field value))
  | some tempPredicates, _, _ => some tempPredicates

/-- The source's `Rdb_Predicates_BeginWrap` (lines 80-89). -/
def Rdb_Predicates_BeginWrap (k : NdkConstants) (predicates : Option PredicateImpl) :
    Option PredicateImpl :=
  match predicates with
  | none => none
  | some tempPredicates =>
    if tempPredicates.id ≠ k.RDB_PREDICATES_CID then some tempPredicates
    else some (tempPredicates.call PredicateCall.BeginWrap)

/-- The source's `Rdb_Predicates_EndWrap` (lines 91-100). -/
def Rdb_Predicates_EndWrap (k : NdkConstants) (predicates : Option PredicateImpl) :
    Option PredicateImpl :=
  match predicates with
  | none => none
  | some tempPredicates =>
    if tempPredicates.id ≠ k.RDB_PREDICATES_CID then some tempPredicates
    else some (tempPredicates.call PredicateCall.EndWrap)

/-- The source's `Rdb_Predicates_Or` (lines 102-111). -/
def Rdb_Predicates_Or (k : NdkConstants) (predicates : Option PredicateImpl) :
    Option PredicateImpl :=
  match predicates with
  | none => none
  | some tempPredicates =>
    if tempPredicates.id ≠ k.RDB_PREDICATES_CID then some tempPredicates
    else some (tempPredicates.call PredicateCall.Or)

/-- The source's `Rdb_Predicates_And` (lines 113-122). -/
def Rdb_Predicates_And (k : NdkConstants) (predicates : Option PredicateImpl) :
    Option PredicateImpl :=
  match predicates with
  | none => none
  | some tempPredicates =>
    if tempPredicates.id ≠ k.RDB_PREDICATES_CID then some tempPredicates
    else some (tempPredicates.call PredicateCall.And)

/-- The source's `Rdb_Predicates_IsNull` (lines 124-134). -/
def Rdb_Predicates_IsNull (k : NdkConstants) (predicates : Option PredicateImpl)
    (field : Option String) : Option PredicateImpl :=
  match predicates, field with
  | none, _ => none
  | some tempPredicates, some field =>
    if tempPredicates.id ≠ k.RDB_PREDICATES_CID then some tempPredicates
    else some (tempPredicates.call (PredicateCall.IsNull field))
  | some tempPredicates, none => some tempPredicates

/-- The source's `Rdb_Predicates_IsNotNull` (lines 136-146). -/
def Rdb_Predicates_IsNotNull (k : NdkConstants) (predicates : Option PredicateImpl)
    (field : Option String) : Option PredicateImpl :=
  match predicates, field with
  | none, _ => none
  | some tempPredicates, some field =>
    if tempPredicates.id ≠ k.RDB_PREDICATES_CID then some tempPredicates
    else some (tempPredicates.call (PredicateCall.IsNotNull field))
  | some tempPredicates, none => some tempPredicates

/-- The source's `Rdb_Predicates_Like` (lines 148-161); `valueObject` is given by
the vector that `getValue()` returns. -/
def Rdb_Predicates_Like (k : NdkConstants) (predicates : Option PredicateImpl)
    (field : Option String) (valueObject : Option (List String)) : Option PredicateImpl :=
  match predicates, field, valueObject with
  | none, _, _ => none
  | some tempPredicates, some field, some tempValue =>
    if tempPredicates.id ≠ k.RDB_PREDICATES_CID then some tempPredicates
    else
      match tempValue[0]? with
      | none => none
      | some value => some (tempPredicates.call (PredicateCall.Like field value))
  | some tempPredicates, _, _ => some tempPredicates

/-- The source's `Rdb_Predicates_Between` (lines 163-181); `valueObject` is given by
the vector that `getValue()` returns. -/
def Rdb_Predicates_Between (k : NdkConstants) (predicates : Option PredicateImpl)
    (field : Option String) (valueObject : Option (List String)) : Option PredicateImpl :=
  match predicates, field, valueObject with
  | none, _, _ => none
  | some tempPredicates, some field, some tempValue =>
    if tempPredicates.id ≠ k.RDB_PREDICATES_CID then some tempPredicates
    else if tempValue.length ≠ 2 then some tempPredicates
    else
      match tempValue[0]?, tempValue[1]? with
      | some low, some high =>
        some (tempPredicates.call (PredicateCall.Between field low high))
      | _, _ => none
  | some tempPredicates, _, _ => some tempPredicates

/-- The source's `Rdb_Predicates_NotBetween` (lines 183-200); `valueObject` is given by
the vector that `getValue()` returns. -/
def Rdb_Predicates_NotBetween (k : NdkConstants) (predicates : Option PredicateImpl)
    (field : Option String) (valueObject : Option (List String)) : Option PredicateImpl :=
  match predicates, field, valueObject with
  | none, _, _ => none
  | some tempPredicates, some field, some tempValue =>
    if tempPredicates.id ≠ k.RDB_PREDICATES_CID then some tempPredicates
    else if tempValue.length ≠ 2 then some tempPredicates
    else
      match tempValue[0]?, tempValue[1]? with
      | some low, some high =>
        some (tempPredicates.call (PredicateCall.NotBetween field low high))
      | _, _ => none
  | some tempPredicates, _, _ => some tempPredicates

/-- The source's `Rdb_Predicates_GreaterThan` (lines 202-215); `valueObject` is given by
the vector that `getValue()` returns. -/
def Rdb_Predicates_GreaterThan (k : NdkConstants) (predicates : Option PredicateImpl)
    (field : Option String) (valueObject : Option (List String)) : Option PredicateImpl :=
  match predicates, field, valueObject with
  | none, _, _ => none
  | some tempPredicates, some field, some tempValue =>
    if tempPredicates.id ≠ k.RDB_PREDICATES_CID then some tempPredicates
    else
      match tempValue[0]? with
      | none => none
      | some value => some (tempPredicates.call (PredicateCall.GreaterThan field value))
  | some tempPredicates, _, _ => some tempPredicates

/-- The source's `Rdb_Predicates_LessThan` (lines 217-230); `valueObject` is given by
the vector that `getValue()` returns. -/
def Rdb_Predicates_LessThan (k : NdkConstants) (predicates : Option PredicateImpl)
    (field : Option String) (valueObject : Option (List String)) : Option PredicateImpl :=
  match predicates, field, valueObject with
  | none, _, _ => none
  | some tempPredicates, some field, some tempValue =>
    if tempPredicates.id ≠ k.RDB_PREDICATES_CID then some tempPredicates
    else
      match tempValue[0]? with
      | none => none
      | some value => some (tempPredicates.call (PredicateCall.LessThan field value))
  | some tempPredicates, _, _ => some tempPredicates

/-- The source's `Rdb_Predicates_GreaterThanOrEqualTo` (lines 232-245); `valueObject` is given by
the vector that `getValue()` returns. -/
def Rdb_Predicates_GreaterThanOrEqualTo (k : NdkConstants) (predicates : Option PredicateImpl)
    (field : Option String) (valueObject : Option (List String)) : Option PredicateImpl :=
  match predicates, field, valueObject with
  | none, _, _ => none
  | some tempPredicates, some field, some tempValue =>
    if tempPredicates.id ≠ k.RDB_PREDICATES_CID then some tempPredicates
    else
      match tempValue[0]? with
      | none => none
      | some value => some (tempPredicates.call (PredicateCall.GreaterThanOrEqualTo field value))
  | some tempPredicates, _, _ => some tempPredicates

/-- The source's `Rdb_Predicates_LessThanOrEqualTo` (lines 246-259); `valueObject` is given by
the vector that `getValue()` returns. -/
def Rdb_Predicates_LessThanOrEqualTo (k : NdkConstants) (predicates : Option PredicateImpl)
    (field : Option String) (valueObject : Option (List String)) : Option PredicateImpl :=
  match predicates, field, valueObject with
  | none, _, _ => none
  | some tempPredicates, some field, some tempValue =>
    if tempPredicates.id ≠ k.RDB_PREDICATES_CID then some tempPredicates
    else
      match tempValue[0]? with
      | none => none
      | some value => some (tempPredicates.call (PredicateCall.LessThanOrEqualTo field value))
  | some tempPredicates, _, _ => some tempPredicates

/-- The source's `Rdb_Predicates_OrderBy` (lines 261-275). -/
def Rdb_Predicates_OrderBy (k : NdkConstants) (predicates : Option PredicateImpl)
    (field : Option String) (type : OH_OrderType) : Option PredicateImpl :=
  match predicates, field with
  | none, _ => none
  | some tempPredicates, some field =>
    if tempPredicates.id ≠ k.RDB_PREDICATES_CID then some tempPredicates
    else if type = OH_OrderType.DESC then
      some (tempPredicates.call (PredicateCall.OrderByDesc field))
    else some (tempPredicates.call (PredicateCall.OrderByAsc field))
  | some tempPredicates, none => some tempPredicates

/-- The source's `Rdb_Predicates_Distinct` (lines 277-286). -/
def Rdb_Predicates_Distinct (k : NdkConstants) (predicates : Option PredicateImpl) :
    Option PredicateImpl :=
  match predicates with
  | none => none
  | some tempPredicates =>
    if tempPredicates.id ≠ k.RDB_PREDICATES_CID then some tempPredicates
    else some (tempPredicates.call PredicateCall.Distinct)

/-- The source's `Rdb_Predicates_Limit` (lines 288-297). -/
def Rdb_Predicates_Limit (k : NdkConstants) (predicates : Option PredicateImpl)
    (value : Nat) : Option PredicateImpl :=
  match predicates with
  | none => none
  | some tempPredicates =>
    if tempPredicates.id ≠ k.RDB_PREDICATES_CID then some tempPredicates
    else some (tempPredicates.call (PredicateCall.Limit value))

/-- The source's `Rdb_Predicates_Offset` (lines 299-308). -/
def Rdb_Predicates_Offset (k : NdkConstants) (predicates : Option PredicateImpl)
    (rowOffset : Nat) : Option PredicateImpl :=
  match predicates with
  | none => none
  | some tempPredicates =>
    if tempPredicates.id ≠ k.RDB_PREDICATES_CID then some tempPredicates
    else some (tempPredicates.call (PredicateCall.Offset rowOffset))

/-- The source's `Rdb_Predicates_GroupBy` (lines 310-326); `fields` is the array of
field names the pointer points to.  The loop reads `fields[0]` to
`fields[length - 1]`. -/
def Rdb_Predicates_GroupBy (k : NdkConstants) (predicates : Option PredicateImpl)
    (fields : Option (List String)) (length : Int) : Option PredicateImpl :=
  match predicates, fields with
  | none, _ => none
  | some tempPredicates, some fields =>
    if tempPredicates.id ≠ k.RDB_PREDICATES_CID then some tempPredicates
    else if length < 0 then none
    else if length.toNat ≤ fields.length then
      let vec := fields.take length.toNat
      some (tempPredicates.call (PredicateCall.GroupBy vec))
    else none
  | some tempPredicates, none => some tempPredicates

/-- The source's `Rdb_Predicates_In` (lines 328-344); `valueObject` is given by
the vector that `getValue()` returns.  The pointer `field` is not checked and
is passed on as it is. -/
def Rdb_Predicates_In (k : NdkConstants) (predicates : Option PredicateImpl)
    (field : Option String) (valueObject : Option (List String)) : Option PredicateImpl :=
  match predicates, valueObject with
  | none, _ => none
  | some tempPredicates, some tempValue =>
    if tempPredicates.id ≠ k.RDB_PREDICATES_CID then some tempPredicates
    else if tempValue.length > k.SQLITE_MAX_COLUMN then some tempPredicates
    else some (tempPredicates.call (PredicateCall.In field tempValue))
  | some tempPredicates, none => some tempPredicates

/-- The source's `Rdb_Predicates_NotIn` (lines 346-362); `valueObject` is given by
the vector that `getValue()` returns.  The pointer `field` is not checked and
is passed on as it is. -/
def Rdb_Predicates_NotIn (k : NdkConstants) (predicates : Option PredicateImpl)
    (field : Option String) (valueObject : Option (List String)) : Option PredicateImpl :=
  match predicates, valueObject with
  | none, _ => none
  | some tempPredicates, some tempValue =>
    if tempPredicates.id ≠ k.RDB_PREDICATES_CID then some tempPredicates
    else if tempValue.length > k.SQLITE_MAX_COLUMN then some tempPredicates
    else some (tempPredicates.call (PredicateCall.NotIn field tempValue))
  | some tempPredicates, none => some tempPredicates

/-- The source's `Rdb_Predicates_Clear` (lines 364-373). -/
def Rdb_Predicates_Clear (k : NdkConstants) (predicates : Option PredicateImpl) :
    Option PredicateImpl :=
  match predicates with
  | none => none
  | some tempPredicates =>
    if tempPredicates.id ≠ k.RDB_PREDICATES_CID then some tempPredicates
    else some (tempPredicates.call PredicateCall.Clear)

/-- Constants for running the NDK entry points on explicit inputs. -/
def NdkConstants.sample : NdkConstants where
  RDB_PREDICATES_CID := 1234561
  RDB_CURSOR_CID := 1234563
  RDB_E_INVALID_ARGS := 14800001
  RDB_ERR := -1
  SQLITE_MAX_COLUMN := 2000

/-- A predicates object with the class id of `NdkConstants.sample` and no call
made on it yet. -/
def PredicateImpl.fresh : PredicateImpl :=
  { id := 1234561, predicates_ := [] }

/-- The bytes of the text `liSi`. -/
def textLiSi : List Nat := [108, 105, 83, 105]

/-- A cursor with the class id of `NdkConstants.sample` whose every column holds
the text `liSi`. -/
def OH_Cursor.liSi : OH_Cursor :=
  { id := 1234563, GetString := fun _ => (E_OK, textLiSi) }

/-! ## Properties -/

/-! ### Trace lemmas: every operation only appends to the trace -/

theorem DoCloudSync_log_extends (table : String) (s : RdbStoreImpl) :
    s.log <+: (RdbStoreImpl.DoCloudSync table s).log := by
  unfold RdbStoreImpl.DoCloudSync
  simp only
  split_ifs <;> simp [List.append_assoc]

theorem FreeTransaction_log_extends (env : Env) (c : SqliteConnection) (sql : String)
    (s : RdbStoreImpl) :
    s.log <+: (RdbStoreImpl.FreeTransaction env c sql s).2.log := by
  unfold RdbStoreImpl.FreeTransaction SqliteConnection.ExecuteSql
  simp only
  split_ifs <;>
    simp [SqliteConnectionPool.ReleaseConnection, SqliteConnectionPool.ReleaseTransaction,
      SqliteConnection.SetInTransaction, List.append_assoc]

theorem BatchInsert_rows_log_extends (env : Env) (c : SqliteConnection) (t : BaseTransaction)
    (rows : List (String × List ValueObject)) :
    ∀ (n : Int) (s : RdbStoreImpl),
      s.log <+: (RdbStoreImpl.BatchInsert.rows env c t rows n s).2.2.log := by
  induction rows with
  | nil => intro n s; simp [RdbStoreImpl.BatchInsert.rows]
  | cons row rest ih =>
    intro n s
    obtain ⟨sql, bindArgs⟩ := row
    simp only [RdbStoreImpl.BatchInsert.rows, SqliteConnection.ExecuteSql]
    split_ifs with h
    · refine List.IsPrefix.trans ?_ (FreeTransaction_log_extends env c _ _)
      simp
    · refine List.IsPrefix.trans ?_ (ih _ _)
      simp

/-! ### Release discipline of `BatchInsert` and `GiveConnectionTemporarily` -/

/-- C1, evaluated on the code: on a one-row batch, when the pool grants the
transaction token but has no connection, `BatchInsert` returns
`E_CON_OVER_LIMIT` having acquired the token once and released it zero times;
and when the final `COMMIT` fails with code 1, it returns 1 having released
the connection once but the token zero times. -/
theorem BatchInsert_keeps_transaction_token :
    (RdbStoreImpl.BatchInsert Env.noConnection RdbStoreImpl.idle 0 "test" [rowId1]).1
        = E_CON_OVER_LIMIT
      ∧ acquiredTransactions
          (RdbStoreImpl.BatchInsert Env.noConnection RdbStoreImpl.idle 0 "test" [rowId1]).2.2.log = 1
      ∧ releasedTransactions
          (RdbStoreImpl.BatchInsert Env.noConnection RdbStoreImpl.idle 0 "test" [rowId1]).2.2.log = 0
      ∧ (RdbStoreImpl.BatchInsert Env.commitFails RdbStoreImpl.idle 0 "test" [rowId1]).1 = 1
      ∧ acquiredTransactions
          (RdbStoreImpl.BatchInsert Env.commitFails RdbStoreImpl.idle 0 "test" [rowId1]).2.2.log = 1
      ∧ releasedTransactions
          (RdbStoreImpl.BatchInsert Env.commitFails RdbStoreImpl.idle 0 "test" [rowId1]).2.2.log = 0
      ∧ acquiredConnections
          (RdbStoreImpl.BatchInsert Env.commitFails RdbStoreImpl.idle 0 "test" [rowId1]).2.2.log = 1
      ∧ releasedConnections
          (RdbStoreImpl.BatchInsert Env.commitFails RdbStoreImpl.idle 0 "test" [rowId1]).2.2.log = 1 := by
  decide

/-- C2, evaluated on the code: called while connection 0 is in a transaction,
`GiveConnectionTemporarily` returns
`E_STORE_SESSION_NOT_GIVE_CONNECTION_TEMPORARILY` having acquired one
connection and released none; called on an idle store with everything
succeeding, it returns `E_OK` having acquired three connections (its own, the
one of `BeginTransaction`, the one of `RollBack`) and released two. -/
theorem GiveConnectionTemporarily_keeps_connection :
    (RdbStoreImpl.GiveConnectionTemporarily Env.allOk RdbStoreImpl.inOneTransaction 10).1
        = E_STORE_SESSION_NOT_GIVE_CONNECTION_TEMPORARILY
      ∧ acquiredConnections
          (RdbStoreImpl.GiveConnectionTemporarily Env.allOk RdbStoreImpl.inOneTransaction 10).2.log = 1
      ∧ releasedConnections
          (RdbStoreImpl.GiveConnectionTemporarily Env.allOk RdbStoreImpl.inOneTransaction 10).2.log = 0
      ∧ (RdbStoreImpl.GiveConnectionTemporarily Env.allOk RdbStoreImpl.idle 10).1 = E_OK
      ∧ acquiredConnections
          (RdbStoreImpl.GiveConnectionTemporarily Env.allOk RdbStoreImpl.idle 10).2.log = 3
      ∧ releasedConnections
          (RdbStoreImpl.GiveConnectionTemporarily Env.allOk RdbStoreImpl.idle 10).2.log = 2 := by
  decide

/-! ### Input validation -/

/-- C3: for `InsertWithConflictResolution`, `UpdateWithConflictResolution` and
their wrappers `Insert`, `Replace` and `Update`, an empty table name gives
`E_EMPTY_TABLE_NAME` and a non-empty table name with an empty values bucket
gives `E_EMPTY_VALUES_BUCKET`; the output variable and the whole state, trace
included, are returned unchanged, so no connection was acquired, no statement
was executed and `DoCloudSync` was not called. -/
theorem validation_rejects_before_pool (env : Env) (s : RdbStoreImpl) (out : Int) (table : String)
    (values : ValuesBucket) (whereClause : String) (whereArgs : List String)
    (conflictResolution : Int) (h : table = "" ∨ values.IsEmpty = true) :
    RdbStoreImpl.InsertWithConflictResolution env s out table values conflictResolution
        = (if table = "" then E_EMPTY_TABLE_NAME else E_EMPTY_VALUES_BUCKET, out, s)
      ∧ RdbStoreImpl.UpdateWithConflictResolution env s out table values whereClause whereArgs
          conflictResolution
        = (if table = "" then E_EMPTY_TABLE_NAME else E_EMPTY_VALUES_BUCKET, out, s)
      ∧ RdbStoreImpl.Insert env s out table values
        = (if table = "" then E_EMPTY_TABLE_NAME else E_EMPTY_VALUES_BUCKET, out, s)
      ∧ RdbStoreImpl.Replace env s out table values
        = (if table = "" then E_EMPTY_TABLE_NAME else E_EMPTY_VALUES_BUCKET, out, s)
      ∧ RdbStoreImpl.Update env s out table values whereClause whereArgs
        = (if table = "" then E_EMPTY_TABLE_NAME else E_EMPTY_VALUES_BUCKET, out, s) := by
  unfold RdbStoreImpl.Insert RdbStoreImpl.Replace RdbStoreImpl.Update
    RdbStoreImpl.InsertWithConflictResolution RdbStoreImpl.UpdateWithConflictResolution
  by_cases ht : table = ""
  · simp [ht]
  · have hv : values.IsEmpty = true := h.resolve_left ht
    simp [ht, hv]

/-- C3 at a concrete input: `Update` of table `test` with an empty bucket on an
idle store is rejected with `E_EMPTY_VALUES_BUCKET` and leaves the store as it was. -/
theorem validation_rejects_before_pool_witness :
    ("test" = "" ∨ emptyBucket.IsEmpty = true)
      ∧ RdbStoreImpl.Update Env.allOk RdbStoreImpl.idle 0 "test" emptyBucket "" []
        = (E_EMPTY_VALUES_BUCKET, 0, RdbStoreImpl.idle) :=
  ⟨Or.inr rfl, by
    simpa using (validation_rejects_before_pool Env.allOk RdbStoreImpl.idle 0 "test" emptyBucket
      "" [] 0 (Or.inr rfl)).2.2.2.2⟩

/-- C4, evaluated on the code: for every table name (the empty one included)
and every non-empty batch (buckets without entries included), the first thing
`BatchInsert` does is call `AcquireTransaction` on the pool: the trace after
the call starts with the trace before it followed by that call.  No validation
of the table name or of the buckets precedes it. -/
theorem BatchInsert_acquires_without_validating (env : Env) (s : RdbStoreImpl) (out : Int)
    (table : String) (b : ValuesBucket) (bs : List ValuesBucket) :
    s.log ++ [Event.acquireTransaction (env.acquireTransaction s.log)]
      <+: (RdbStoreImpl.BatchInsert env s out table (b :: bs)).2.2.log := by
  unfold RdbStoreImpl.BatchInsert
  simp only [List.isEmpty_cons, Bool.false_eq_true, if_false,
    SqliteConnectionPool.AcquireTransaction, SqliteConnectionPool.AcquireConnection]
  by_cases h3 : env.acquireTransaction s.log = E_OK
  · simp only [h3, ne_eq, not_true_eq_false, if_false]
    cases env.acquireConnection (s.log ++ [Event.acquireTransaction E_OK]) false with
    | none => simp
    | some c =>
      simp only []
      split_ifs with h4 h5
      · simp [SqliteConnectionPool.ReleaseConnection, SqliteConnectionPool.ReleaseTransaction]
      · split
        · rename_i status n s1 heq
          have h6 := congrArg (fun r => r.2.2.log) heq
          simp only at h6
          rw [← h6]
          refine List.IsPrefix.trans ?_ (BatchInsert_rows_log_extends _ _ _ _ _ _)
          simp [SqliteConnection.ExecuteSql, SqliteConnection.SetInTransaction]
        · rename_i n s1 heq
          have h6 := congrArg (fun r => r.2.2.log) heq
          simp only at h6
          have h7 : s.log ++ [Event.acquireTransaction E_OK] <+: s1.log := by
            rw [← h6]
            refine List.IsPrefix.trans ?_ (BatchInsert_rows_log_extends _ _ _ _ _ _)
            simp [SqliteConnection.ExecuteSql, SqliteConnection.SetInTransaction]
          have h8 := h7.trans (FreeTransaction_log_extends env c
            (env.commitStr (env.newTransaction 0)) s1)
          simp only []
          split_ifs
          · exact h8.trans (DoCloudSync_log_extends _ _)
          · exact h8
      · simp [SqliteConnectionPool.ReleaseConnection, SqliteConnectionPool.ReleaseTransaction,
          SqliteConnection.ExecuteSql, SqliteConnection.SetInTransaction]
  · simp [h3]

/-! ### Status and output of `BatchInsert` -/

/-- C5, evaluated on the code: on a one-row batch whose insert fails with the
engine code 19 while `BEGIN` and `ROLLBACK` succeed, `BatchInsert` returns
`E_OK` (the status of the `ROLLBACK`), not 19, with `outInsertNum` set to -1. -/
theorem BatchInsert_returns_rollback_status :
    (RdbStoreImpl.BatchInsert Env.insertFails RdbStoreImpl.idle 0 "test" [rowId1]).1 = E_OK
      ∧ (RdbStoreImpl.BatchInsert Env.insertFails RdbStoreImpl.idle 0 "test" [rowId1]).2.1 = -1
      ∧ (RdbStoreImpl.BatchInsert Env.insertFails RdbStoreImpl.idle 0 "test" [rowId1]).2.2.log
        = [Event.acquireTransaction 0,
           Event.acquireConnection false (some { id := 0, isWriteConnection := true }),
           Event.exec ConnOp.ExecuteSql { id := 0, isWriteConnection := true }
             "BEGIN EXCLUSIVE;" [] 0,
           Event.exec ConnOp.ExecuteSql { id := 0, isWriteConnection := true }
             "INSERT INTO test(id) VALUES (?)" [ValueObject.int 1] 19,
           Event.exec ConnOp.ExecuteSql { id := 0, isWriteConnection := true } "ROLLBACK;" [] 0,
           Event.releaseTransaction,
           Event.releaseConnection { id := 0, isWriteConnection := true }] := by
  decide

/-- C6, evaluated on the code: with the token and a connection granted and
`BEGIN`, the insert and `COMMIT` all succeeding, `BatchInsert` on a one-row
batch called with the output variable holding 5 returns `E_OK` and leaves 6 in
it, not 1; on the empty batch it leaves 0. -/
theorem BatchInsert_adds_to_outInsertNum :
    (RdbStoreImpl.BatchInsert Env.allOk RdbStoreImpl.idle 5 "test" [rowId1]).1 = E_OK
      ∧ (RdbStoreImpl.BatchInsert Env.allOk RdbStoreImpl.idle 5 "test" [rowId1]).2.1 = 6
      ∧ (RdbStoreImpl.BatchInsert Env.allOk RdbStoreImpl.idle 5 "test" []).2.1 = 0 := by
  decide

/-! ### Scalar queries -/

/-- C7, evaluated on the code: when `BeginExecuteSql` succeeds and the scalar
query fails with the engine code 1, `ExecuteAndGetLong` returns 1 but
`ExecuteAndGetString` returns `E_OK`; its trace shows `ExecuteGetString`
having returned 1. -/
theorem ExecuteAndGetString_drops_engine_code :
    (RdbStoreImpl.ExecuteAndGetLong Env.scalarFails RdbStoreImpl.idle 0
        "SELECT count(*) FROM test" []).1 = 1
      ∧ (RdbStoreImpl.ExecuteAndGetString Env.scalarFails RdbStoreImpl.idle ""
        "SELECT name FROM test" []).1 = E_OK
      ∧ (RdbStoreImpl.ExecuteAndGetString Env.scalarFails RdbStoreImpl.idle ""
        "SELECT name FROM test" []).2.2.log
        = [Event.acquireConnection false (some { id := 0, isWriteConnection := true }),
           Event.exec ConnOp.Prepare { id := 0, isWriteConnection := true }
             "SELECT name FROM test" [] 0,
           Event.exec ConnOp.ExecuteGetString { id := 0, isWriteConnection := true }
             "SELECT name FROM test" [] 1,
           Event.releaseConnection { id := 0, isWriteConnection := true }] := by
  decide

/-! ### The transaction stack under `Commit` and `RollBack` -/

/-- C8 as stated fails: with one descriptor on the stack, a commit text longer
than one byte and no connection available, `Commit` returns `E_CON_OVER_LIMIT`
and the stack still holds that one descriptor. -/
theorem Commit_keeps_stack_without_connection :
    RdbStoreImpl.inOneTransaction.transactionStack.length = 1
      ∧ (RdbStoreImpl.Commit Env.noConnection RdbStoreImpl.inOneTransaction).1 = E_CON_OVER_LIMIT
      ∧ (RdbStoreImpl.Commit Env.noConnection RdbStoreImpl.inOneTransaction).2.transactionStack
        = RdbStoreImpl.inOneTransaction.transactionStack
      ∧ (RdbStoreImpl.Commit Env.noConnection
          RdbStoreImpl.inOneTransaction).2.transactionStack.length = 1 := by
  decide

/-- C8, amended: for a stack `t :: rest`, `Commit` returns `E_OK` and leaves
exactly `rest` when the commit text of `t` is at most one byte long, and also
when it is longer and a connection is acquired, whatever the engine answers to
the commit statement (success or failure); when the text is longer and no
connection can be acquired, it returns `E_CON_OVER_LIMIT` and the stack is
still `t :: rest`. -/
theorem Commit_pops_unless_no_connection (env : Env) (s : RdbStoreImpl) (t : BaseTransaction)
    (rest : List BaseTransaction) (h : s.transactionStack = t :: rest) :
    ((env.commitStr t).utf8ByteSize ≤ 1 →
        (RdbStoreImpl.Commit env s).1 = E_OK
          ∧ (RdbStoreImpl.Commit env s).2.transactionStack = rest)
      ∧ (∀ c, 1 < (env.commitStr t).utf8ByteSize → env.acquireConnection s.log false = some c →
        (RdbStoreImpl.Commit env s).1 = E_OK
          ∧ (RdbStoreImpl.Commit env s).2.transactionStack = rest)
      ∧ (1 < (env.commitStr t).utf8ByteSize → env.acquireConnection s.log false = none →
        (RdbStoreImpl.Commit env s).1 = E_CON_OVER_LIMIT
          ∧ (RdbStoreImpl.Commit env s).2.transactionStack = t :: rest) := by
  unfold RdbStoreImpl.Commit
  rw [h]
  refine ⟨fun h1 => ?_, fun c h1 h2 => ?_, fun h1 h2 => ?_⟩
  · simp [h1, SqliteConnectionPool.popTransaction, h]
  · simp [Nat.not_le.mpr h1, SqliteConnectionPool.AcquireConnection, h2,
      SqliteConnectionPool.popTransaction, SqliteConnectionPool.ReleaseConnection,
      SqliteConnection.SetInTransaction, SqliteConnection.ExecuteSql, h]
  · simp [Nat.not_le.mpr h1, SqliteConnectionPool.AcquireConnection, h2, h]

/-- C8 amended, at a concrete input: with one descriptor on the stack and
everything succeeding, `Commit` returns `E_OK` and empties the stack. -/
theorem Commit_pops_unless_no_connection_witness :
    RdbStoreImpl.inOneTransaction.transactionStack
        = [{ type := TransType.ROLLBACK_SELF, id := 0, childFailure := false }]
      ∧ (RdbStoreImpl.Commit Env.allOk RdbStoreImpl.inOneTransaction).1 = E_OK
      ∧ (RdbStoreImpl.Commit Env.allOk RdbStoreImpl.inOneTransaction).2.transactionStack = [] :=
  ⟨rfl, (Commit_pops_unless_no_connection Env.allOk RdbStoreImpl.inOneTransaction
    { type := TransType.ROLLBACK_SELF, id := 0, childFailure := false } [] rfl).2.1
      { id := 0, isWriteConnection := true } (by decide) rfl⟩

/-- C9: `Commit` on an empty transaction stack returns `E_OK` and the state it
was given, unchanged: the trace is the same (no connection acquired, no
statement executed), and so are the stack and every connection's
`inTransaction` flag. -/
theorem Commit_empty_stack_is_noop (env : Env) (s : RdbStoreImpl) (h : s.transactionStack = []) :
    RdbStoreImpl.Commit env s = (E_OK, s) := by
  unfold RdbStoreImpl.Commit
  rw [h]

/-- C9 at a concrete input: `Commit` on a fresh store, even with no connection
available, returns `E_OK` and the same store. -/
theorem Commit_empty_stack_is_noop_witness :
    RdbStoreImpl.idle.transactionStack = []
      ∧ RdbStoreImpl.Commit Env.noConnection RdbStoreImpl.idle = (E_OK, RdbStoreImpl.idle) :=
  ⟨rfl, Commit_empty_stack_is_noop Env.noConnection RdbStoreImpl.idle rfl⟩

/-- C10: for a stack `d :: rest`, `RollBack` pops `d`.  If `d` is not a
self-rollback and `rest` is `p :: below`, the stack afterwards is `p` with
`childFailure` set to true (its other fields as they were) on top of `below`
unchanged; if `d` is a self-rollback, or `rest` is empty, the stack afterwards
is `rest`, with no flag changed.  This holds whether or not a connection could
be acquired and whatever the engine answers to the rollback statement. -/
theorem RollBack_marks_parent (env : Env) (s : RdbStoreImpl) (d : BaseTransaction)
    (rest : List BaseTransaction) (h : s.transactionStack = d :: rest) :
    (∀ p below, d.type ≠ TransType.ROLLBACK_SELF → rest = p :: below →
        (RdbStoreImpl.RollBack env s).2.transactionStack
          = { p with childFailure := true } :: below)
      ∧ (d.type = TransType.ROLLBACK_SELF ∨ rest = [] →
        (RdbStoreImpl.RollBack env s).2.transactionStack = rest) := by
  unfold RdbStoreImpl.RollBack
  rw [h]
  refine ⟨fun p below h1 h2 => ?_, fun h1 => ?_⟩
  · subst h2
    cases hc : env.acquireConnection s.log false <;>
      simp [SqliteConnectionPool.popTransaction, SqliteConnectionPool.setTopChildFailure,
        SqliteConnectionPool.AcquireConnection, SqliteConnectionPool.ReleaseConnection,
        SqliteConnection.SetInTransaction, SqliteConnection.ExecuteSql,
        BaseTransaction.GetType, BaseTransaction.SetChildFailure, h, h1, hc]
  · rcases h1 with h1 | h1
    · cases hc : env.acquireConnection s.log false <;>
        simp [SqliteConnectionPool.popTransaction, SqliteConnectionPool.setTopChildFailure,
          SqliteConnectionPool.AcquireConnection, SqliteConnectionPool.ReleaseConnection,
          SqliteConnection.SetInTransaction, SqliteConnection.ExecuteSql,
          BaseTransaction.GetType, BaseTransaction.SetChildFailure, h, h1, hc]
      all_goals split_ifs <;> rfl
    · subst h1
      cases hc : env.acquireConnection s.log false <;>
        simp [SqliteConnectionPool.popTransaction, SqliteConnectionPool.setTopChildFailure,
          SqliteConnectionPool.AcquireConnection, SqliteConnectionPool.ReleaseConnection,
          SqliteConnection.SetInTransaction, SqliteConnection.ExecuteSql,
          BaseTransaction.GetType, BaseTransaction.SetChildFailure, h, hc]

/-- C10 at a concrete input: rolling back the savepoint of depth 1 that sits on
the outer descriptor of depth 0 leaves the outer descriptor alone on the
stack, with `childFailure` now true. -/
theorem RollBack_marks_parent_witness :
    RdbStoreImpl.nested.transactionStack
        = [{ type := TransType.SAVEPOINT_BEGIN, id := 1, childFailure := false },
           { type := TransType.EXCLUSIVE_BEGIN, id := 0, childFailure := false }]
      ∧ (RdbStoreImpl.RollBack Env.tagged RdbStoreImpl.nested).2.transactionStack
        = [{ type := TransType.EXCLUSIVE_BEGIN, id := 0, childFailure := true }] :=
  ⟨rfl, (RollBack_marks_parent Env.tagged RdbStoreImpl.nested
    { type := TransType.SAVEPOINT_BEGIN, id := 1, childFailure := false }
    [{ type := TransType.EXCLUSIVE_BEGIN, id := 0, childFailure := false }] rfl).1
      { type := TransType.EXCLUSIVE_BEGIN, id := 0, childFailure := false } []
      (by decide) rfl⟩

/-! ### The transaction stack under sequences of calls -/

theorem depthsMatch_push (env : Env) (stack : List BaseTransaction) (h : depthsMatch stack) :
    depthsMatch (env.newTransaction stack.length :: stack) := by
  unfold depthsMatch at *
  simp [List.range_succ, h, Env.newTransaction]

theorem depthsMatch_tail (stack : List BaseTransaction) (h : depthsMatch stack) :
    depthsMatch stack.tail := by
  cases stack with
  | nil => simpa using h
  | cons t rest =>
    unfold depthsMatch at *
    simp [List.range_succ] at h
    simpa using h.2

theorem depthsMatch_setTop (flag : Bool) (stack : List BaseTransaction) (h : depthsMatch stack) :
    depthsMatch (setTopFlag flag stack) := by
  cases stack with
  | nil => simpa [setTopFlag] using h
  | cons t rest =>
    unfold depthsMatch at *
    simpa [setTopFlag, BaseTransaction.SetChildFailure] using h

/-- The stack after `BeginTransaction`: the new descriptor of depth
`stack size` is pushed exactly when a connection was acquired and the begin
statement returned `E_OK`; otherwise the stack is as before. -/
theorem BeginTransaction_stack (env : Env) (s : RdbStoreImpl) :
    (RdbStoreImpl.BeginTransaction env s).2.transactionStack
      = match env.acquireConnection s.log false with
        | none => s.transactionStack
        | some c =>
          if env.executeSql (s.log ++ [Event.acquireConnection false (some c)]) c
              (env.transactionStr (env.newTransaction s.transactionStack.length)) [] = E_OK
          then env.newTransaction s.transactionStack.length :: s.transactionStack
          else s.transactionStack := by
  unfold RdbStoreImpl.BeginTransaction
  simp only [SqliteConnectionPool.AcquireConnection]
  cases env.acquireConnection s.log false with
  | none => rfl
  | some c =>
    simp only [SqliteConnection.ExecuteSql, SqliteConnectionPool.ReleaseConnection,
      SqliteConnection.SetInTransaction, SqliteConnectionPool.pushTransaction]
    split_ifs <;> simp_all

/-- The stack after `Commit` is the stack before or its tail. -/
theorem Commit_stack (env : Env) (s : RdbStoreImpl) :
    (RdbStoreImpl.Commit env s).2.transactionStack = s.transactionStack
      ∨ (RdbStoreImpl.Commit env s).2.transactionStack = s.transactionStack.tail := by
  unfold RdbStoreImpl.Commit
  cases h : s.transactionStack with
  | nil => simp [h]
  | cons t rest =>
    simp only [SqliteConnectionPool.AcquireConnection]
    split_ifs
    · right; simp [SqliteConnectionPool.popTransaction, h]
    · cases env.acquireConnection s.log false with
      | none => left; simp [h]
      | some c =>
        right
        simp [SqliteConnectionPool.popTransaction, SqliteConnectionPool.ReleaseConnection,
          SqliteConnection.SetInTransaction, SqliteConnection.ExecuteSql, h]

/-- The stack after `RollBack` on `d :: rest`: `rest`, with `childFailure` set
on its top when `d` is not a self-rollback. -/
theorem RollBack_stack (env : Env) (s : RdbStoreImpl) (d : BaseTransaction)
    (rest : List BaseTransaction) (h : s.transactionStack = d :: rest) :
    (RdbStoreImpl.RollBack env s).2.transactionStack
      = if d.type ≠ TransType.ROLLBACK_SELF then setTopFlag true rest else rest := by
  unfold RdbStoreImpl.RollBack
  rw [h]
  cases rest with
  | nil =>
    cases hc : env.acquireConnection s.log false <;>
      simp [SqliteConnectionPool.popTransaction, SqliteConnectionPool.setTopChildFailure,
        SqliteConnectionPool.AcquireConnection, SqliteConnectionPool.ReleaseConnection,
        SqliteConnection.SetInTransaction, SqliteConnection.ExecuteSql,
        BaseTransaction.GetType, setTopFlag, h, hc]
  | cons p below =>
    by_cases hd : d.type = TransType.ROLLBACK_SELF <;>
    cases hc : env.acquireConnection s.log false <;>
      simp [SqliteConnectionPool.popTransaction, SqliteConnectionPool.setTopChildFailure,
        SqliteConnectionPool.AcquireConnection, SqliteConnectionPool.ReleaseConnection,
        SqliteConnection.SetInTransaction, SqliteConnection.ExecuteSql,
        BaseTransaction.GetType, setTopFlag, h, hc, hd]

theorem call_preserves_depthsMatch (env : Env) (c : TransactionCall) (s : RdbStoreImpl)
    (h : depthsMatch s.transactionStack) :
    depthsMatch (RdbStoreImpl.call env c s).2.transactionStack := by
  cases c with
  | BeginTransaction =>
    simp only [RdbStoreImpl.call, BeginTransaction_stack]
    cases env.acquireConnection s.log false with
    | none => exact h
    | some c =>
      simp only []
      split_ifs
      · exact depthsMatch_push env _ h
      · exact h
  | Commit =>
    simp only [RdbStoreImpl.call]
    rcases Commit_stack env s with h1 | h1 <;> rw [h1]
    · exact h
    · exact depthsMatch_tail _ h
  | RollBack =>
    simp only [RdbStoreImpl.call]
    cases hs : s.transactionStack with
    | nil => simpa [RdbStoreImpl.RollBack, hs] using h
    | cons d rest =>
      rw [RollBack_stack env s d rest hs]
      have h1 : depthsMatch rest := by simpa [hs] using depthsMatch_tail _ h
      split_ifs
      · exact depthsMatch_setTop true rest h1
      · exact h1

theorem calls_preserve_depthsMatch (env : Env) (cs : List TransactionCall) :
    ∀ s : RdbStoreImpl, depthsMatch s.transactionStack →
      depthsMatch (RdbStoreImpl.calls env cs s).2.transactionStack := by
  induction cs with
  | nil => intro s h; simpa [RdbStoreImpl.calls] using h
  | cons c rest ih =>
    intro s h
    simp only [RdbStoreImpl.calls]
    exact ih _ (call_preserves_depthsMatch env c s h)

theorem depthsMatch_position (stack : List BaseTransaction) (h : depthsMatch stack) (i : Nat)
    (t : BaseTransaction) (ht : stack.reverse[i]? = some t) : t.id = i := by
  unfold depthsMatch at h
  have h1 : stack.reverse.map BaseTransaction.id = List.range stack.length := by
    rw [List.map_reverse, h, List.reverse_reverse]
  have h2 : (stack.reverse.map BaseTransaction.id)[i]? = some t.id := by
    rw [List.getElem?_map, ht]
    rfl
  rw [h1] at h2
  rcases Nat.lt_or_ge i stack.length with h3 | h3
  · rw [List.getElem?_range h3] at h2
    exact (Option.some.inj h2).symm
  · rw [List.getElem?_eq_none (by simpa using h3)] at h2
    cases h2

theorem depthsMatch_pairwise (stack : List BaseTransaction) (h : depthsMatch stack) :
    List.Pairwise (fun upper lower => lower.id < upper.id) stack := by
  unfold depthsMatch at h
  have h1 : List.Pairwise (fun a b => b < a) (stack.map BaseTransaction.id) := by
    rw [h, List.pairwise_reverse]
    exact List.pairwise_lt_range _
  exact (List.pairwise_map.mp h1)

/-- C11: in every state reached from an empty transaction stack by any
sequence of `BeginTransaction`, `Commit` and `RollBack` calls, whatever the
pool and the engine answer, the descriptor at position `i` of the stack
counted from the bottom was constructed with depth `i`, so depths strictly
increase from bottom to top.  Moreover `Commit` and `RollBack` never make the
stack longer, and `BeginTransaction` either leaves the stack as it was or
pushes the descriptor of depth `stack size`, the latter only when a
connection was acquired and the begin statement returned `E_OK`. -/
theorem transactionStack_depth_equals_position (env : Env) (s : RdbStoreImpl)
    (cs : List TransactionCall) (h : s.transactionStack = []) :
    (∀ (i : Nat) (t : BaseTransaction),
        (RdbStoreImpl.calls env cs s).2.transactionStack.reverse[i]? = some t → t.id = i)
      ∧ List.Pairwise (fun upper lower => lower.id < upper.id)
          (RdbStoreImpl.calls env cs s).2.transactionStack
      ∧ (∀ s0 : RdbStoreImpl,
          (RdbStoreImpl.Commit env s0).2.transactionStack.length ≤ s0.transactionStack.length
            ∧ (RdbStoreImpl.RollBack env s0).2.transactionStack.length
                ≤ s0.transactionStack.length
            ∧ ((RdbStoreImpl.BeginTransaction env s0).2.transactionStack = s0.transactionStack
                ∨ ∃ c, env.acquireConnection s0.log false = some c
                  ∧ env.executeSql (s0.log ++ [Event.acquireConnection false (some c)]) c
                      (env.transactionStr (env.newTransaction s0.transactionStack.length)) []
                    = E_OK
                  ∧ (RdbStoreImpl.BeginTransaction env s0).1 = E_OK
                  ∧ (RdbStoreImpl.BeginTransaction env s0).2.transactionStack
                    = env.newTransaction s0.transactionStack.length :: s0.transactionStack)) := by
  have h0 : depthsMatch s.transactionStack := by simp [h, depthsMatch]
  have h1 := calls_preserve_depthsMatch env cs s h0
  refine ⟨fun i t ht => depthsMatch_position _ h1 i t ht, depthsMatch_pairwise _ h1,
    fun s0 => ⟨?_, ?_, ?_⟩⟩
  · rcases Commit_stack env s0 with h2 | h2
    · rw [h2]
    · rw [h2]
      simp
  · cases hs : s0.transactionStack with
    | nil => simp [RdbStoreImpl.RollBack, hs]
    | cons d rest =>
      rw [RollBack_stack env s0 d rest hs]
      cases rest <;> split_ifs <;> simp [setTopFlag]
  · unfold RdbStoreImpl.BeginTransaction
    simp only [SqliteConnectionPool.AcquireConnection]
    cases hc : env.acquireConnection s0.log false with
    | none => left; rfl
    | some c =>
      simp only [SqliteConnection.ExecuteSql, SqliteConnectionPool.ReleaseConnection,
        SqliteConnection.SetInTransaction, SqliteConnectionPool.pushTransaction]
      by_cases he : env.executeSql (s0.log ++ [Event.acquireConnection false (some c)]) c
          (env.transactionStr (env.newTransaction s0.transactionStack.length)) [] = E_OK
      · right
        exact ⟨c, rfl, he, by simp [he], by simp [he]⟩
      · left
        simp [he]

/-- The witness of C11: after two nested `BeginTransaction` calls on a fresh
store the descriptor at position `i` from the bottom has depth `i`. -/
theorem transactionStack_depth_equals_position_witness :
    RdbStoreImpl.idle.transactionStack = []
      ∧ ∀ (i : Nat) (t : BaseTransaction),
          (RdbStoreImpl.calls Env.allOk
            [TransactionCall.BeginTransaction, TransactionCall.BeginTransaction]
            RdbStoreImpl.idle).2.transactionStack.reverse[i]? = some t → t.id = i :=
  ⟨rfl, (transactionStack_depth_equals_position Env.allOk RdbStoreImpl.idle
    [TransactionCall.BeginTransaction, TransactionCall.BeginTransaction] rfl).1⟩

theorem calls_append (env : Env) (a b : List TransactionCall) :
    ∀ s : RdbStoreImpl,
      RdbStoreImpl.calls env (a ++ b) s
        = ((RdbStoreImpl.calls env a s).1
            ++ (RdbStoreImpl.calls env b (RdbStoreImpl.calls env a s).2).1,
          (RdbStoreImpl.calls env b (RdbStoreImpl.calls env a s).2).2) := by
  induction a with
  | nil => intro s; simp [RdbStoreImpl.calls]
  | cons c rest ih => intro s; simp [RdbStoreImpl.calls, ih]

theorem BeginTransaction_ok (env : Env) (s : RdbStoreImpl)
    (hconn : ∀ log ro, (env.acquireConnection log ro).isSome = true)
    (hsql : ∀ log c sql args, env.executeSql log c sql args = E_OK) :
    (RdbStoreImpl.BeginTransaction env s).1 = E_OK
      ∧ (RdbStoreImpl.BeginTransaction env s).2.transactionStack.length
        = s.transactionStack.length + 1 := by
  unfold RdbStoreImpl.BeginTransaction
  simp only [SqliteConnectionPool.AcquireConnection]
  cases hc : env.acquireConnection s.log false with
  | none => have := hconn s.log false; simp [hc] at this
  | some c =>
    simp [SqliteConnection.ExecuteSql, SqliteConnectionPool.ReleaseConnection,
      SqliteConnection.SetInTransaction, SqliteConnectionPool.pushTransaction, hsql]

theorem Commit_ok (env : Env) (s : RdbStoreImpl)
    (hconn : ∀ log ro, (env.acquireConnection log ro).isSome = true) :
    (RdbStoreImpl.Commit env s).1 = E_OK
      ∧ (RdbStoreImpl.Commit env s).2.transactionStack.length
        = s.transactionStack.length - 1 := by
  unfold RdbStoreImpl.Commit
  cases h : s.transactionStack with
  | nil => simp [h]
  | cons t rest =>
    simp only [SqliteConnectionPool.AcquireConnection]
    split_ifs
    · simp [SqliteConnectionPool.popTransaction, h]
    · cases hc : env.acquireConnection s.log false with
      | none => have := hconn s.log false; simp [hc] at this
      | some c =>
        simp [SqliteConnectionPool.popTransaction, SqliteConnectionPool.ReleaseConnection,
          SqliteConnection.SetInTransaction, SqliteConnection.ExecuteSql, h]

theorem RollBack_ok (env : Env) (s : RdbStoreImpl)
    (hconn : ∀ log ro, (env.acquireConnection log ro).isSome = true)
    (hne : s.transactionStack ≠ []) :
    (RdbStoreImpl.RollBack env s).1 = E_OK
      ∧ (RdbStoreImpl.RollBack env s).2.transactionStack.length
        = s.transactionStack.length - 1 := by
  cases h : s.transactionStack with
  | nil => exact absurd h hne
  | cons d rest =>
    refine ⟨?_, ?_⟩
    · unfold RdbStoreImpl.RollBack
      rw [h]
      simp only [SqliteConnectionPool.AcquireConnection]
      split
      · rename_i heq
        have := hconn (if d.GetType ≠ TransType.ROLLBACK_SELF ∧
          (SqliteConnectionPool.popTransaction s).transactionStack ≠ [] then
            SqliteConnectionPool.setTopChildFailure true (SqliteConnectionPool.popTransaction s)
          else SqliteConnectionPool.popTransaction s).log false
        simp only [Prod.mk.injEq] at heq
        rw [heq.1] at this
        simp at this
      · rfl
    · rw [RollBack_stack env s d rest h]
      cases rest <;> split_ifs <;> simp [setTopFlag]

theorem calls_begins (env : Env)
    (hconn : ∀ log ro, (env.acquireConnection log ro).isSome = true)
    (hsql : ∀ log c sql args, env.executeSql log c sql args = E_OK) (k : Nat) :
    ∀ s : RdbStoreImpl,
      (RdbStoreImpl.calls env (List.replicate k TransactionCall.BeginTransaction) s).1
          = (List.range k).map (fun i => (E_OK, s.transactionStack.length + i + 1))
        ∧ (RdbStoreImpl.calls env (List.replicate k TransactionCall.BeginTransaction)
            s).2.transactionStack.length = s.transactionStack.length + k := by
  induction k with
  | zero => intro s; simp [RdbStoreImpl.calls]
  | succ k ih =>
    intro s
    obtain ⟨h1, h2⟩ := BeginTransaction_ok env s hconn hsql
    obtain ⟨h3, h4⟩ := ih (RdbStoreImpl.BeginTransaction env s).2
    simp only [List.replicate_succ, RdbStoreImpl.calls, RdbStoreImpl.call, h1, h2, h3, h4]
    refine ⟨?_, by omega⟩
    rw [List.range_succ_eq_map]
    simp only [List.map_cons, List.map_map, Nat.add_zero]
    congr 1
    apply List.map_congr_left
    intro i _
    simp only [Function.comp, Nat.succ_eq_add_one]
    congr 1
    omega

theorem calls_commits (env : Env)
    (hconn : ∀ log ro, (env.acquireConnection log ro).isSome = true) (k : Nat) :
    ∀ s : RdbStoreImpl,
      (RdbStoreImpl.calls env (List.replicate k TransactionCall.Commit) s).1
          = (List.range k).map (fun i => (E_OK, s.transactionStack.length - 1 - i))
        ∧ (RdbStoreImpl.calls env (List.replicate k TransactionCall.Commit)
            s).2.transactionStack.length = s.transactionStack.length - k := by
  induction k with
  | zero => intro s; simp [RdbStoreImpl.calls]
  | succ k ih =>
    intro s
    obtain ⟨h1, h2⟩ := Commit_ok env s hconn
    obtain ⟨h3, h4⟩ := ih (RdbStoreImpl.Commit env s).2
    simp only [List.replicate_succ, RdbStoreImpl.calls, RdbStoreImpl.call, h1, h2, h3, h4]
    refine ⟨?_, by omega⟩
    rw [List.range_succ_eq_map]
    simp only [List.map_cons, List.map_map, Nat.sub_zero]
    congr 1
    apply List.map_congr_left
    intro i _
    simp only [Function.comp, Nat.succ_eq_add_one]
    congr 1
    omega

/-- C12: for every `k >= 1`, starting from an empty transaction stack with a
connection always available and every engine statement succeeding, `k` calls
of `BeginTransaction` followed by `k` calls of `Commit` all return `E_OK`, the
stack size after the successive calls is 1, 2, ..., k and then k-1, ..., 0,
and the stack is empty afterwards; and `k` calls of `BeginTransaction`
followed by one `RollBack` and `k-1` calls of `Commit` all return `E_OK` and
leave the stack empty. -/
theorem nested_transactions_unwind (env : Env) (s : RdbStoreImpl) (k : Nat) (hk : 1 ≤ k)
    (hs : s.transactionStack = [])
    (hconn : ∀ log ro, (env.acquireConnection log ro).isSome = true)
    (hsql : ∀ log c sql args, env.executeSql log c sql args = E_OK) :
    (RdbStoreImpl.calls env
        (List.replicate k TransactionCall.BeginTransaction
          ++ List.replicate k TransactionCall.Commit) s).1
        = (List.range k).map (fun i => (E_OK, i + 1))
          ++ (List.range k).map (fun i => (E_OK, k - 1 - i))
      ∧ (RdbStoreImpl.calls env
          (List.replicate k TransactionCall.BeginTransaction
            ++ List.replicate k TransactionCall.Commit) s).2.transactionStack = []
      ∧ (∀ r ∈ (RdbStoreImpl.calls env
          (List.replicate k TransactionCall.BeginTransaction
            ++ TransactionCall.RollBack :: List.replicate (k - 1) TransactionCall.Commit) s).1,
          r.1 = E_OK)
      ∧ (RdbStoreImpl.calls env
          (List.replicate k TransactionCall.BeginTransaction
            ++ TransactionCall.RollBack :: List.replicate (k - 1) TransactionCall.Commit)
          s).2.transactionStack = [] := by
  obtain ⟨hb1, hb2⟩ := calls_begins env hconn hsql k s
  rw [hs] at hb1 hb2
  simp only [List.length_nil, Nat.zero_add] at hb1 hb2
  obtain ⟨hc1, hc2⟩ := calls_commits env hconn k
    (RdbStoreImpl.calls env (List.replicate k TransactionCall.BeginTransaction) s).2
  have hne : (RdbStoreImpl.calls env (List.replicate k TransactionCall.BeginTransaction)
      s).2.transactionStack ≠ [] := by
    intro h0
    rw [h0] at hb2
    simp at hb2
    omega
  obtain ⟨hr1, hr2⟩ := RollBack_ok env _ hconn hne
  obtain ⟨hd1, hd2⟩ := calls_commits env hconn (k - 1)
    (RdbStoreImpl.RollBack env
      (RdbStoreImpl.calls env (List.replicate k TransactionCall.BeginTransaction) s).2).2
  refine ⟨?_, ?_, ?_, ?_⟩
  · rw [calls_append]
    simp only [hb1, hc1, hb2]
  · rw [calls_append]
    apply List.length_eq_zero.mp
    simp only [hc2, hb2]
    omega
  · rw [calls_append]
    intro r hr
    simp only [RdbStoreImpl.calls, RdbStoreImpl.call, List.mem_append, List.mem_cons, hb1,
      hd1, hr1, List.mem_map] at hr
    rcases hr with ⟨i, _, rfl⟩ | rfl | ⟨i, _, rfl⟩ <;> rfl
  · rw [calls_append]
    apply List.length_eq_zero.mp
    simp only [RdbStoreImpl.calls, RdbStoreImpl.call, hd2, hr2, hb2]
    omega

/-- The witness of C12, for `k = 2` on a fresh store with everything succeeding:
the four calls return `E_OK` with stack sizes 1, 2, 1, 0. -/
theorem nested_transactions_unwind_witness :
    RdbStoreImpl.idle.transactionStack = []
      ∧ (∀ log ro, (Env.allOk.acquireConnection log ro).isSome = true)
      ∧ (∀ log c sql args, Env.allOk.executeSql log c sql args = E_OK)
      ∧ (RdbStoreImpl.calls Env.allOk
          (List.replicate 2 TransactionCall.BeginTransaction
            ++ List.replicate 2 TransactionCall.Commit) RdbStoreImpl.idle).1
        = [(E_OK, 1), (E_OK, 2), (E_OK, 1), (E_OK, 0)] :=
  ⟨rfl, fun _ _ => rfl, fun _ _ _ _ => rfl,
    (nested_transactions_unwind Env.allOk RdbStoreImpl.idle 2 (by decide) rfl
      (fun _ _ => rfl) (fun _ _ _ _ => rfl)).1⟩

/-! ### `BeginExecuteSql` and `Attach` -/

/-- The balance of `BeginExecuteSql`: over the call, the connections acquired
exceed the connections released by one when it returns `E_OK`, and by none
otherwise. -/
theorem BeginExecuteSql_connection_balance (env : Env) (sql : String)
    (out : Option SqliteConnection) (s : RdbStoreImpl) :
    acquiredConnections (RdbStoreImpl.BeginExecuteSql env sql out s).2.2.log
        + releasedConnections s.log
      = acquiredConnections s.log
        + releasedConnections (RdbStoreImpl.BeginExecuteSql env sql out s).2.2.log
        + (if (RdbStoreImpl.BeginExecuteSql env sql out s).1 = E_OK then 1 else 0) := by
  have e0 : E_OK = 0 := rfl
  have e1 : E_TRANSACTION_IN_EXECUTE ≠ 0 := by decide
  have e2 : E_CON_OVER_LIMIT ≠ 0 := by decide
  have e3 : E_EXECUTE_WRITE_IN_READ_CONNECTION ≠ 0 := by decide
  unfold RdbStoreImpl.BeginExecuteSql
  simp only [SqliteConnectionPool.AcquireConnection, SqliteConnection.Prepare,
    SqliteConnectionPool.ReleaseConnection, e0]
  by_cases h1 : env.isSpecial (env.getSqlStatementType sql) = true
  · simp [h1, e1]
  · simp only [h1, if_false]
    generalize env.isSqlReadOnly (env.getSqlStatementType sql) = ro
    cases hc : env.acquireConnection s.log ro with
    | none =>
      simp [e2, acquiredConnections, releasedConnections, Event.isAcquiredConnection,
        Event.isReleaseConnection, List.countP_append]
    | some c =>
      simp only []
      generalize env.prepare (s.log ++ [Event.acquireConnection ro (some c)]) c sql false = p
      obtain ⟨code, ro2⟩ := p
      simp only []
      by_cases h2 : code = 0
      · subst h2
        simp only [ne_eq, not_true_eq_false, if_false]
        by_cases h3 : ro2 = c.IsWriteConnection
        · simp only [if_pos h3]
          generalize env.acquireConnection (s.log ++ [Event.acquireConnection ro (some c)]
            ++ [Event.exec ConnOp.Prepare c sql [] 0] ++ [Event.releaseConnection c]) ro2 = a2
          cases a2 with
          | none =>
            simp [e2, acquiredConnections, releasedConnections, Event.isAcquiredConnection,
              Event.isReleaseConnection, List.countP_append, List.countP_cons]
            omega
          | some c2 =>
            simp only []
            by_cases h4 : (!ro2 && !c2.IsWriteConnection) = true
            · simp [h4, e3, acquiredConnections, releasedConnections,
                Event.isAcquiredConnection, Event.isReleaseConnection, List.countP_append,
                List.countP_cons]
              omega
            · simp [h4, acquiredConnections, releasedConnections,
                Event.isAcquiredConnection, Event.isReleaseConnection, List.countP_append,
                List.countP_cons]
              omega
        · simp only [if_neg h3]
          simp [acquiredConnections, releasedConnections, Event.isAcquiredConnection,
            Event.isReleaseConnection, List.countP_append, List.countP_cons]
          omega
      · simp [h2, acquiredConnections, releasedConnections, Event.isAcquiredConnection,
          Event.isReleaseConnection, List.countP_append, List.countP_cons]
        omega

/-- The trace of `BeginExecuteSql`: the call only appends to the trace, and
nothing it appends is a call of `SqliteConnection::ExecuteSql`. -/
theorem BeginExecuteSql_runs_no_statement (env : Env) (sql : String)
    (out : Option SqliteConnection) (s : RdbStoreImpl) :
    ∃ new, (RdbStoreImpl.BeginExecuteSql env sql out s).2.2.log = s.log ++ new
      ∧ ∀ e ∈ new, e.isExecuteSql = false := by
  unfold RdbStoreImpl.BeginExecuteSql
  simp only [SqliteConnectionPool.AcquireConnection, SqliteConnection.Prepare,
    SqliteConnectionPool.ReleaseConnection]
  by_cases h1 : env.isSpecial (env.getSqlStatementType sql) = true
  · exact ⟨[], by simp [h1]⟩
  · simp only [h1, if_false]
    generalize env.isSqlReadOnly (env.getSqlStatementType sql) = ro
    cases hc : env.acquireConnection s.log ro with
    | none => exact ⟨[Event.acquireConnection ro none], by simp [Event.isExecuteSql]⟩
    | some c =>
      simp only []
      generalize env.prepare (s.log ++ [Event.acquireConnection ro (some c)]) c sql false = p
      obtain ⟨code, ro2⟩ := p
      simp only []
      by_cases h2 : code = 0
      · subst h2
        simp only [ne_eq, not_true_eq_false, if_false]
        by_cases h3 : ro2 = c.IsWriteConnection
        · simp only [if_pos h3]
          generalize env.acquireConnection (s.log ++ [Event.acquireConnection ro (some c)]
            ++ [Event.exec ConnOp.Prepare c sql [] 0] ++ [Event.releaseConnection c]) ro2 = a2
          cases a2 with
          | none =>
            exact ⟨[Event.acquireConnection ro (some c), Event.exec ConnOp.Prepare c sql [] 0,
              Event.releaseConnection c, Event.acquireConnection ro2 none],
              by simp [Event.isExecuteSql]⟩
          | some c2 =>
            simp only []
            by_cases h4 : (!ro2 && !c2.IsWriteConnection) = true
            · exact ⟨[Event.acquireConnection ro (some c), Event.exec ConnOp.Prepare c sql [] 0,
                Event.releaseConnection c, Event.acquireConnection ro2 (some c2),
                Event.releaseConnection c2], by simp [h4, Event.isExecuteSql]⟩
            · exact ⟨[Event.acquireConnection ro (some c), Event.exec ConnOp.Prepare c sql [] 0,
                Event.releaseConnection c, Event.acquireConnection ro2 (some c2)],
                by simp [h4, Event.isExecuteSql]⟩
        · exact ⟨[Event.acquireConnection ro (some c), Event.exec ConnOp.Prepare c sql [] 0],
            by simp [h3, Event.isExecuteSql]⟩
      · exact ⟨[Event.acquireConnection ro (some c), Event.exec ConnOp.Prepare c sql [] code,
          Event.releaseConnection c], by simp [h2, Event.isExecuteSql]⟩

/-- C13: in `Attach`, when `BeginExecuteSql` hands out the connection `c` for
the journal-mode query, the query succeeds, and the journal mode it reports
equals the default journal mode after upper-casing, the result is
`E_NOT_SUPPORTED_ATTACH_IN_WAL_MODE`; after the query the only further
interaction is the release of `c`, so over the whole call no statement is run
through `ExecuteSql` (the `ATTACH` statement in particular), and the call has
released as many connections as it has acquired. -/
theorem Attach_rejected_in_default_journal_mode (env : Env) (s s1 : RdbStoreImpl)
    (c : SqliteConnection) (alias_ pathName journalMode : String) (destEncryptKey : List Nat)
    (hbegin : RdbStoreImpl.BeginExecuteSql env env.PRAGMA_JOUR_MODE_EXP none s
      = (E_OK, some c, s1))
    (hquery : env.executeGetString s1.log c "" env.PRAGMA_JOUR_MODE_EXP []
      = (E_OK, journalMode))
    (hmode : env.strToUpper journalMode = env.DEFAULT_JOURNAL_MODE) :
    RdbStoreImpl.Attach env s alias_ pathName destEncryptKey
        = (E_NOT_SUPPORTED_ATTACH_IN_WAL_MODE,
            { s1 with log := s1.log ++
              [Event.exec ConnOp.ExecuteGetString c env.PRAGMA_JOUR_MODE_EXP [] E_OK,
               Event.releaseConnection c] })
      ∧ (∃ new, (RdbStoreImpl.Attach env s alias_ pathName destEncryptKey).2.log = s.log ++ new
          ∧ ∀ e ∈ new, e.isExecuteSql = false)
      ∧ acquiredConnections (RdbStoreImpl.Attach env s alias_ pathName destEncryptKey).2.log
          + releasedConnections s.log
        = acquiredConnections s.log
          + releasedConnections (RdbStoreImpl.Attach env s alias_ pathName destEncryptKey).2.log := by
  have hres : RdbStoreImpl.Attach env s alias_ pathName destEncryptKey
      = (E_NOT_SUPPORTED_ATTACH_IN_WAL_MODE,
          { s1 with log := s1.log ++
            [Event.exec ConnOp.ExecuteGetString c env.PRAGMA_JOUR_MODE_EXP [] E_OK,
             Event.releaseConnection c] }) := by
    unfold RdbStoreImpl.Attach
    simp only [hbegin]
    simp [SqliteConnection.ExecuteGetString, SqliteConnectionPool.ReleaseConnection, hquery,
      hmode, E_OK]
  obtain ⟨new, hnew, hno⟩ := BeginExecuteSql_runs_no_statement env env.PRAGMA_JOUR_MODE_EXP none s
  have hbal := BeginExecuteSql_connection_balance env env.PRAGMA_JOUR_MODE_EXP none s
  rw [hbegin] at hnew hbal
  simp only [if_true] at hbal hnew
  refine ⟨hres, ⟨new ++ [Event.exec ConnOp.ExecuteGetString c env.PRAGMA_JOUR_MODE_EXP [] E_OK,
    Event.releaseConnection c], ?_, ?_⟩, ?_⟩
  · rw [hres]
    simp [hnew]
  · intro e he
    rcases List.mem_append.mp he with h | h
    · exact hno e h
    · simp at h
      rcases h with rfl | rfl <;> rfl
  · rw [hres]
    simp only [acquiredConnections, releasedConnections, List.countP_append, List.countP_cons,
      List.countP_nil, Event.isAcquiredConnection, Event.isReleaseConnection] at hbal ⊢
    simp
    omega

/-- The witness of C13: on a fresh store whose engine reports the journal mode
`wal`, with `WAL` the default, `Attach` returns
`E_NOT_SUPPORTED_ATTACH_IN_WAL_MODE`. -/
theorem Attach_rejected_in_default_journal_mode_witness :
    Env.walMode.strToUpper "wal" = Env.walMode.DEFAULT_JOURNAL_MODE
      ∧ (RdbStoreImpl.Attach Env.walMode RdbStoreImpl.idle "other" "/data/other.db" []).1
        = E_NOT_SUPPORTED_ATTACH_IN_WAL_MODE :=
  ⟨by decide, congrArg Prod.fst (Attach_rejected_in_default_journal_mode Env.walMode
    RdbStoreImpl.idle
    (RdbStoreImpl.BeginExecuteSql Env.walMode Env.walMode.PRAGMA_JOUR_MODE_EXP none
      RdbStoreImpl.idle).2.2
    { id := 0, isWriteConnection := true } "other" "/data/other.db" "wal" [] rfl rfl
    (by decide)).1⟩

/-! ### The file system under `Backup` -/

theorem appendTemp_length (path : String) (k : Nat) :
    (appendTemp path k).length = path.length + 4 * k := by
  induction k with
  | zero => simp [appendTemp]
  | succ k ih =>
    simp only [appendTemp, String.length_append, ih]
    have : "temp".length = 4 := by decide
    omega

theorem appendTemp_injective (path : String) : Function.Injective (appendTemp path) := by
  intro a b h
  have h1 := congrArg String.length h
  simp only [appendTemp_length] at h1
  omega

theorem FileSystem.lookup_mem (fs : FileSystem) (path : String)
    (h : FileSystem.access fs path = true) : path ∈ fs.map Prod.fst := by
  induction fs with
  | nil => simp [FileSystem.access, FileSystem.lookup] at h
  | cons entry rest ih =>
    obtain ⟨p, content⟩ := entry
    by_cases hp : p = path
    · simp [hp]
    · simp only [FileSystem.access, FileSystem.lookup, hp, if_false] at h
      simp only [List.map_cons, List.mem_cons]
      exact Or.inr (ih h)

theorem FileSystem.lookup_filter (fs : FileSystem) (keep : String → Bool) (path : String) :
    FileSystem.lookup (fs.filter (fun entry => keep entry.1)) path
      = if keep path then FileSystem.lookup fs path else none := by
  induction fs with
  | nil => simp [FileSystem.lookup]
  | cons entry rest ih =>
    obtain ⟨p, content⟩ := entry
    by_cases hk : keep p = true
    · by_cases hp : p = path
      · subst hp
        simp [List.filter_cons, hk, FileSystem.lookup]
      · simp [List.filter_cons, hk, FileSystem.lookup, hp, ih]
    · by_cases hp : p = path
      · subst hp
        simp [List.filter_cons, hk, ih]
      · simp [List.filter_cons, hk, FileSystem.lookup, hp, ih]

/-- When the loop of `Backup` stops, it stops at the first path of the form
`path` followed by at least `j` copies of `temp` that does not exist. -/
theorem Backup_tempPath_some (fs : FileSystem) (path : String) (fuel : Nat) :
    ∀ (j : Nat) (found : String),
      RdbStoreImpl.Backup.tempPath fs fuel (appendTemp path j) = some found →
      ∃ k, j ≤ k ∧ found = appendTemp path k ∧ FileSystem.access fs found = false := by
  induction fuel with
  | zero => intro j found h; simp [RdbStoreImpl.Backup.tempPath] at h
  | succ fuel ih =>
    intro j found h
    simp only [RdbStoreImpl.Backup.tempPath] at h
    split_ifs at h with hacc
    · obtain ⟨k, hk, hf, ha⟩ := ih (j + 1) found h
      exact ⟨k, by omega, hf, ha⟩
    · have hfound : appendTemp path j = found := Option.some.inj h
      exact ⟨j, le_refl j, hfound.symm, by simpa [hfound] using hacc⟩

/-- When the loop of `Backup` uses up its fuel, every path it tested exists. -/
theorem Backup_tempPath_none (fs : FileSystem) (path : String) (fuel : Nat) :
    ∀ j : Nat, RdbStoreImpl.Backup.tempPath fs fuel (appendTemp path j) = none →
      ∀ i, i < fuel → FileSystem.access fs (appendTemp path (j + i)) = true := by
  induction fuel with
  | zero => intro j _ i hi; omega
  | succ fuel ih =>
    intro j h i hi
    simp only [RdbStoreImpl.Backup.tempPath] at h
    split_ifs at h with hacc
    cases i with
    | zero => simpa using hacc
    | succ i =>
      have := ih (j + 1) h i (by omega)
      have he : j + 1 + i = j + (i + 1) := by omega
      rwa [he] at this

/-- One test more than there are files is enough fuel for the loop of `Backup`:
it finds a path that does not exist. -/
theorem Backup_tempPath_found (fs : FileSystem) (path : String) :
    ∃ k, 1 ≤ k
      ∧ RdbStoreImpl.Backup.tempPath fs (fs.length + 1) (path ++ "temp")
          = some (appendTemp path k)
      ∧ FileSystem.access fs (appendTemp path k) = false := by
  have hstart : path ++ "temp" = appendTemp path 1 := rfl
  rw [hstart]
  cases h : RdbStoreImpl.Backup.tempPath fs (fs.length + 1) (appendTemp path 1) with
  | some found =>
    obtain ⟨k, hk, hf, ha⟩ := Backup_tempPath_some fs path _ 1 found h
    exact ⟨k, hk, by rw [hf], by rw [← hf]; exact ha⟩
  | none =>
    exfalso
    have hall := Backup_tempPath_none fs path _ 1 h
    have hsub : (Finset.range (fs.length + 1)).image (fun i => appendTemp path (1 + i))
        ⊆ (fs.map Prod.fst).toFinset := by
      intro p hp
      obtain ⟨i, hi, rfl⟩ := Finset.mem_image.mp hp
      exact List.mem_toFinset.mpr
        (FileSystem.lookup_mem fs _ (hall i (Finset.mem_range.mp hi)))
    have hinj : Function.Injective (fun i => appendTemp path (1 + i)) := by
      intro a b hab
      have := appendTemp_injective path hab
      omega
    have hcard := Finset.card_le_card hsub
    rw [Finset.card_image_of_injective _ hinj, Finset.card_range] at hcard
    have hle := List.toFinset_card_le (fs.map Prod.fst)
    simp only [List.length_map] at hle
    omega

theorem FileSystem.lookup_RenameFile_dest (fs : FileSystem) (srcFile destFile : String)
    (content : List Nat) (h : FileSystem.lookup fs srcFile = some content) :
    FileSystem.lookup (FileSystem.RenameFile fs srcFile destFile) destFile = some content := by
  simp [FileSystem.RenameFile, h, FileSystem.lookup]

theorem FileSystem.lookup_RenameFile_src (fs : FileSystem) (srcFile destFile : String)
    (content : List Nat) (h : FileSystem.lookup fs srcFile = some content)
    (hne : srcFile ≠ destFile) :
    FileSystem.lookup (FileSystem.RenameFile fs srcFile destFile) srcFile = none := by
  have hf := FileSystem.lookup_filter fs
    (fun p => decide (p ≠ srcFile ∧ p ≠ destFile)) srcFile
  simp only [ne_eq, not_true_eq_false, false_and, decide_False, Bool.false_eq_true,
    if_false] at hf
  simp only [FileSystem.RenameFile, h, FileSystem.lookup, if_neg (Ne.symm hne)]
  exact hf

theorem FileSystem.lookup_DeleteFile (fs : FileSystem) (fileName : String) :
    FileSystem.lookup (FileSystem.DeleteFile fs fileName) fileName = none := by
  have hf := FileSystem.lookup_filter fs (fun p => decide (p ≠ fileName)) fileName
  simp only [ne_eq, not_true_eq_false, decide_False, Bool.false_eq_true, if_false] at hf
  exact hf

/-- C14: with the file system a finite map in which renames and deletes
succeed, and an engine that leaves the temporary file alone: when the target
path `P` is valid and holds a file with contents `C`, `Backup` returns a
result; there is a path `T`, namely `P` followed by `k >= 1` copies of `temp`,
that did not exist before the call and to which `P` is renamed before
`InnerBackup` runs; `Backup` returns the status of `InnerBackup`; afterwards
`T` does not exist, and if `InnerBackup` failed then `P` holds `C` again. -/
theorem Backup_restores_existing_target (env : Env) (s : RdbStoreImpl) (fs : FileSystem)
    (databasePath P : String) (C destEncryptKey : List Nat)
    (hpath : RdbStoreImpl.GetDataBasePath env s databasePath "" = (E_OK, P))
    (hP : FileSystem.lookup fs P = some C)
    (hengine : ∀ log fs0 k, 1 ≤ k →
      FileSystem.lookup (env.engineFiles log fs0) (appendTemp P k)
        = FileSystem.lookup fs0 (appendTemp P k)) :
    ∃ k fsAfter, 1 ≤ k
      ∧ FileSystem.lookup fs (appendTemp P k) = none
      ∧ RdbStoreImpl.Backup env s fs databasePath destEncryptKey
        = some ((RdbStoreImpl.InnerBackup env s P destEncryptKey).1,
            (RdbStoreImpl.InnerBackup env s P destEncryptKey).2, fsAfter)
      ∧ fsAfter
        = (if (RdbStoreImpl.InnerBackup env s P destEncryptKey).1 = E_OK then
            FileSystem.DeleteFile
              (env.engineFiles (RdbStoreImpl.InnerBackup env s P destEncryptKey).2.log
                (FileSystem.RenameFile fs P (appendTemp P k)))
              (appendTemp P k)
          else
            FileSystem.RenameFile
              (env.engineFiles (RdbStoreImpl.InnerBackup env s P destEncryptKey).2.log
                (FileSystem.RenameFile fs P (appendTemp P k)))
              (appendTemp P k) P)
      ∧ FileSystem.lookup fsAfter (appendTemp P k) = none
      ∧ ((RdbStoreImpl.InnerBackup env s P destEncryptKey).1 ≠ E_OK →
          FileSystem.lookup fsAfter P = some C) := by
  obtain ⟨k, hk, hfound, hfree⟩ := Backup_tempPath_found fs P
  have hne : appendTemp P k ≠ P := by
    intro h
    have h0 : appendTemp P k = appendTemp P 0 := h
    have := appendTemp_injective P h0
    omega
  have hnone : FileSystem.lookup fs (appendTemp P k) = none := by
    simpa [FileSystem.access] using hfree
  have hacc : FileSystem.access fs P = true := by simp [FileSystem.access, hP]
  have hT : ∀ log, FileSystem.lookup
      (env.engineFiles log (FileSystem.RenameFile fs P (appendTemp P k))) (appendTemp P k)
        = some C := by
    intro log
    rw [hengine log _ k hk]
    exact FileSystem.lookup_RenameFile_dest fs P _ C hP
  refine ⟨k, _, hk, hnone, ?_, rfl, ?_, ?_⟩
  · unfold RdbStoreImpl.Backup
    simp only [hpath, ne_eq, not_true_eq_false, if_false, hfound, hacc, if_true]
  · split_ifs with hret
    · exact FileSystem.lookup_DeleteFile _ _
    · exact FileSystem.lookup_RenameFile_src _ _ _ C (hT _) hne
  · intro hret
    rw [if_neg hret]
    exact FileSystem.lookup_RenameFile_dest _ _ _ C (hT _)

/-- The witness of C14: the target `/data/backup.db` holds `[1, 2, 3]`, the path
`/data/backup.dbtemp` is taken, and the engine fails to attach the target
after creating an empty file there: a free temporary path is found and the
target holds `[1, 2, 3]` again afterwards. -/
theorem Backup_restores_existing_target_witness :
    RdbStoreImpl.GetDataBasePath Env.attachFails RdbStoreImpl.idle "backup.db" ""
        = (E_OK, "/data/backup.db")
      ∧ FileSystem.lookup diskWithBackup "/data/backup.db" = some [1, 2, 3]
      ∧ (RdbStoreImpl.InnerBackup Env.attachFails RdbStoreImpl.idle "/data/backup.db" []).1 = 14
      ∧ ∃ k fsAfter, 1 ≤ k
          ∧ FileSystem.lookup diskWithBackup (appendTemp "/data/backup.db" k) = none
          ∧ FileSystem.lookup fsAfter (appendTemp "/data/backup.db" k) = none
          ∧ FileSystem.lookup fsAfter "/data/backup.db" = some [1, 2, 3] := by
  refine ⟨by decide, by decide, by decide, ?_⟩
  obtain ⟨k, fsAfter, h1, h2, _, _, h5, h6⟩ :=
    Backup_restores_existing_target Env.attachFails RdbStoreImpl.idle diskWithBackup
      "backup.db" "/data/backup.db" [1, 2, 3] [] (by decide) (by decide)
      (by
        intro log fs0 k hk
        have hne : "/data/backup.db" ≠ appendTemp "/data/backup.db" k := by
          intro h
          have h0 : appendTemp "/data/backup.db" 0 = appendTemp "/data/backup.db" k := h
          have := appendTemp_injective "/data/backup.db" h0
          omega
        simp [Env.attachFails, FileSystem.lookup, hne])
  exact ⟨k, fsAfter, h1, h2, h5, h6 (by decide)⟩

/-! ### Coalescing of `DoCloudSync` -/

/-- C15 as stated fails for the empty table name: with the empty name and `a`
both registered and nothing pending, one call `DoCloudSync("")` leaves the
pending set equal to the whole registered set, not to the set holding just
the empty name. -/
theorem DoCloudSync_empty_name_pends_all :
    "" ∈ RdbStoreImpl.cloudWithEmptyName.cloudTables_
      ∧ RdbStoreImpl.cloudWithEmptyName.pool_ = true
      ∧ RdbStoreImpl.cloudWithEmptyName.syncTables_ = none
      ∧ (RdbStoreImpl.DoCloudSync "" RdbStoreImpl.cloudWithEmptyName).syncTables_
        = some {"", "a"}
      ∧ (RdbStoreImpl.DoCloudSync "" RdbStoreImpl.cloudWithEmptyName).syncTables_
        ≠ some {""} := by
  decide

/-- One call of `DoCloudSync` for a registered non-empty table name on a store
with an executor: the table joins the pending set, and the task is scheduled
exactly when the pending set was empty. -/
theorem DoCloudSync_registered (s : RdbStoreImpl) (t : String) (hpool : s.pool_ = true)
    (ht : t ∈ s.cloudTables_) (hne : t ≠ "") :
    RdbStoreImpl.DoCloudSync t s
      = { s with
          syncTables_ := some (insert t (s.syncTables_.getD ∅))
          log := s.log ++ [Event.doCloudSync t]
            ++ (if s.syncTables_.getD ∅ = ∅ then [Event.schedule] else []) } := by
  have hcloud : s.cloudTables_ ≠ ∅ := Finset.ne_empty_of_mem ht
  unfold RdbStoreImpl.DoCloudSync
  simp only [hpool, Bool.true_eq_false, if_false, hcloud, false_or, ne_eq, hne,
    not_false_eq_true, true_and, ht, not_true_eq_false]
  by_cases hp : s.syncTables_.getD ∅ = ∅
  · simp [hp]
  · simp [hp]

theorem DoCloudSync_iterate (s : RdbStoreImpl) (t : String) (hpool : s.pool_ = true)
    (hpending : s.syncTables_ = none ∨ s.syncTables_ = some ∅) (ht : t ∈ s.cloudTables_)
    (hne : t ≠ "") (n : Nat) :
    ((RdbStoreImpl.DoCloudSync t)^[n + 1] s).pool_ = true
      ∧ ((RdbStoreImpl.DoCloudSync t)^[n + 1] s).cloudTables_ = s.cloudTables_
      ∧ ((RdbStoreImpl.DoCloudSync t)^[n + 1] s).syncTables_ = some {t}
      ∧ scheduledTasks ((RdbStoreImpl.DoCloudSync t)^[n + 1] s).log
        = scheduledTasks s.log + 1 := by
  induction n with
  | zero =>
    have hempty : s.syncTables_.getD ∅ = ∅ := by
      rcases hpending with h | h <;> simp [h]
    simp only [Nat.zero_add, Function.iterate_one, DoCloudSync_registered s t hpool ht hne,
      hempty, if_true]
    refine ⟨?_, ?_, ?_, ?_⟩
    · exact hpool
    · trivial
    · simp
    · simp [scheduledTasks, List.countP_append, List.countP_cons, Event.isSchedule]
  | succ n ih =>
    obtain ⟨h1, h2, h3, h4⟩ := ih
    rw [Function.iterate_succ_apply']
    have ht2 : t ∈ ((RdbStoreImpl.DoCloudSync t)^[n + 1] s).cloudTables_ := by rw [h2]; exact ht
    rw [DoCloudSync_registered _ t h1 ht2 hne]
    simp only [h3, Option.getD_some, Finset.singleton_ne_empty, if_false, List.append_nil]
    refine ⟨h1, h2, by simp, ?_⟩
    simp only [scheduledTasks] at h4 ⊢
    simp only [List.countP_append, h4, List.countP_cons, List.countP_nil, Event.isSchedule]
    simp

/-- C15, amended: starting from a state with an executor present and no
pending sync tables, for every `n >= 1` and every registered table `t` whose
name is not empty, `n` consecutive calls `DoCloudSync(t)` schedule exactly one
delayed task and leave the pending set equal to `{t}`.  Any single call
schedules a task if and only if it gets to insert into the pending set (an
executor is present, some table is registered, and the name is empty or
registered) and the pending set was empty just before; and a call for a
non-empty name that is not registered changes no field of the store and
schedules nothing (the trace only records the call). -/
theorem DoCloudSync_coalesces (s : RdbStoreImpl) (t : String) (n : Nat) (hn : 1 ≤ n)
    (hpool : s.pool_ = true) (hpending : s.syncTables_ = none ∨ s.syncTables_ = some ∅)
    (ht : t ∈ s.cloudTables_) (hne : t ≠ "") :
    scheduledTasks ((RdbStoreImpl.DoCloudSync t)^[n] s).log = scheduledTasks s.log + 1
      ∧ ((RdbStoreImpl.DoCloudSync t)^[n] s).syncTables_ = some {t}
      ∧ (∀ (s0 : RdbStoreImpl) (table : String),
          scheduledTasks (RdbStoreImpl.DoCloudSync table s0).log
            = scheduledTasks s0.log
              + (if s0.pool_ = true
                    ∧ ¬ (s0.cloudTables_ = ∅ ∨ (table ≠ "" ∧ table ∉ s0.cloudTables_))
                    ∧ s0.syncTables_.getD ∅ = ∅ then 1 else 0))
      ∧ (∀ (s0 : RdbStoreImpl) (table : String), table ≠ "" → table ∉ s0.cloudTables_ →
          RdbStoreImpl.DoCloudSync table s0
            = { s0 with log := s0.log ++ [Event.doCloudSync table] }) := by
  obtain ⟨m, rfl⟩ : ∃ m, n = m + 1 := ⟨n - 1, by omega⟩
  obtain ⟨_, _, h3, h4⟩ := DoCloudSync_iterate s t hpool hpending ht hne m
  refine ⟨h4, h3, ?_, ?_⟩
  · intro s0 table
    unfold RdbStoreImpl.DoCloudSync
    simp only
    by_cases hp : s0.pool_ = true
    · by_cases hc : s0.cloudTables_ = ∅ ∨ (table ≠ "" ∧ table ∉ s0.cloudTables_)
      · simp [hp, hc, scheduledTasks, List.countP_append, Event.isSchedule]
      · by_cases he : s0.syncTables_.getD ∅ = ∅
        · simp [hp, hc, he, scheduledTasks, List.countP_append, Event.isSchedule]
        · simp [hp, hc, he, scheduledTasks, List.countP_append, Event.isSchedule]
    · simp [hp, scheduledTasks, List.countP_append, Event.isSchedule]
  · intro s0 table h1 h2
    unfold RdbStoreImpl.DoCloudSync
    simp only
    by_cases hp : s0.pool_ = true
    · simp [hp, h1, h2]
    · simp [hp]

/-- The witness of C15 amended: three calls `DoCloudSync("a")` on a store with
`a` registered and nothing pending schedule one task and leave `{a}` pending. -/
theorem DoCloudSync_coalesces_witness :
    RdbStoreImpl.cloudA.pool_ = true
      ∧ RdbStoreImpl.cloudA.syncTables_ = none
      ∧ "a" ∈ RdbStoreImpl.cloudA.cloudTables_
      ∧ scheduledTasks ((RdbStoreImpl.DoCloudSync "a")^[3] RdbStoreImpl.cloudA).log
        = scheduledTasks RdbStoreImpl.cloudA.log + 1
      ∧ ((RdbStoreImpl.DoCloudSync "a")^[3] RdbStoreImpl.cloudA).syncTables_ = some {"a"} :=
  ⟨rfl, rfl, by decide,
    (DoCloudSync_coalesces RdbStoreImpl.cloudA "a" 3 (by decide) rfl (Or.inl rfl) (by decide)
      (by decide)).1,
    (DoCloudSync_coalesces RdbStoreImpl.cloudA "a" 3 (by decide) rfl (Or.inl rfl) (by decide)
      (by decide)).2.1⟩

/-! ### The SQL text and bind arguments of `GetInsertParams` and `UpdateWithConflictResolution` -/

theorem intercalate_go_append (acc x sep : String) (l : List String) :
    String.intercalate.go (acc ++ x) sep l = acc ++ String.intercalate.go x sep l := by
  induction l generalizing x with
  | nil => simp [String.intercalate.go]
  | cons a rest ih =>
    simp only [String.intercalate.go]
    rw [← ih]
    simp only [String.append_assoc]

theorem append_intercalate_cons (acc sep a : String) (l : List String) :
    String.intercalate.go (acc ++ a) sep l = acc ++ String.intercalate sep (a :: l) := by
  rw [intercalate_go_append]
  rfl

theorem GetInsertParams_columns_rest (l : List (String × ValueObject)) :
    ∀ (sql : String) (bindArgs : List ValueObject),
      RdbStoreImpl.GetInsertParams.columns l false sql bindArgs
        = (String.intercalate.go sql "," (l.map Prod.fst), bindArgs ++ l.map Prod.snd) := by
  induction l with
  | nil => intro sql bindArgs; simp [RdbStoreImpl.GetInsertParams.columns, String.intercalate.go]
  | cons kv rest ih =>
    intro sql bindArgs
    obtain ⟨key, val⟩ := kv
    simp [RdbStoreImpl.GetInsertParams.columns, String.intercalate.go, ih]

theorem GetInsertParams_columns_first (l : List (String × ValueObject)) (sql : String)
    (bindArgs : List ValueObject) :
    RdbStoreImpl.GetInsertParams.columns l true sql bindArgs
      = (sql ++ String.intercalate "," (l.map Prod.fst), bindArgs ++ l.map Prod.snd) := by
  cases l with
  | nil => simp [RdbStoreImpl.GetInsertParams.columns, String.intercalate]
  | cons kv rest =>
    obtain ⟨key, val⟩ := kv
    simp only [RdbStoreImpl.GetInsertParams.columns, GetInsertParams_columns_rest, if_true,
      String.append_empty, List.map_cons, append_intercalate_cons]
    simp

theorem placeholders_rest (n : Nat) :
    ∀ (i : Nat) (sql : String), i ≠ 0 →
      RdbStoreImpl.placeholders n i sql
        = String.intercalate.go sql "," (List.replicate n "?") := by
  induction n with
  | zero => intro i sql _; simp [RdbStoreImpl.placeholders, String.intercalate.go]
  | succ n ih =>
    intro i sql hi
    simp only [RdbStoreImpl.placeholders, hi, if_false, List.replicate_succ,
      String.intercalate.go]
    rw [ih (i + 1) _ (by omega)]
    have h : sql ++ ",?" = sql ++ "," ++ "?" := by rw [String.append_assoc]; rfl
    rw [h]

theorem placeholders_first (n : Nat) (sql : String) :
    RdbStoreImpl.placeholders n 0 sql
      = sql ++ String.intercalate "," (List.replicate n "?") := by
  cases n with
  | zero => simp [RdbStoreImpl.placeholders, String.intercalate]
  | succ n =>
    simp only [RdbStoreImpl.placeholders, if_true, List.replicate_succ]
    rw [placeholders_rest n 1 _ (by omega), append_intercalate_cons]

/-- C17: for every table name `t` and every column-to-value map with entries
`(k1,v1),...,(kn,vn)` in key order, `GetInsertParams` returns the text
`INSERT INTO t(k1,...,kn) VALUES (?,...,?)`, whose column list is the keys
separated by commas and whose value list is `n` placeholders `?` separated by
commas, together with the bind arguments `[v1,...,vn]`: as many as there are
placeholders, the `i`-th being the value of the `i`-th listed column. -/
theorem GetInsertParams_text_and_args (valuesMap : List (String × ValueObject))
    (table : String) :
    RdbStoreImpl.GetInsertParams valuesMap table
        = ("INSERT INTO " ++ table ++ "(" ++ String.intercalate "," (valuesMap.map Prod.fst)
            ++ ") VALUES (" ++ String.intercalate "," (List.replicate valuesMap.length "?")
            ++ ")",
          valuesMap.map Prod.snd)
      ∧ (RdbStoreImpl.GetInsertParams valuesMap table).2.length
        = (List.replicate valuesMap.length "?").length
      ∧ ∀ (i : Nat) (k : String) (v : ValueObject), valuesMap[i]? = some (k, v) →
          (valuesMap.map Prod.fst)[i]? = some k
            ∧ (RdbStoreImpl.GetInsertParams valuesMap table).2[i]? = some v := by
  have h : RdbStoreImpl.GetInsertParams valuesMap table
      = ("INSERT INTO " ++ table ++ "(" ++ String.intercalate "," (valuesMap.map Prod.fst)
          ++ ") VALUES (" ++ String.intercalate "," (List.replicate valuesMap.length "?")
          ++ ")",
        valuesMap.map Prod.snd) := by
    unfold RdbStoreImpl.GetInsertParams
    simp only [GetInsertParams_columns_first, placeholders_first, List.nil_append]
  refine ⟨h, by simp [h], ?_⟩
  intro i k v hi
  rw [h]
  simp [List.getElem?_map, hi]

theorem UpdateWithConflictResolution_columns_rest (l : List (String × ValueObject)) :
    ∀ (sql : String) (bindArgs : List ValueObject),
      RdbStoreImpl.UpdateWithConflictResolution.columns l "," sql bindArgs
        = (String.intercalate.go sql "," (l.map (fun kv => kv.1 ++ "=?")),
            bindArgs ++ l.map Prod.snd) := by
  induction l with
  | nil =>
    intro sql bindArgs
    simp [RdbStoreImpl.UpdateWithConflictResolution.columns, String.intercalate.go]
  | cons kv rest ih =>
    intro sql bindArgs
    obtain ⟨key, val⟩ := kv
    simp [RdbStoreImpl.UpdateWithConflictResolution.columns, String.intercalate.go, ih,
      String.append_assoc]

theorem UpdateWithConflictResolution_columns_first (l : List (String × ValueObject))
    (sql : String) (bindArgs : List ValueObject) :
    RdbStoreImpl.UpdateWithConflictResolution.columns l "" sql bindArgs
      = (sql ++ String.intercalate "," (l.map (fun kv => kv.1 ++ "=?")),
          bindArgs ++ l.map Prod.snd) := by
  cases l with
  | nil => simp [RdbStoreImpl.UpdateWithConflictResolution.columns, String.intercalate]
  | cons kv rest =>
    obtain ⟨key, val⟩ := kv
    simp only [RdbStoreImpl.UpdateWithConflictResolution.columns,
      UpdateWithConflictResolution_columns_rest, String.append_empty, List.map_cons,
      String.append_assoc, append_intercalate_cons]
    simp

theorem pushWhereArgs_eq (whereArgs : List String) :
    ∀ bindArgs : List ValueObject,
      RdbStoreImpl.pushWhereArgs whereArgs bindArgs
        = bindArgs ++ whereArgs.map ValueObject.str := by
  induction whereArgs with
  | nil => intro bindArgs; simp [RdbStoreImpl.pushWhereArgs]
  | cons a rest ih => intro bindArgs; simp [RdbStoreImpl.pushWhereArgs, ih]

theorem DoCloudSync_runs_no_statement (table : String) (s : RdbStoreImpl) :
    ∃ tail, (RdbStoreImpl.DoCloudSync table s).log = s.log ++ tail
      ∧ ∀ e ∈ tail, e.isExec = false := by
  unfold RdbStoreImpl.DoCloudSync
  simp only
  split_ifs
  · exact ⟨[Event.doCloudSync table], rfl, by simp [Event.isExec]⟩
  · exact ⟨[Event.doCloudSync table], rfl, by simp [Event.isExec]⟩
  · exact ⟨[Event.doCloudSync table], rfl, by simp [Event.isExec]⟩
  · exact ⟨[Event.doCloudSync table], rfl, by simp [Event.isExec]⟩
  · exact ⟨[Event.doCloudSync table, Event.schedule], by simp, by simp [Event.isExec]⟩
  · exact ⟨[Event.doCloudSync table, Event.schedule], by simp, by simp [Event.isExec]⟩

/-- C16: for a non-empty table name and a non-empty values bucket with entries
`(c1,v1),...,(cn,vn)` in key order, once the conflict clause is obtained and a
connection `c` is acquired, `UpdateWithConflictResolution` runs on `c` exactly
one statement: the text `UPDATE` + conflict clause + blank + table + ` SET `
+ `c1=?,...,cn=?`, followed by ` WHERE ` + where clause exactly when the where
clause is not empty, with the bind arguments `[v1,...,vn,a1,...,am]`, the
column values in column order and then the where arguments in their order,
`n + m` in all.  It returns the status of that statement. -/
theorem UpdateWithConflictResolution_statement (env : Env) (s : RdbStoreImpl)
    (changedRows : Int) (table : String) (values : ValuesBucket) (whereClause : String)
    (whereArgs : List String) (conflictResolution : Int) (conflictClause : String)
    (c : SqliteConnection)
    (htable : table ≠ "") (hvalues : values.IsEmpty = false)
    (hclause : env.getConflictClause conflictResolution = (E_OK, conflictClause))
    (hconn : env.acquireConnection s.log false = some c) :
    ∃ code tail,
      (RdbStoreImpl.UpdateWithConflictResolution env s changedRows table values whereClause
          whereArgs conflictResolution).1 = code
        ∧ (RdbStoreImpl.UpdateWithConflictResolution env s changedRows table values whereClause
            whereArgs conflictResolution).2.2.log
          = s.log ++
            [Event.acquireConnection false (some c),
             Event.exec ConnOp.ExecuteForChangedRowCount c
               ("UPDATE" ++ conflictClause ++ " " ++ table ++ " SET "
                 ++ String.intercalate "," (values.values_.map (fun kv => kv.1 ++ "=?"))
                 ++ (if whereClause ≠ "" then " WHERE " ++ whereClause else ""))
               (values.values_.map Prod.snd ++ whereArgs.map ValueObject.str) code,
             Event.releaseConnection c] ++ tail
        ∧ (∀ e ∈ tail, e.isExec = false)
        ∧ (values.values_.map Prod.snd ++ whereArgs.map ValueObject.str).length
          = values.values_.length + whereArgs.length := by
  obtain ⟨sqlText, hq⟩ : ∃ q, q = "UPDATE" ++ conflictClause ++ " " ++ table ++ " SET "
      ++ String.intercalate "," (values.values_.map (fun kv => kv.1 ++ "=?"))
      ++ (if whereClause ≠ "" then " WHERE " ++ whereClause else "") := ⟨_, rfl⟩
  have hsql : (if whereClause ≠ "" then
        "UPDATE" ++ conflictClause ++ " " ++ table ++ " SET "
          ++ String.intercalate "," (values.values_.map (fun kv => kv.1 ++ "=?"))
          ++ " WHERE " ++ whereClause
      else
        "UPDATE" ++ conflictClause ++ " " ++ table ++ " SET "
          ++ String.intercalate "," (values.values_.map (fun kv => kv.1 ++ "=?")))
      = sqlText := by
    rw [hq]
    split_ifs
    · simp only [String.append_assoc]
    · simp only [String.append_empty]
  rw [← hq]
  have hlen : (values.values_.map Prod.snd ++ whereArgs.map ValueObject.str).length
      = values.values_.length + whereArgs.length := by simp
  unfold RdbStoreImpl.UpdateWithConflictResolution
  simp only [htable, if_false, hvalues, Bool.false_eq_true, hclause, ne_eq, not_true_eq_false,
    UpdateWithConflictResolution_columns_first, pushWhereArgs_eq, List.nil_append,
    SqliteConnectionPool.AcquireConnection, hconn,
    SqliteConnection.ExecuteForChangedRowCount, SqliteConnectionPool.ReleaseConnection]
  simp only [ne_eq] at hsql
  rw [hsql]
  generalize values.values_.map Prod.snd ++ whereArgs.map ValueObject.str = args at hlen ⊢
  generalize env.executeForChangedRowCount (s.log ++ [Event.acquireConnection false (some c)])
    c changedRows sqlText args = r
  by_cases hcode : r.1 = E_OK
  · simp only [hcode, if_true]
    obtain ⟨tail, htail, hno⟩ := DoCloudSync_runs_no_statement table
      { s with log := s.log ++ [Event.acquireConnection false (some c)]
          ++ [Event.exec ConnOp.ExecuteForChangedRowCount c sqlText args E_OK]
          ++ [Event.releaseConnection c] }
    refine ⟨E_OK, tail, rfl, ?_, hno, hlen⟩
    rw [htail]
    simp
  · simp only [hcode, if_false]
    exact ⟨r.1, [], rfl, by simp, by simp, hlen⟩

/-- The witness of C16: updating the columns `age` and `name` of table `user`
where `id = ?` with the argument `7` runs
`UPDATE user SET age=?,name=? WHERE id = ?` with the bind arguments
`[30, "li", "7"]`. -/
theorem UpdateWithConflictResolution_statement_witness :
    bucketAgeName.IsEmpty = false
      ∧ Env.allOk.getConflictClause 0 = (E_OK, "")
      ∧ ∃ code tail,
          (RdbStoreImpl.UpdateWithConflictResolution Env.allOk RdbStoreImpl.idle 0 "user"
            bucketAgeName "id = ?" ["7"] 0).2.2.log
          = RdbStoreImpl.idle.log ++
            [Event.acquireConnection false (some { id := 0, isWriteConnection := true }),
             Event.exec ConnOp.ExecuteForChangedRowCount { id := 0, isWriteConnection := true }
               "UPDATE user SET age=?,name=? WHERE id = ?"
               [ValueObject.int 30, ValueObject.str "li", ValueObject.str "7"] code,
             Event.releaseConnection { id := 0, isWriteConnection := true }] ++ tail := by
  refine ⟨rfl, rfl, ?_⟩
  obtain ⟨code, tail, _, h2, _, _⟩ :=
    UpdateWithConflictResolution_statement Env.allOk RdbStoreImpl.idle 0 "user" bucketAgeName
      "id = ?" ["7"] 0 "" { id := 0, isWriteConnection := true } (by decide) rfl rfl rfl
  exact ⟨code, tail, h2⟩

/-! ### The password buffer -/

theorem RdbPassword_SetValue_size_le (MAX : Nat) (p : RdbPassword) (inputData : Option (List Nat))
    (n : Nat) (h : p.size_ ≤ MAX) : (RdbPassword.SetValue MAX p inputData n).2.size_ ≤ MAX := by
  unfold RdbPassword.SetValue
  split_ifs <;> simp_all

theorem RdbPassword_run_size_le (MAX : Nat) (calls : List RdbPassword.Call) :
    ∀ p : RdbPassword, p.size_ ≤ MAX → (RdbPassword.run MAX calls p).size_ ≤ MAX := by
  induction calls with
  | nil => intro p h; simpa [RdbPassword.run] using h
  | cons call rest ih =>
    intro p h
    cases call with
    | SetValue inputData n =>
      simp only [RdbPassword.run]
      exact ih _ (RdbPassword_SetValue_size_le MAX p inputData n h)
    | Clear =>
      simp only [RdbPassword.run, RdbPassword.Clear]
      exact ih _ (RdbPassword_SetValue_size_le MAX p none 0 h)

/-- C18: for a default-constructed `RdbPassword` (no byte held) and any
sequence of `SetValue` and `Clear` calls, `GetSize() <= MAX_PASSWORD_SIZE`
holds afterwards, hence after every call.  `SetValue` with a size above
`MAX_PASSWORD_SIZE`, or with a null pointer and a non-zero size, returns
`E_ERROR` and leaves the size and the buffer unchanged; every other
`SetValue(data, n)` returns `E_OK` with `GetSize() = n` and, the pointer
covering `n` bytes, the first `n` buffer bytes equal to the first `n` bytes
of `data`. -/
theorem RdbPassword_size_within_bound (MAX : Nat) (p0 : RdbPassword)
    (calls : List RdbPassword.Call) (h0 : p0.size_ = 0) :
    (RdbPassword.run MAX calls p0).GetSize ≤ MAX
      ∧ (∀ (p : RdbPassword) (inputData : Option (List Nat)) (n : Nat),
          n > MAX ∨ (n ≠ 0 ∧ inputData = none) →
            RdbPassword.SetValue MAX p inputData n = (E_ERROR, p))
      ∧ (∀ (p : RdbPassword) (inputData : Option (List Nat)) (n : Nat),
          n ≤ MAX → (inputData = none → n = 0) →
            (RdbPassword.SetValue MAX p inputData n).1 = E_OK
              ∧ (RdbPassword.SetValue MAX p inputData n).2.GetSize = n
              ∧ (coversInput inputData n →
                  (RdbPassword.SetValue MAX p inputData n).2.GetData.take n
                    = (inputData.getD []).take n)) := by
  refine ⟨RdbPassword_run_size_le MAX calls p0 (by omega), ?_, ?_⟩
  · intro p inputData n h
    unfold RdbPassword.SetValue
    rcases h with h | h
    · simp [h]
    · by_cases hn : n > MAX
      · simp [hn]
      · simp [hn, h.1, h.2]
  · intro p inputData n hn hnull
    have h1 : ¬ n > MAX := by omega
    have h2 : ¬ (n ≠ 0 ∧ inputData = none) := fun h => h.1 (hnull h.2)
    unfold RdbPassword.SetValue
    simp only [h1, h2, if_false, RdbPassword.GetSize, RdbPassword.GetData, true_and]
    intro hcover
    by_cases hz : n = 0
    · subst hz
      simp
    · have hlen : n ≤ (inputData.getD []).length := by
        cases inputData with
        | none => exact absurd (hnull rfl) hz
        | some bytes => simpa [coversInput] using hcover
      simp only [hz, ne_eq, not_false_eq_true, if_true, RdbPassword.copy, RdbPassword.fill]
      split_ifs
      · rw [List.take_append_eq_append_take, List.take_append_eq_append_take]
        simp [List.take_take, List.length_take, Nat.min_eq_left hlen]
      · rw [List.take_append_eq_append_take]
        simp [List.take_take, List.length_take, Nat.min_eq_left hlen]

/-- The witness of C18: on a default-constructed password of 8 bytes at most,
setting the 3 bytes `7, 8, 9`, then an oversized value, then clearing, leaves
a size within the bound. -/
theorem RdbPassword_size_within_bound_witness :
    passwordEmpty.size_ = 0
      ∧ (RdbPassword.run 8
          [RdbPassword.Call.SetValue (some [7, 8, 9]) 3,
           RdbPassword.Call.SetValue (some [1, 2, 3, 4, 5, 6, 7, 8, 9]) 9,
           RdbPassword.Call.Clear] passwordEmpty).GetSize ≤ 8 :=
  ⟨rfl, (RdbPassword_size_within_bound 8 passwordEmpty
    [RdbPassword.Call.SetValue (some [7, 8, 9]) 3,
     RdbPassword.Call.SetValue (some [1, 2, 3, 4, 5, 6, 7, 8, 9]) 9,
     RdbPassword.Call.Clear] rfl).1⟩

/-- C19: for an `RdbPassword` holding `s` bytes in its buffer of
`MAX_PASSWORD_SIZE` bytes, every successful `SetValue(data, n)` with `n < s`
(`Clear` included, where `n = 0`) leaves the sentinel `UCHAR_MAX` in every
buffer byte at an index `i` with `n <= i < s`. -/
theorem RdbPassword_shrink_wipes (MAX : Nat) (p : RdbPassword) (inputData : Option (List Nat))
    (n : Nat) (hsize : p.size_ ≤ MAX) (hbuffer : p.data_.length = MAX) (hn : n < p.size_)
    (hcover : coversInput inputData n) :
    (RdbPassword.SetValue MAX p inputData n).1 = E_OK
      ∧ (∀ i, n ≤ i → i < p.size_ →
          (RdbPassword.SetValue MAX p inputData n).2.GetData[i]? = some UCHAR_MAX)
      ∧ (n = 0 → RdbPassword.Clear MAX p = RdbPassword.SetValue MAX p inputData n) := by
  have h1 : ¬ n > MAX := by omega
  have h2 : ¬ (n ≠ 0 ∧ inputData = none) := by
    intro h
    rw [h.2] at hcover
    exact h.1 hcover
  have hmin : min p.size_ MAX = p.size_ := Nat.min_eq_left hsize
  refine ⟨?_, ?_, ?_⟩
  · unfold RdbPassword.SetValue
    simp [h1, h2]
  · intro i hi1 hi2
    unfold RdbPassword.SetValue
    simp only [h1, h2, if_false, RdbPassword.GetData, hmin, hn, if_true, RdbPassword.fill]
    have hlen : (if n ≠ 0 then RdbPassword.copy (inputData.getD []) n p.data_
        else p.data_).length = MAX := by
      split_ifs with hz
      · have hc : n ≤ (inputData.getD []).length := by
          cases inputData with
          | none => exact absurd hcover hz
          | some bytes => simpa [coversInput] using hcover
        simp [RdbPassword.copy, List.length_take, Nat.min_eq_left hc]
        omega
      · exact hbuffer
    generalize (if n ≠ 0 then RdbPassword.copy (inputData.getD []) n p.data_ else p.data_)
      = data at hlen
    have htake : (data.take n).length = n := by
      rw [List.length_take]
      omega
    rw [List.append_assoc, List.getElem?_append_right (by omega), htake,
      List.getElem?_append_left (by simp; omega)]
    simp [List.getElem?_replicate]
    omega
  · intro hz
    subst hz
    unfold RdbPassword.Clear RdbPassword.SetValue
    simp

/-- The witness of C19: a password of 8 bytes at most holding `1, 2, 3, 4` is
set to the single byte `9`; the buffer bytes at the indices 1, 2 and 3, which
held `2, 3, 4`, are `UCHAR_MAX` afterwards. -/
theorem RdbPassword_shrink_wipes_witness :
    passwordOf4.size_ ≤ 8 ∧ passwordOf4.data_.length = 8 ∧ 1 < passwordOf4.size_
      ∧ coversInput (some [9]) 1
      ∧ ∀ i, 1 ≤ i → i < passwordOf4.size_ →
          (RdbPassword.SetValue 8 passwordOf4 (some [9]) 1).2.GetData[i]? = some UCHAR_MAX :=
  ⟨by decide, rfl, by decide, by unfold coversInput; decide,
    (RdbPassword_shrink_wipes 8 passwordOf4 (some [9]) 1 (by decide) rfl (by decide)
      (by unfold coversInput; decide)).2.1⟩

/-! ### The key file -/

theorem LoadSecretKeyFromDisk_createTime_reads (content : List Nat) (k : Nat) :
    ∀ (iter : Nat) (createTime mid post : List Nat),
      content.drop iter = mid ++ post → mid.length = k →
      RdbSecurityManager.LoadSecretKeyFromDisk.createTime content k iter createTime
        = some (createTime ++ mid, iter + k) := by
  induction k with
  | zero =>
    intro iter createTime mid post _ hlen
    have : mid = [] := List.length_eq_zero.mp hlen
    simp [RdbSecurityManager.LoadSecretKeyFromDisk.createTime, this]
  | succ k ih =>
    intro iter createTime mid post hdrop hlen
    cases mid with
    | nil => simp at hlen
    | cons byte rest =>
      have hget : content[iter]? = some byte := by
        have h := congrArg (fun l => l[0]?) hdrop
        simpa using h
      have hdrop2 : content.drop (iter + 1) = rest ++ post := by
        have h := congrArg (fun l => l.drop 1) hdrop
        simpa [Nat.add_comm] using h
      simp only [RdbSecurityManager.LoadSecretKeyFromDisk.createTime, hget]
      rw [ih (iter + 1) (createTime ++ [byte]) rest post hdrop2 (by simpa using hlen)]
      simp [Nat.add_assoc, Nat.add_comm 1 k]

/-- C20: for every key record (distributed flag `d`, creation time `t`,
encrypted key bytes `k`) whose creation time the byte representation of
`time_t` renders in `sizeof(time_t)` bytes and reads back, the buffer that
`SaveSecretKeyToDisk` hands to the file is the one byte `d`, then the
`sizeof(time_t)` bytes of `t`, then the bytes of `k`, of total length
`1 + sizeof(time_t) + |k|`; and `LoadSecretKeyFromDisk`, reading that buffer
into a fresh record, returns true with `distributed = d`, `timeValue = t` and
`secretKey = k`. -/
theorem key_file_round_trip (tb : TimeBytes) (keyData fresh : RdbSecretKeyData) (path : String)
    (hlen : (tb.toBytes keyData.timeValue).length = tb.sizeofTimeT)
    (hread : tb.ofBytes (tb.toBytes keyData.timeValue) = keyData.timeValue)
    (hfresh : fresh.secretKey = []) :
    RdbSecurityManager.SaveSecretKeyToDisk.buffer tb keyData
        = [keyData.distributed] ++ tb.toBytes keyData.timeValue ++ keyData.secretKey
      ∧ (RdbSecurityManager.SaveSecretKeyToDisk.buffer tb keyData).length
        = 1 + tb.sizeofTimeT + keyData.secretKey.length
      ∧ (∀ saveBufferToFile : String → List Nat → Bool,
          RdbSecurityManager.SaveSecretKeyToDisk tb saveBufferToFile path keyData
            = saveBufferToFile path (RdbSecurityManager.SaveSecretKeyToDisk.buffer tb keyData))
      ∧ RdbSecurityManager.LoadSecretKeyFromDisk tb
          (fun _ => (true, RdbSecurityManager.SaveSecretKeyToDisk.buffer tb keyData)) path fresh
        = some (true, keyData) := by
  have hbuf : RdbSecurityManager.SaveSecretKeyToDisk.buffer tb keyData
      = [keyData.distributed] ++ tb.toBytes keyData.timeValue ++ keyData.secretKey := by
    simp [RdbSecurityManager.SaveSecretKeyToDisk.buffer, TransferTypeToByteArray_uint8]
  refine ⟨hbuf, ?_, ?_, ?_⟩
  · rw [hbuf]
    simp [hlen]
    omega
  · intro saveBufferToFile
    unfold RdbSecurityManager.SaveSecretKeyToDisk
    simp only
    cases h : saveBufferToFile path (RdbSecurityManager.SaveSecretKeyToDisk.buffer tb keyData) <;>
      simp
  · have hloop := LoadSecretKeyFromDisk_createTime_reads
      (RdbSecurityManager.SaveSecretKeyToDisk.buffer tb keyData) tb.sizeofTimeT 1 []
      (tb.toBytes keyData.timeValue) keyData.secretKey (by simp [hbuf]) hlen
    unfold RdbSecurityManager.LoadSecretKeyFromDisk
    simp only [hloop]
    simp [hbuf, TransferByteArrayToType_uint8, hread, hfresh, hlen, Nat.add_comm]

/-- The witness of C20: with a `time_t` of 8 bytes, least significant byte
first, the record created at second 1700000000 with the key bytes
`10, 20, 30, 40` is written as 13 bytes and read back unchanged. -/
theorem key_file_round_trip_witness :
    (TimeBytes.littleEndian8.toBytes keyRecord.timeValue).length
        = TimeBytes.littleEndian8.sizeofTimeT
      ∧ TimeBytes.littleEndian8.ofBytes (TimeBytes.littleEndian8.toBytes keyRecord.timeValue)
        = keyRecord.timeValue
      ∧ (RdbSecurityManager.SaveSecretKeyToDisk.buffer TimeBytes.littleEndian8 keyRecord).length
        = 1 + TimeBytes.littleEndian8.sizeofTimeT + keyRecord.secretKey.length
      ∧ RdbSecurityManager.LoadSecretKeyFromDisk TimeBytes.littleEndian8
          (fun _ => (true,
            RdbSecurityManager.SaveSecretKeyToDisk.buffer TimeBytes.littleEndian8 keyRecord))
          "/data/key/rdb.pub_key" freshKeyRecord
        = some (true, keyRecord) :=
  ⟨by decide, by decide,
    (key_file_round_trip TimeBytes.littleEndian8 keyRecord freshKeyRecord
      "/data/key/rdb.pub_key" (by decide) (by decide) rfl).2.1,
    (key_file_round_trip TimeBytes.littleEndian8 keyRecord freshKeyRecord
      "/data/key/rdb.pub_key" (by decide) (by decide) rfl).2.2.2⟩

/-! ### The connection handed out by `BeginExecuteSql` -/

/-- What `BeginExecuteSql` appends to the trace leaves exactly the connection
in its output pointer held when it returns `E_OK`, and none held otherwise. -/
theorem BeginExecuteSql_held (env : Env) (sql : String) (out : Option SqliteConnection)
    (s : RdbStoreImpl) :
    ∃ new, (RdbStoreImpl.BeginExecuteSql env sql out s).2.2.log = s.log ++ new
      ∧ ((RdbStoreImpl.BeginExecuteSql env sql out s).1 = E_OK →
          ∃ c, (RdbStoreImpl.BeginExecuteSql env sql out s).2.1 = some c
            ∧ heldConnections new [] = [c])
      ∧ ((RdbStoreImpl.BeginExecuteSql env sql out s).1 ≠ E_OK →
          heldConnections new [] = []) := by
  have e0 : E_OK = 0 := rfl
  have e1 : E_TRANSACTION_IN_EXECUTE ≠ 0 := by decide
  have e2 : E_CON_OVER_LIMIT ≠ 0 := by decide
  have e3 : E_EXECUTE_WRITE_IN_READ_CONNECTION ≠ 0 := by decide
  unfold RdbStoreImpl.BeginExecuteSql
  simp only [SqliteConnectionPool.AcquireConnection, SqliteConnection.Prepare,
    SqliteConnectionPool.ReleaseConnection, e0]
  by_cases h1 : env.isSpecial (env.getSqlStatementType sql) = true
  · exact ⟨[], by simp [h1, e1, heldConnections]⟩
  · simp only [h1, if_false]
    generalize env.isSqlReadOnly (env.getSqlStatementType sql) = ro
    cases hc : env.acquireConnection s.log ro with
    | none =>
      exact ⟨[Event.acquireConnection ro none], by simp [e2, heldConnections]⟩
    | some c =>
      simp only []
      generalize env.prepare (s.log ++ [Event.acquireConnection ro (some c)]) c sql false = p
      obtain ⟨code, ro2⟩ := p
      simp only []
      by_cases h2 : code = 0
      · subst h2
        simp only [ne_eq, not_true_eq_false, if_false]
        by_cases h3 : ro2 = c.IsWriteConnection
        · simp only [if_pos h3]
          generalize env.acquireConnection (s.log ++ [Event.acquireConnection ro (some c)]
            ++ [Event.exec ConnOp.Prepare c sql [] 0] ++ [Event.releaseConnection c]) ro2 = a2
          cases a2 with
          | none =>
            exact ⟨[Event.acquireConnection ro (some c), Event.exec ConnOp.Prepare c sql [] 0,
              Event.releaseConnection c, Event.acquireConnection ro2 none],
              by simp [e2, heldConnections]⟩
          | some c2 =>
            simp only []
            by_cases h4 : (!ro2 && !c2.IsWriteConnection) = true
            · exact ⟨[Event.acquireConnection ro (some c), Event.exec ConnOp.Prepare c sql [] 0,
                Event.releaseConnection c, Event.acquireConnection ro2 (some c2),
                Event.releaseConnection c2], by simp [h4, e3, heldConnections]⟩
            · exact ⟨[Event.acquireConnection ro (some c), Event.exec ConnOp.Prepare c sql [] 0,
                Event.releaseConnection c, Event.acquireConnection ro2 (some c2)],
                by simp [h4, heldConnections]⟩
        · exact ⟨[Event.acquireConnection ro (some c), Event.exec ConnOp.Prepare c sql [] 0],
            by simp [h3, heldConnections]⟩
      · exact ⟨[Event.acquireConnection ro (some c), Event.exec ConnOp.Prepare c sql [] code,
          Event.releaseConnection c], by simp [h2, heldConnections]⟩

/-- C24: for every SQL text and every behaviour of the pool and of `Prepare`,
`BeginExecuteSql` either returns `E_OK` having acquired one connection more
than it released, with that one connection, the only one it still holds, in
its output pointer; or it returns a code other than `E_OK` having released
every connection it acquired, holding none. -/
theorem BeginExecuteSql_holds_one_or_none (env : Env) (sql : String)
    (out : Option SqliteConnection) (s : RdbStoreImpl) :
    ((RdbStoreImpl.BeginExecuteSql env sql out s).1 = E_OK
        ∧ acquiredConnections (RdbStoreImpl.BeginExecuteSql env sql out s).2.2.log
            + releasedConnections s.log
          = acquiredConnections s.log
            + releasedConnections (RdbStoreImpl.BeginExecuteSql env sql out s).2.2.log + 1
        ∧ ∃ c new, (RdbStoreImpl.BeginExecuteSql env sql out s).2.1 = some c
            ∧ (RdbStoreImpl.BeginExecuteSql env sql out s).2.2.log = s.log ++ new
            ∧ heldConnections new [] = [c])
      ∨ ((RdbStoreImpl.BeginExecuteSql env sql out s).1 ≠ E_OK
        ∧ acquiredConnections (RdbStoreImpl.BeginExecuteSql env sql out s).2.2.log
            + releasedConnections s.log
          = acquiredConnections s.log
            + releasedConnections (RdbStoreImpl.BeginExecuteSql env sql out s).2.2.log
        ∧ ∃ new, (RdbStoreImpl.BeginExecuteSql env sql out s).2.2.log = s.log ++ new
            ∧ heldConnections new [] = []) := by
  have hbal := BeginExecuteSql_connection_balance env sql out s
  obtain ⟨new, hnew, hok, hfail⟩ := BeginExecuteSql_held env sql out s
  by_cases h : (RdbStoreImpl.BeginExecuteSql env sql out s).1 = E_OK
  · left
    rw [if_pos h] at hbal
    obtain ⟨c, hc, hheld⟩ := hok h
    exact ⟨h, hbal, c, new, hc, hnew, hheld⟩
  · right
    rw [if_neg h] at hbal
    exact ⟨h, by omega, new, hnew, hfail h⟩

/-- C25: whenever `BeginExecuteSql` returns `E_OK` for a statement that
`Prepare` classified as not read-only, the connection in its output pointer
is a write connection; and when the first connection is a read connection and
the connection acquired again for such a statement is not writable either, the
result is `E_EXECUTE_WRITE_IN_READ_CONNECTION`. -/
theorem BeginExecuteSql_write_statement_gets_write_connection (env : Env) (sql : String)
    (out : Option SqliteConnection) (s : RdbStoreImpl)
    (hclass : ∀ c, env.acquireConnection s.log
        (env.isSqlReadOnly (env.getSqlStatementType sql)) = some c →
      (env.prepare (s.log ++ [Event.acquireConnection
        (env.isSqlReadOnly (env.getSqlStatementType sql)) (some c)]) c sql false).2 = false) :
    ((RdbStoreImpl.BeginExecuteSql env sql out s).1 = E_OK →
        ∃ c, (RdbStoreImpl.BeginExecuteSql env sql out s).2.1 = some c
          ∧ c.IsWriteConnection = true)
      ∧ (∀ c c2, env.isSpecial (env.getSqlStatementType sql) = false →
          env.acquireConnection s.log (env.isSqlReadOnly (env.getSqlStatementType sql))
            = some c →
          (env.prepare (s.log ++ [Event.acquireConnection
            (env.isSqlReadOnly (env.getSqlStatementType sql)) (some c)]) c sql false).1 = 0 →
          c.IsWriteConnection = false →
          env.acquireConnection (s.log ++ [Event.acquireConnection
              (env.isSqlReadOnly (env.getSqlStatementType sql)) (some c)]
            ++ [Event.exec ConnOp.Prepare c sql [] 0] ++ [Event.releaseConnection c]) false
            = some c2 →
          c2.IsWriteConnection = false →
          (RdbStoreImpl.BeginExecuteSql env sql out s).1
            = E_EXECUTE_WRITE_IN_READ_CONNECTION) := by
  have e0 : E_OK = 0 := rfl
  have e1 : E_TRANSACTION_IN_EXECUTE ≠ 0 := by decide
  have e2 : E_CON_OVER_LIMIT ≠ 0 := by decide
  have e3 : E_EXECUTE_WRITE_IN_READ_CONNECTION ≠ 0 := by decide
  refine ⟨?_, ?_⟩
  · unfold RdbStoreImpl.BeginExecuteSql
    simp only [SqliteConnectionPool.AcquireConnection, SqliteConnection.Prepare,
      SqliteConnectionPool.ReleaseConnection, e0]
    by_cases h1 : env.isSpecial (env.getSqlStatementType sql) = true
    · simp [h1, e1]
    · simp only [h1, if_false]
      generalize env.isSqlReadOnly (env.getSqlStatementType sql) = ro at hclass ⊢
      cases hc : env.acquireConnection s.log ro with
      | none => simp [e2]
      | some c =>
        have hro := hclass c hc
        simp only []
        generalize env.prepare (s.log ++ [Event.acquireConnection ro (some c)]) c sql false = p
          at hro ⊢
        obtain ⟨code, ro2⟩ := p
        simp only [] at hro
        subst hro
        simp only []
        by_cases h2 : code = 0
        · subst h2
          simp only [ne_eq, not_true_eq_false, if_false]
          by_cases h3 : false = c.IsWriteConnection
          · simp only [if_pos h3]
            generalize env.acquireConnection (s.log ++ [Event.acquireConnection ro (some c)]
              ++ [Event.exec ConnOp.Prepare c sql [] 0] ++ [Event.releaseConnection c]) false = a2
            cases a2 with
            | none => simp [e2]
            | some c2 =>
              simp only []
              by_cases h4 : c2.IsWriteConnection = true
              · simp [h4]
              · simp [h4, e3]
          · simp only [if_neg h3]
            have h5 : c.IsWriteConnection = true := by
              cases hw : c.IsWriteConnection
              · exact absurd hw.symm h3
              · rfl
            simp [h5]
        · simp [h2]
  · intro c c2 hsp hc hp hw ha2 hw2
    have hro := hclass c hc
    unfold RdbStoreImpl.BeginExecuteSql
    simp only [SqliteConnectionPool.AcquireConnection, SqliteConnection.Prepare,
      SqliteConnectionPool.ReleaseConnection, e0]
    generalize env.isSqlReadOnly (env.getSqlStatementType sql) = ro at hc hp hro ha2 ⊢
    simp only [hsp, Bool.false_eq_true, if_false, hc]
    generalize env.prepare (s.log ++ [Event.acquireConnection ro (some c)]) c sql false = p
      at hp hro ha2 ⊢
    obtain ⟨code, ro2⟩ := p
    simp only [] at hp hro
    subst hp
    subst hro
    simp only [ne_eq, not_true_eq_false, if_false, hw, if_true, ha2, hw2, Bool.false_eq_true]
    simp

/-- The witness of C25: the statement is assumed read-only and `Prepare`
classifies it as a write.  With a pool that hands out the read connection first
and the write connection afterwards the call returns `E_OK` with a write
connection; with a pool that only has the read connection it returns
`E_EXECUTE_WRITE_IN_READ_CONNECTION`. -/
theorem BeginExecuteSql_write_statement_gets_write_connection_witness :
    (RdbStoreImpl.BeginExecuteSql Env.readFirst "INSERT INTO t VALUES (1)" none
        RdbStoreImpl.idle).1 = E_OK
      ∧ (∃ c, (RdbStoreImpl.BeginExecuteSql Env.readFirst "INSERT INTO t VALUES (1)" none
            RdbStoreImpl.idle).2.1 = some c ∧ c.IsWriteConnection = true)
      ∧ (RdbStoreImpl.BeginExecuteSql Env.readOnlyPool "INSERT INTO t VALUES (1)" none
          RdbStoreImpl.idle).1 = E_EXECUTE_WRITE_IN_READ_CONNECTION :=
  ⟨by decide,
    (BeginExecuteSql_write_statement_gets_write_connection Env.readFirst
      "INSERT INTO t VALUES (1)" none RdbStoreImpl.idle (fun _ _ => rfl)).1 (by decide),
    (BeginExecuteSql_write_statement_gets_write_connection Env.readOnlyPool
      "INSERT INTO t VALUES (1)" none RdbStoreImpl.idle (fun _ _ => rfl)).2
      { id := 1, isWriteConnection := false } { id := 1, isWriteConnection := false }
      rfl rfl rfl rfl rfl rfl⟩

/-! ### `RollBack` without a connection -/

theorem setTopFlag_length (flag : Bool) (stack : List BaseTransaction) :
    (setTopFlag flag stack).length = stack.length := by
  cases stack <;> simp [setTopFlag]

/-- C26, evaluated on the code: on a stack `d :: rest`, when the pool has no
connection to give, `RollBack` returns `E_CON_OVER_LIMIT`, yet the stack has
lost the descriptor `d`, and when `d` is not a self-rollback the descriptor
below it has its `childFailure` flag set: the stack is not the one before the
call. -/
theorem RollBack_without_connection_changes_stack (env : Env) (s : RdbStoreImpl)
    (d : BaseTransaction) (rest : List BaseTransaction)
    (hstack : s.transactionStack = d :: rest)
    (hconn : env.acquireConnection s.log false = none) :
    (RdbStoreImpl.RollBack env s).1 = E_CON_OVER_LIMIT
      ∧ (RdbStoreImpl.RollBack env s).2.transactionStack
          = (if d.type ≠ TransType.ROLLBACK_SELF then setTopFlag true rest else rest)
      ∧ (RdbStoreImpl.RollBack env s).2.transactionStack.length + 1
          = s.transactionStack.length
      ∧ (RdbStoreImpl.RollBack env s).2.transactionStack ≠ s.transactionStack := by
  have hafter := RollBack_stack env s d rest hstack
  have hlen : (RdbStoreImpl.RollBack env s).2.transactionStack.length + 1
      = s.transactionStack.length := by
    rw [hafter, hstack]
    by_cases hd : d.type = TransType.ROLLBACK_SELF
    · simp [hd]
    · simp [hd, setTopFlag_length]
  refine ⟨?_, hafter, hlen, ?_⟩
  · unfold RdbStoreImpl.RollBack
    rw [hstack]
    by_cases hd : d.type = TransType.ROLLBACK_SELF <;>
    cases rest <;>
      simp [SqliteConnectionPool.popTransaction, SqliteConnectionPool.setTopChildFailure,
        SqliteConnectionPool.AcquireConnection, BaseTransaction.GetType, hstack, hconn, hd]
  · intro heq
    rw [heq] at hlen
    omega

/-- The witness of C26: with the savepoint of depth 1 on top of the outer
descriptor and a pool that has no connection to give, `RollBack` returns
`E_CON_OVER_LIMIT` and leaves only the outer descriptor, with its
`childFailure` flag set. -/
theorem RollBack_without_connection_changes_stack_witness :
    (RdbStoreImpl.RollBack Env.noConnection RdbStoreImpl.nested).1 = E_CON_OVER_LIMIT
      ∧ RdbStoreImpl.nested.transactionStack
          = [{ type := TransType.SAVEPOINT_BEGIN, id := 1, childFailure := false },
             { type := TransType.EXCLUSIVE_BEGIN, id := 0, childFailure := false }]
      ∧ (RdbStoreImpl.RollBack Env.noConnection RdbStoreImpl.nested).2.transactionStack
          = [{ type := TransType.EXCLUSIVE_BEGIN, id := 0, childFailure := true }]
      ∧ (RdbStoreImpl.RollBack Env.noConnection RdbStoreImpl.nested).2.transactionStack
          ≠ RdbStoreImpl.nested.transactionStack :=
  ⟨(RollBack_without_connection_changes_stack Env.noConnection RdbStoreImpl.nested
      { type := TransType.SAVEPOINT_BEGIN, id := 1, childFailure := false }
      [{ type := TransType.EXCLUSIVE_BEGIN, id := 0, childFailure := false }] rfl rfl).1,
    rfl,
    by decide,
    (RollBack_without_connection_changes_stack Env.noConnection RdbStoreImpl.nested
      { type := TransType.SAVEPOINT_BEGIN, id := 1, childFailure := false }
      [{ type := TransType.EXCLUSIVE_BEGIN, id := 0, childFailure := false }] rfl rfl).2.2.2⟩

/-! ### The key store calls -/

/-- C21: whenever `DecryptWorkKey` returns false, the vector `key` is the one
before the call, and it does return false with `key` untouched when building
the parameter set fails or when the tag copy or the decryption in the key store
fails; and whenever a step of `EncryptWorkKey` fails (`HksInitParamSet`,
`HksAddParams`, `HksBuildParamSet` or the encryption in the key store), it
returns the empty vector. -/
theorem DecryptWorkKey_failure_keeps_key (hks : Hks) (source key : List Nat) :
    (∀ key', RdbSecurityManager.DecryptWorkKey hks source key = some (false, key') → key' = key)
      ∧ (hks.HksInitParamSet ≠ hks.HKS_SUCCESS ∨ hks.HksAddParams ≠ hks.HKS_SUCCESS
            ∨ hks.HksBuildParamSet ≠ hks.HKS_SUCCESS →
          RdbSecurityManager.DecryptWorkKey hks source key = some (false, key))
      ∧ (∀ tag, hks.HksInitParamSet = hks.HKS_SUCCESS → hks.HksAddParams = hks.HKS_SUCCESS →
          hks.HksBuildParamSet = hks.HKS_SUCCESS →
          RdbSecurityManager.DecryptWorkKey.copyTag hks source = some (false, tag) →
          RdbSecurityManager.DecryptWorkKey hks source key = some (false, key))
      ∧ (∀ tag, hks.HksInitParamSet = hks.HKS_SUCCESS → hks.HksAddParams = hks.HKS_SUCCESS →
          hks.HksBuildParamSet = hks.HKS_SUCCESS →
          RdbSecurityManager.DecryptWorkKey.copyTag hks source = some (true, tag) →
          RdbSecurityManager.DecryptWorkKey.size hks source ≤ source.length →
          (hks.HksDecryptThreeStage
            (source.take (RdbSecurityManager.DecryptWorkKey.size hks source)) tag).1
              ≠ hks.HKS_SUCCESS →
          RdbSecurityManager.DecryptWorkKey hks source key = some (false, key))
      ∧ (hks.HksInitParamSet ≠ hks.HKS_SUCCESS ∨ hks.HksAddParams ≠ hks.HKS_SUCCESS
            ∨ hks.HksBuildParamSet ≠ hks.HKS_SUCCESS
            ∨ (hks.HksEncryptThreeStage key).1 ≠ hks.HKS_SUCCESS →
          RdbSecurityManager.EncryptWorkKey hks key = []) := by
  refine ⟨?_, ?_, ?_, ?_, ?_⟩
  · intro key' h
    unfold RdbSecurityManager.DecryptWorkKey at h
    simp only [] at h
    by_cases h1 : hks.HksInitParamSet = hks.HKS_SUCCESS
    · by_cases h2 : hks.HksAddParams = hks.HKS_SUCCESS
      · by_cases h3 : hks.HksBuildParamSet = hks.HKS_SUCCESS
        · simp only [h1, h2, h3, ne_eq, not_true_eq_false, if_false] at h
          generalize RdbSecurityManager.DecryptWorkKey.copyTag hks source = r at h
          rcases r with _ | ⟨b, tag⟩
          · simp at h
          · cases b
            · simp only [Option.some.injEq, Prod.mk.injEq, true_and] at h
              exact h.symm
            · simp only [] at h
              by_cases h4 : RdbSecurityManager.DecryptWorkKey.size hks source > source.length
              · simp [h4] at h
              · simp only [h4, if_false] at h
                split_ifs at h with h5
                · simp at h
                · simp only [Option.some.injEq, Prod.mk.injEq, true_and] at h
                  exact h.symm
        · simp only [h1, h2, h3, ne_eq, not_true_eq_false, if_false, not_false_eq_true, if_true,
            Option.some.injEq, Prod.mk.injEq, true_and] at h
          exact h.symm
      · simp only [h1, h2, ne_eq, not_true_eq_false, if_false, not_false_eq_true, if_true,
          Option.some.injEq, Prod.mk.injEq, true_and] at h
        exact h.symm
    · simp only [h1, ne_eq, not_false_eq_true, if_true, Option.some.injEq, Prod.mk.injEq,
        true_and] at h
      exact h.symm
  · intro h
    unfold RdbSecurityManager.DecryptWorkKey
    simp only []
    by_cases h1 : hks.HksInitParamSet = hks.HKS_SUCCESS
    · by_cases h2 : hks.HksAddParams = hks.HKS_SUCCESS
      · have h3 : hks.HksBuildParamSet ≠ hks.HKS_SUCCESS := by
          rcases h with h | h | h
          · exact absurd h1 h
          · exact absurd h2 h
          · exact h
        simp [h1, h2, h3]
      · simp [h1, h2]
    · simp [h1]
  · intro tag h1 h2 h3 h4
    unfold RdbSecurityManager.DecryptWorkKey
    simp [h1, h2, h3, h4]
  · intro tag h1 h2 h3 h4 h5 h6
    unfold RdbSecurityManager.DecryptWorkKey
    simp only [h1, h2, h3, h4, ne_eq, not_true_eq_false, if_false]
    simp [Nat.not_lt.mpr h5, h6]
  · intro h
    unfold RdbSecurityManager.EncryptWorkKey
    simp only []
    by_cases h1 : hks.HksInitParamSet = hks.HKS_SUCCESS
    · by_cases h2 : hks.HksAddParams = hks.HKS_SUCCESS
      · by_cases h3 : hks.HksBuildParamSet = hks.HKS_SUCCESS
        · have h4 : (hks.HksEncryptThreeStage key).1 ≠ hks.HKS_SUCCESS := by
            rcases h with h | h | h | h
            · exact absurd h1 h
            · exact absurd h2 h
            · exact absurd h3 h
            · exact h
          simp [h1, h2, h3, h4]
        · simp [h1, h2, h3]
      · simp [h1, h2]
    · simp [h1]

/-- The witness of C21: on the twenty bytes of `wrappedKey` and a vector `key`
holding `1, 2, 3`, `DecryptWorkKey` returns false and leaves `key` as it was
both when the decryption in the key store fails and when `HksBuildParamSet`
fails; `EncryptWorkKey` returns the empty vector both when the encryption in
the key store fails and when `HksInitParamSet` fails. -/
theorem DecryptWorkKey_failure_keeps_key_witness :
    RdbSecurityManager.DecryptWorkKey Hks.decryptFails wrappedKey [1, 2, 3]
        = some (false, [1, 2, 3])
      ∧ RdbSecurityManager.DecryptWorkKey Hks.buildFails wrappedKey [1, 2, 3]
        = some (false, [1, 2, 3])
      ∧ RdbSecurityManager.EncryptWorkKey Hks.encryptFails [5, 6] = []
      ∧ RdbSecurityManager.EncryptWorkKey Hks.initFails [5, 6] = [] :=
  ⟨(DecryptWorkKey_failure_keeps_key Hks.decryptFails wrappedKey [1, 2, 3]).2.2.2.1
      (List.replicate 16 7) rfl rfl rfl (by decide) (by decide) (by decide),
    (DecryptWorkKey_failure_keeps_key Hks.buildFails wrappedKey [1, 2, 3]).2.1
      (Or.inr (Or.inr (by decide))),
    (DecryptWorkKey_failure_keeps_key Hks.encryptFails wrappedKey [5, 6]).2.2.2.2
      (Or.inr (Or.inr (Or.inr (by decide)))),
    (DecryptWorkKey_failure_keeps_key Hks.initFails wrappedKey [5, 6]).2.2.2.2
      (Or.inl (by decide))⟩

/-- C27, evaluated on the code: with `HKS_SUCCESS` equal to 0, whenever
`HksInitParamSet`, `HksAddParams` or `HksBuildParamSet` fails,
`CheckRootKeyExists` returns true, although `HksKeyExist` was not reached: the
function returns the non-zero status as its `bool` result.  When the three
calls succeed it returns whether `HksKeyExist` returned `HKS_SUCCESS`. -/
theorem CheckRootKeyExists_true_on_failed_parameter_set (hks : Hks)
    (h0 : hks.HKS_SUCCESS = 0) :
    (hks.HksInitParamSet ≠ hks.HKS_SUCCESS ∨ hks.HksAddParams ≠ hks.HKS_SUCCESS
        ∨ hks.HksBuildParamSet ≠ hks.HKS_SUCCESS →
      RdbSecurityManager.CheckRootKeyExists hks = true)
    ∧ (hks.HksInitParamSet = hks.HKS_SUCCESS → hks.HksAddParams = hks.HKS_SUCCESS →
        hks.HksBuildParamSet = hks.HKS_SUCCESS →
      RdbSecurityManager.CheckRootKeyExists hks = decide (hks.HksKeyExist = hks.HKS_SUCCESS)) := by
  constructor
  · intro h
    unfold RdbSecurityManager.CheckRootKeyExists
    simp only []
    by_cases h1 : hks.HksInitParamSet = hks.HKS_SUCCESS
    · by_cases h2 : hks.HksAddParams = hks.HKS_SUCCESS
      · have h3 : hks.HksBuildParamSet ≠ hks.HKS_SUCCESS := by
          rcases h with h | h | h
          · exact absurd h1 h
          · exact absurd h2 h
          · exact h
        have h4 : hks.HksBuildParamSet ≠ 0 := by rw [← h0]; exact h3
        simp [h1, h2, h3, h4]
      · have h4 : hks.HksAddParams ≠ 0 := by rw [← h0]; exact h2
        simp [h1, h2, h4]
    · have h4 : hks.HksInitParamSet ≠ 0 := by rw [← h0]; exact h1
      simp [h1, h4]
  · intro h1 h2 h3
    unfold RdbSecurityManager.CheckRootKeyExists
    simp [h1, h2, h3]

/-- The witness of C27: `HKS_SUCCESS` is 0; with `HksInitParamSet` returning -1,
and with `HksBuildParamSet` returning -13, `CheckRootKeyExists` returns true. -/
theorem CheckRootKeyExists_true_on_failed_parameter_set_witness :
    Hks.initFails.HKS_SUCCESS = 0
      ∧ Hks.initFails.HksInitParamSet = -1
      ∧ RdbSecurityManager.CheckRootKeyExists Hks.initFails = true
      ∧ Hks.buildFails.HksBuildParamSet = -13
      ∧ RdbSecurityManager.CheckRootKeyExists Hks.buildFails = true :=
  ⟨rfl, rfl,
    (CheckRootKeyExists_true_on_failed_parameter_set Hks.initFails rfl).1
      (Or.inl (by decide)),
    rfl,
    (CheckRootKeyExists_true_on_failed_parameter_set Hks.buildFails rfl).1
      (Or.inr (Or.inr (by decide)))⟩

theorem LoadSecretKeyFromDisk_createTime_past_end (content : List Nat) (k : Nat) :
    ∀ (iter : Nat) (createTime : List Nat),
      iter ≤ content.length → content.length < iter + k →
      RdbSecurityManager.LoadSecretKeyFromDisk.createTime content k iter createTime = none := by
  induction k with
  | zero =>
    intro iter createTime h1 h2
    omega
  | succ k ih =>
    intro iter createTime h1 h2
    cases hget : content[iter]? with
    | none => simp [RdbSecurityManager.LoadSecretKeyFromDisk.createTime, hget]
    | some byte =>
      have hlt : iter < content.length := by
        by_contra hge
        have : content[iter]? = none := List.getElem?_eq_none (by omega)
        rw [this] at hget
        cases hget
      simp only [RdbSecurityManager.LoadSecretKeyFromDisk.createTime, hget]
      exact ih (iter + 1) (createTime ++ [byte]) (by omega) (by omega)

/-- C28, evaluated on the code: when `LoadBufferFromFile` succeeds with a
content that is not empty and shorter than `1 + sizeof(time_t)` bytes,
`LoadSecretKeyFromDisk` dereferences the iterator at the end of the content
instead of returning false; for a content of at least that length every read
is inside the content and the function returns true. -/
theorem LoadSecretKeyFromDisk_reads_past_short_content (tb : TimeBytes)
    (loadBufferFromFile : String → Bool × List Nat) (keyPath : String)
    (keyData : RdbSecretKeyData) (content : List Nat)
    (hload : loadBufferFromFile keyPath = (true, content)) (hne : content ≠ []) :
    (content.length < 1 + tb.sizeofTimeT →
      RdbSecurityManager.LoadSecretKeyFromDisk tb loadBufferFromFile keyPath keyData = none)
    ∧ (1 + tb.sizeofTimeT ≤ content.length →
      ∃ record, RdbSecurityManager.LoadSecretKeyFromDisk tb loadBufferFromFile keyPath keyData
        = some (true, record)) := by
  obtain ⟨first, rest, hcontent⟩ : ∃ first rest, content = first :: rest := by
    cases content with
    | nil => exact absurd rfl hne
    | cons first rest => exact ⟨first, rest, rfl⟩
  constructor
  · intro hshort
    have hpast := LoadSecretKeyFromDisk_createTime_past_end content tb.sizeofTimeT 1 []
      (by rw [hcontent]; simp) (by omega)
    unfold RdbSecurityManager.LoadSecretKeyFromDisk
    simp only [hload]
    rw [hpast]
    simp [hcontent]
  · intro hlong
    have hreads := LoadSecretKeyFromDisk_createTime_reads content tb.sizeofTimeT 1 []
      ((content.drop 1).take tb.sizeofTimeT) ((content.drop 1).drop tb.sizeofTimeT)
      (List.take_append_drop _ _).symm (by simp; omega)
    unfold RdbSecurityManager.LoadSecretKeyFromDisk
    simp only [hload]
    rw [hreads]
    simp [hcontent]

/-- The witness of C28: with a `time_t` of 8 bytes, a key file of one byte and
a key file of eight bytes are read past their end; a key file of nine bytes is
read inside the content. -/
theorem LoadSecretKeyFromDisk_reads_past_short_content_witness :
    RdbSecurityManager.LoadSecretKeyFromDisk TimeBytes.littleEndian8
        (fun _ => (true, [0])) "key_file" freshKeyRecord = none
      ∧ RdbSecurityManager.LoadSecretKeyFromDisk TimeBytes.littleEndian8
        (fun _ => (true, [0, 1, 2, 3, 4, 5, 6, 7])) "key_file" freshKeyRecord = none
      ∧ RdbSecurityManager.LoadSecretKeyFromDisk TimeBytes.littleEndian8
        (fun _ => (true, [0, 1, 0, 0, 0, 0, 0, 0, 0])) "key_file" freshKeyRecord
          = some (true, { distributed := 0, timeValue := 1, secretKey := [] }) :=
  ⟨(LoadSecretKeyFromDisk_reads_past_short_content TimeBytes.littleEndian8
      (fun _ => (true, [0])) "key_file" freshKeyRecord [0] rfl (by decide)).1 (by decide),
    (LoadSecretKeyFromDisk_reads_past_short_content TimeBytes.littleEndian8
      (fun _ => (true, [0, 1, 2, 3, 4, 5, 6, 7])) "key_file" freshKeyRecord
      [0, 1, 2, 3, 4, 5, 6, 7] rfl (by decide)).1 (by decide),
    by decide⟩

/-- C29, evaluated on the code: when the parameter set is built and holds the
tag parameter, and `AEAD_LEN` is positive (and within the bound of `memcpy_s`),
then for every source shorter than `AEAD_LEN` the cipher length wraps to
`source.size() + 2^32 - AEAD_LEN`, which is beyond the end of `source`, and
`DecryptWorkKey` copies the tag from outside `source` instead of returning
false. -/
theorem DecryptWorkKey_short_source_wraps (hks : Hks) (source key : List Nat)
    (hinit : hks.HksInitParamSet = hks.HKS_SUCCESS)
    (hadd : hks.HksAddParams = hks.HKS_SUCCESS)
    (hbuild : hks.HksBuildParamSet = hks.HKS_SUCCESS)
    (htag : hks.HKS_TAG_AE_TAG ∈ hks.paramTags)
    (hmax : hks.AEAD_LEN ≤ SECUREC_MEM_MAX_LEN)
    (hshort : source.length < hks.AEAD_LEN) :
    RdbSecurityManager.DecryptWorkKey.size hks source
        = source.length + 2 ^ 32 - hks.AEAD_LEN
      ∧ source.length < RdbSecurityManager.DecryptWorkKey.size hks source
      ∧ RdbSecurityManager.DecryptWorkKey hks source key = none := by
  unfold SECUREC_MEM_MAX_LEN at hmax
  have hsize : RdbSecurityManager.DecryptWorkKey.size hks source
      = source.length + 2 ^ 32 - hks.AEAD_LEN := by
    unfold RdbSecurityManager.DecryptWorkKey.size
    have e : (2 : Nat) ^ 32 = 4294967296 := by norm_num
    rw [e]
    omega
  have hbeyond : source.length < RdbSecurityManager.DecryptWorkKey.size hks source := by
    rw [hsize]
    have e : (2 : Nat) ^ 32 = 4294967296 := by norm_num
    rw [e]
    omega
  refine ⟨hsize, hbeyond, ?_⟩
  have hcopy : RdbSecurityManager.DecryptWorkKey.copyTag hks source = none := by
    unfold RdbSecurityManager.DecryptWorkKey.copyTag
    have hc : hks.paramTags.contains hks.HKS_TAG_AE_TAG = true := by
      simpa using htag
    simp only [hc, if_true]
    have hdrop : (source.drop (RdbSecurityManager.DecryptWorkKey.size hks source)).length = 0 := by
      rw [List.length_drop]
      omega
    have hm : memcpy_s (List.replicate hks.AEAD_LEN 0) hks.AEAD_LEN
        (source.drop (RdbSecurityManager.DecryptWorkKey.size hks source)) hks.AEAD_LEN
        = none := by
      unfold memcpy_s
      have c1 : ¬ (hks.AEAD_LEN = 0 ∨ hks.AEAD_LEN > SECUREC_MEM_MAX_LEN) := by
        unfold SECUREC_MEM_MAX_LEN
        omega
      have c2 : ¬ (hks.AEAD_LEN > hks.AEAD_LEN) := by omega
      have c3 : ¬ (hks.AEAD_LEN = 0) := by omega
      have c4 : ¬ (hks.AEAD_LEN
            ≤ (source.drop (RdbSecurityManager.DecryptWorkKey.size hks source)).length
          ∧ hks.AEAD_LEN ≤ (List.replicate hks.AEAD_LEN 0).length) := by
        rw [hdrop]
        omega
      rw [if_neg c1, if_neg c2, if_neg c3, if_neg c4]
    rw [hm]
  unfold RdbSecurityManager.DecryptWorkKey
  simp only [hinit, hadd, hbuild, ne_eq, not_true_eq_false, if_false, hcopy]

/-- The witness of C29: with `AEAD_LEN` equal to 16 and every key store call
succeeding, the empty source gives the cipher length 4294967280 and a source of
three bytes gives 4294967283, and in both cases the tag is copied from outside
`source`; on the twenty bytes of `wrappedKey` the cipher length is 4 and the
call returns true with the four plain bytes. -/
theorem DecryptWorkKey_short_source_wraps_witness :
    RdbSecurityManager.DecryptWorkKey.size Hks.allOk [] = 4294967280
      ∧ RdbSecurityManager.DecryptWorkKey Hks.allOk [] [1, 2, 3] = none
      ∧ RdbSecurityManager.DecryptWorkKey.size Hks.allOk [1, 2, 3] = 4294967283
      ∧ RdbSecurityManager.DecryptWorkKey Hks.allOk [1, 2, 3] [1, 2, 3] = none
      ∧ RdbSecurityManager.DecryptWorkKey.size Hks.allOk wrappedKey = 4
      ∧ RdbSecurityManager.DecryptWorkKey Hks.allOk wrappedKey [1, 2, 3]
          = some (true, [10, 20, 30, 40]) :=
  ⟨(DecryptWorkKey_short_source_wraps Hks.allOk [] [1, 2, 3] rfl rfl rfl (by decide)
      (by decide) (by decide)).1,
    (DecryptWorkKey_short_source_wraps Hks.allOk [] [1, 2, 3] rfl rfl rfl (by decide)
      (by decide) (by decide)).2.2,
    (DecryptWorkKey_short_source_wraps Hks.allOk [1, 2, 3] [1, 2, 3] rfl rfl rfl (by decide)
      (by decide) (by decide)).1,
    (DecryptWorkKey_short_source_wraps Hks.allOk [1, 2, 3] [1, 2, 3] rfl rfl rfl (by decide)
      (by decide) (by decide)).2.2,
    by decide, by decide⟩

/-! ### The NDK entry points -/

theorem size_t_of_int_length (n : Nat) (h : n ≤ SECUREC_MEM_MAX_LEN) :
    size_t_of_int (n : Int) = n := by
  unfold size_t_of_int
  unfold SECUREC_MEM_MAX_LEN at h
  have h1 : (n : Int) % 2 ^ 64 = (n : Int) := by
    apply Int.emod_eq_of_lt
    · omega
    · have : (2 : Int) ^ 64 = 18446744073709551616 := by norm_num
      rw [this]
      omega
  rw [h1]
  simp

/-- C22, evaluated on the code: for a valid cursor whose column holds the text
`s` and a caller buffer of length `L` above the length of `s` (and within the
bound of `memcpy_s`), `Rdb_GetText` returns `E_OK` and leaves in the buffer the
bytes of `s` followed by the bytes the buffer held before from position `|s|`
on: byte `|s|` is not set to 0, it keeps the value it had. -/
theorem Rdb_GetText_keeps_byte_after_text (k : NdkConstants) (cursor : OH_Cursor)
    (columnIndex : Int) (s buffer : List Nat)
    (hid : cursor.id = k.RDB_CURSOR_CID)
    (hget : cursor.GetString columnIndex = (E_OK, s))
    (hlen : s.length < buffer.length)
    (hmax : buffer.length ≤ SECUREC_MEM_MAX_LEN) :
    Rdb_GetText k (some cursor) columnIndex (some buffer) buffer.length
        = some (E_OK, some (s ++ buffer.drop s.length))
      ∧ (s ++ buffer.drop s.length)[s.length]? = buffer[s.length]? := by
  constructor
  · unfold Rdb_GetText
    simp only [hid, ne_eq, not_true_eq_false, if_false, hget, size_t_of_int_length _ hmax]
    unfold memcpy_s
    have h1 : ¬ (buffer.length = 0 ∨ buffer.length > SECUREC_MEM_MAX_LEN) := by omega
    have h2 : ¬ (s.length > buffer.length) := by omega
    simp only [h1, h2, if_false]
    by_cases h3 : s.length = 0
    · have h4 : s = [] := List.length_eq_zero.mp h3
      subst h4
      simp [EOK]
    · have h5 : s.length ≤ s.length ∧ s.length ≤ buffer.length := ⟨le_refl _, by omega⟩
      simp [h3, h5, EOK]
  · rw [List.getElem?_append_right (le_refl _)]
    simp

/-- The witness of C22: the column holds `liSi` and the caller's buffer of five
bytes holds the byte 120 everywhere; after `Rdb_GetText` with length 5 the
buffer holds `liSi` followed by the byte 120, not by 0. -/
theorem Rdb_GetText_keeps_byte_after_text_witness :
    Rdb_GetText NdkConstants.sample (some OH_Cursor.liSi) 1
        (some [120, 120, 120, 120, 120]) 5
        = some (E_OK, some [108, 105, 83, 105, 120])
      ∧ ([108, 105, 83, 105, 120] : List Nat)[4]? = some 120
      ∧ (textLiSi ++ ([120, 120, 120, 120, 120] : List Nat).drop textLiSi.length)[textLiSi.length]?
          = ([120, 120, 120, 120, 120] : List Nat)[textLiSi.length]? :=
  ⟨(Rdb_GetText_keeps_byte_after_text NdkConstants.sample OH_Cursor.liSi 1 textLiSi
      [120, 120, 120, 120, 120] rfl rfl (by decide) (by decide)).1,
    by decide,
    (Rdb_GetText_keeps_byte_after_text NdkConstants.sample OH_Cursor.liSi 1 textLiSi
      [120, 120, 120, 120, 120] rfl rfl (by decide) (by decide)).2⟩

/-- C23: `OH_Rdb_CreatePredicates` returns the null handle for a null table
name, and for every table name that is not null it returns a handle that is
not null, to the object that the constructor `PredicateImpl(table)` creates
for that table. -/
theorem OH_Rdb_CreatePredicates_null_only_for_null_table
    (newPredicateImpl : String → PredicateImpl) :
    OH_Rdb_CreatePredicates newPredicateImpl none = none
      ∧ (∀ table : String,
          OH_Rdb_CreatePredicates newPredicateImpl (some table) ≠ none
            ∧ OH_Rdb_CreatePredicates newPredicateImpl (some table)
              = some (newPredicateImpl table))
      ∧ (∀ table : Option String,
          OH_Rdb_CreatePredicates newPredicateImpl table = none ↔ table = none) := by
  refine ⟨rfl, fun table => ⟨by simp [OH_Rdb_CreatePredicates], rfl⟩, fun table => ?_⟩
  cases table <;> simp [OH_Rdb_CreatePredicates]

/-- On a handle that is not null and whose `id` is not `RDB_PREDICATES_CID`,
every builder returns the object as it was. -/
theorem Rdb_Predicates_wrong_id_unchanged (k : NdkConstants) (p : PredicateImpl)
    (h : p.id ≠ k.RDB_PREDICATES_CID)
    (field : Option String) (valueObject : Option (List String)) (type : OH_OrderType)
    (value : Nat) (fields : Option (List String)) (length : Int) :
    Rdb_Predicates_EqualTo k (some p) field valueObject = some p
      ∧ Rdb_Predicates_NotEqualTo k (some p) field valueObject = some p
      ∧ Rdb_Predicates_BeginWrap k (some p) = some p
      ∧ Rdb_Predicates_EndWrap k (some p) = some p
      ∧ Rdb_Predicates_Or k (some p) = some p
      ∧ Rdb_Predicates_And k (some p) = some p
      ∧ Rdb_Predicates_IsNull k (some p) field = some p
      ∧ Rdb_Predicates_IsNotNull k (some p) field = some p
      ∧ Rdb_Predicates_Like k (some p) field valueObject = some p
      ∧ Rdb_Predicates_Between k (some p) field valueObject = some p
      ∧ Rdb_Predicates_NotBetween k (some p) field valueObject = some p
      ∧ Rdb_Predicates_GreaterThan k (some p) field valueObject = some p
      ∧ Rdb_Predicates_LessThan k (some p) field valueObject = some p
      ∧ Rdb_Predicates_GreaterThanOrEqualTo k (some p) field valueObject = some p
      ∧ Rdb_Predicates_LessThanOrEqualTo k (some p) field valueObject = some p
      ∧ Rdb_Predicates_OrderBy k (some p) field type = some p
      ∧ Rdb_Predicates_Distinct k (some p) = some p
      ∧ Rdb_Predicates_Limit k (some p) value = some p
      ∧ Rdb_Predicates_Offset k (some p) value = some p
      ∧ Rdb_Predicates_GroupBy k (some p) fields length = some p
      ∧ Rdb_Predicates_In k (some p) field valueObject = some p
      ∧ Rdb_Predicates_NotIn k (some p) field valueObject = some p
      ∧ Rdb_Predicates_Clear k (some p) = some p :=
  ⟨by cases field <;> cases valueObject <;> simp [Rdb_Predicates_EqualTo, h],
    by cases field <;> cases valueObject <;> simp [Rdb_Predicates_NotEqualTo, h],
    by simp [Rdb_Predicates_BeginWrap, h],
    by simp [Rdb_Predicates_EndWrap, h],
    by simp [Rdb_Predicates_Or, h],
    by simp [Rdb_Predicates_And, h],
    by cases field <;> simp [Rdb_Predicates_IsNull, h],
    by cases field <;> simp [Rdb_Predicates_IsNotNull, h],
    by cases field <;> cases valueObject <;> simp [Rdb_Predicates_Like, h],
    by cases field <;> cases valueObject <;> simp [Rdb_Predicates_Between, h],
    by cases field <;> cases valueObject <;> simp [Rdb_Predicates_NotBetween, h],
    by cases field <;> cases valueObject <;> simp [Rdb_Predicates_GreaterThan, h],
    by cases field <;> cases valueObject <;> simp [Rdb_Predicates_LessThan, h],
    by cases field <;> cases valueObject <;> simp [Rdb_Predicates_GreaterThanOrEqualTo, h],
    by cases field <;> cases valueObject <;> simp [Rdb_Predicates_LessThanOrEqualTo, h],
    by cases field <;> simp [Rdb_Predicates_OrderBy, h],
    by simp [Rdb_Predicates_Distinct, h],
    by simp [Rdb_Predicates_Limit, h],
    by simp [Rdb_Predicates_Offset, h],
    by cases fields <;> simp [Rdb_Predicates_GroupBy, h],
    by cases valueObject <;> simp [Rdb_Predicates_In, h],
    by cases valueObject <;> simp [Rdb_Predicates_NotIn, h],
    by simp [Rdb_Predicates_Clear, h]⟩

/-- On a handle that is not null, a null `field`, value object or `fields` array
that the builder checks makes it return the object as it was. -/
theorem Rdb_Predicates_null_argument_unchanged (k : NdkConstants) (p : PredicateImpl)
    (field : Option String) (valueObject : Option (List String)) (type : OH_OrderType)
    (length : Int) :
    Rdb_Predicates_EqualTo k (some p) none valueObject = some p
      ∧ Rdb_Predicates_EqualTo k (some p) field none = some p
      ∧ Rdb_Predicates_NotEqualTo k (some p) none valueObject = some p
      ∧ Rdb_Predicates_NotEqualTo k (some p) field none = some p
      ∧ Rdb_Predicates_IsNull k (some p) none = some p
      ∧ Rdb_Predicates_IsNotNull k (some p) none = some p
      ∧ Rdb_Predicates_Like k (some p) none valueObject = some p
      ∧ Rdb_Predicates_Like k (some p) field none = some p
      ∧ Rdb_Predicates_Between k (some p) none valueObject = some p
      ∧ Rdb_Predicates_Between k (some p) field none = some p
      ∧ Rdb_Predicates_NotBetween k (some p) none valueObject = some p
      ∧ Rdb_Predicates_NotBetween k (some p) field none = some p
      ∧ Rdb_Predicates_GreaterThan k (some p) none valueObject = some p
      ∧ Rdb_Predicates_GreaterThan k (some p) field none = some p
      ∧ Rdb_Predicates_LessThan k (some p) none valueObject = some p
      ∧ Rdb_Predicates_LessThan k (some p) field none = some p
      ∧ Rdb_Predicates_GreaterThanOrEqualTo k (some p) none valueObject = some p
      ∧ Rdb_Predicates_GreaterThanOrEqualTo k (some p) field none = some p
      ∧ Rdb_Predicates_LessThanOrEqualTo k (some p) none valueObject = some p
      ∧ Rdb_Predicates_LessThanOrEqualTo k (some p) field none = some p
      ∧ Rdb_Predicates_OrderBy k (some p) none type = some p
      ∧ Rdb_Predicates_GroupBy k (some p) none length = some p
      ∧ Rdb_Predicates_In k (some p) field none = some p
      ∧ Rdb_Predicates_NotIn k (some p) field none = some p :=
  ⟨by cases valueObject <;> simp [Rdb_Predicates_EqualTo],
    by cases field <;> simp [Rdb_Predicates_EqualTo],
    by cases valueObject <;> simp [Rdb_Predicates_NotEqualTo],
    by cases field <;> simp [Rdb_Predicates_NotEqualTo],
    by simp [Rdb_Predicates_IsNull],
    by simp [Rdb_Predicates_IsNotNull],
    by cases valueObject <;> simp [Rdb_Predicates_Like],
    by cases field <;> simp [Rdb_Predicates_Like],
    by cases valueObject <;> simp [Rdb_Predicates_Between],
    by cases field <;> simp [Rdb_Predicates_Between],
    by cases valueObject <;> simp [Rdb_Predicates_NotBetween],
    by cases field <;> simp [Rdb_Predicates_NotBetween],
    by cases valueObject <;> simp [Rdb_Predicates_GreaterThan],
    by cases field <;> simp [Rdb_Predicates_GreaterThan],
    by cases valueObject <;> simp [Rdb_Predicates_LessThan],
    by cases field <;> simp [Rdb_Predicates_LessThan],
    by cases valueObject <;> simp [Rdb_Predicates_GreaterThanOrEqualTo],
    by cases field <;> simp [Rdb_Predicates_GreaterThanOrEqualTo],
    by cases valueObject <;> simp [Rdb_Predicates_LessThanOrEqualTo],
    by cases field <;> simp [Rdb_Predicates_LessThanOrEqualTo],
    by simp [Rdb_Predicates_OrderBy],
    by simp [Rdb_Predicates_GroupBy],
    by simp [Rdb_Predicates_In],
    by simp [Rdb_Predicates_NotIn]⟩

/-- C30, evaluated on the code: on a null predicates handle every builder
`Rdb_Predicates_*` dereferences the handle (each of them ends its check of the
arguments with `return *predicates;`), whatever the other arguments are; and on
a valid handle `Rdb_Predicates_In` and `Rdb_Predicates_NotIn` with a null
`field` make the call on the predicates object instead of leaving it as it
was. -/
theorem Rdb_Predicates_null_handle_is_dereferenced (k : NdkConstants)
    (field : Option String) (valueObject : Option (List String)) (type : OH_OrderType)
    (value : Nat) (fields : Option (List String)) (length : Int) :
    Rdb_Predicates_EqualTo k none field valueObject = none
      ∧ Rdb_Predicates_NotEqualTo k none field valueObject = none
      ∧ Rdb_Predicates_BeginWrap k none = none
      ∧ Rdb_Predicates_EndWrap k none = none
      ∧ Rdb_Predicates_Or k none = none
      ∧ Rdb_Predicates_And k none = none
      ∧ Rdb_Predicates_IsNull k none field = none
      ∧ Rdb_Predicates_IsNotNull k none field = none
      ∧ Rdb_Predicates_Like k none field valueObject = none
      ∧ Rdb_Predicates_Between k none field valueObject = none
      ∧ Rdb_Predicates_NotBetween k none field valueObject = none
      ∧ Rdb_Predicates_GreaterThan k none field valueObject = none
      ∧ Rdb_Predicates_LessThan k none field valueObject = none
      ∧ Rdb_Predicates_GreaterThanOrEqualTo k none field valueObject = none
      ∧ Rdb_Predicates_LessThanOrEqualTo k none field valueObject = none
      ∧ Rdb_Predicates_OrderBy k none field type = none
      ∧ Rdb_Predicates_Distinct k none = none
      ∧ Rdb_Predicates_Limit k none value = none
      ∧ Rdb_Predicates_Offset k none value = none
      ∧ Rdb_Predicates_GroupBy k none fields length = none
      ∧ Rdb_Predicates_In k none field valueObject = none
      ∧ Rdb_Predicates_NotIn k none field valueObject = none
      ∧ Rdb_Predicates_Clear k none = none
      ∧ Rdb_Predicates_In NdkConstants.sample (some PredicateImpl.fresh) none (some ["1", "2"])
          = some { id := 1234561, predicates_ := [PredicateCall.In none ["1", "2"]] }
      ∧ Rdb_Predicates_NotIn NdkConstants.sample (some PredicateImpl.fresh) none
          (some ["1", "2"])
          = some { id := 1234561, predicates_ := [PredicateCall.NotIn none ["1", "2"]] } := by
  refine ⟨rfl, rfl, rfl, rfl, rfl, rfl, rfl, rfl, rfl, rfl, rfl, rfl, rfl, rfl, rfl, rfl, rfl, rfl, rfl, rfl, rfl, rfl, rfl, by decide, by decide⟩

end NativeRdb
